import Mathlib

/-! Teacup firmware: `process_gcode_command` (gcode_process.c).

A shallow embedding of the command interpreter of `gcode_process.c` together
with theorems about its behaviour.

Modelling conventions.

* The globals of the C file (`next_target`, `startpoint`, `current_position`,
  `tool`, `next_tool`, `steptimeout`, `debug_flags`, `eeconfig`, `sdflags`,
  `fr`) are the fields of `Machine`; `process_gcode_command` is a function
  `Machine → Machine`.
* Calls to functions defined in other files (`enqueue`, `queue_wait`,
  `temp_set`, `sersendf_P`, ...) are recorded, in call order, in
  `Machine.trace`. Values returned by collaborators (`temp_achieved()`, the
  `FRESULT`s, the clock flag, a memory read) are inputs, gathered in `Env`.
* `enqueue` also writes the global `startpoint`: the move it creates starts
  where the previous one ended (the comment at lines 100-104 places
  `startpoint.E = 0` at the end of `dda_create()`, and M101 / M103 save and
  restore `startpoint.F` around their move). The queue code is in dda.c and
  dda_queue.c; what a call leaves in `startpoint` is the input
  `Env.enqueue_startpoint`, over which the theorems quantify.
* `eeconfig.temptable` is an array: a list of rows, indexed from 0. A store
  through an index that is not a row of the table lands outside the table;
  what it leaves in `eeconfig` depends on the memory layout and is the input
  `Env.store_outside_table`.
* Preprocessor symbols of `config.h` are the fields of `Config`; an
  `#ifdef` becomes a test on an `Option` or `Bool` field.
* `int32_t` arithmetic wraps (`wrapI32`), `uint32_t` arithmetic is taken
  modulo `2 ^ 32`. The travel limits are `double` constant expressions; they
  are modelled by exact rationals, and the conversion to `int32_t` on
  assignment truncates towards zero (the constants are taken to fit an
  `int32_t`, the conversion being undefined in C otherwise).
* `for (;;) wd_reset();` of M2 never returns: it is recorded by the flag
  `Machine.wd_loop`.
-/

namespace Teacup

/-! ## Data model -/

/-- The `TARGET` record of dda.h: axis positions, feed rate and tool. -/
structure TARGET where
  X : Int
  Y : Int
  Z : Int
  E : Int
  F : Nat
  T : Nat
  deriving DecidableEq, Repr

/-- The `GCODE_COMMAND` record of gcode_parse.h (the fields this file reads
or writes). -/
structure GCODE_COMMAND where
  seen_G : Bool
  seen_M : Bool
  seen_X : Bool
  seen_Y : Bool
  seen_Z : Bool
  seen_E : Bool
  seen_F : Bool
  seen_S : Bool
  seen_P : Bool
  seen_T : Bool
  option_relative : Bool
  option_inches : Bool
  G : Nat
  M : Nat
  target : TARGET
  S : Int
  P : Nat
  T : Nat
  deriving DecidableEq, Repr

/-- One row of `eeconfig.temptable`. -/
structure TEMPTABLE_ENTRY where
  adc_value : Int
  temperature : Int
  deriving DecidableEq, Repr

/-- The persisted configuration record `eeconfig` of eeconfig.h (the fields
written by M244 .. M255). The thermistor table is an array of rows; its length
is the number of rows declared in eeconfig.h. -/
structure EECONFIG where
  baud : Int
  temptable : List TEMPTABLE_ENTRY
  temp_residency : Nat
  min_endstop_pos_z : Int
  max_speed_x : Int
  max_speed_y : Int
  max_speed_z : Int
  max_speed_e : Int
  size_x : Int
  size_y : Int
  size_z : Int
  steps_per_mm_x : Int
  steps_per_mm_y : Int
  steps_per_mm_z : Int
  steps_per_mm_e : Int
  deriving DecidableEq, Repr

/-- The two members of a row of `eeconfig.temptable`. -/
inductive TEMPTABLE_MEMBER where
  | adc_value
  | temperature
  deriving DecidableEq, Repr

/-- Preprocessor configuration (config.h, debug.h, sd.h, ff.h). A symbol that
may be undefined is an `Option` (or a `Bool` when it carries no value). -/
structure Config where
  X_MIN : Option ℚ
  X_MAX : Option ℚ
  Y_MIN : Option ℚ
  Y_MAX : Option ℚ
  Z_MIN : Option ℚ
  Z_MAX : Option ℚ
  STEPS_PER_MM_Y : ℚ
  STEPS_PER_MM_Z : ℚ
  UM_PER_STEP_Y : Int
  UM_PER_STEP_Z : Int
  UM_PER_STEP_E : Int
  E_ABSOLUTE : Bool
  SEARCH_FEEDRATE_X : Nat
  SEARCH_FEEDRATE_Y : Nat
  SEARCH_FEEDRATE_Z : Nat
  MAXIMUM_FEEDRATE_X : Nat
  MAXIMUM_FEEDRATE_E : Nat
  DC_EXTRUDER : Option Nat
  DC_EXTRUDER_PWM : Nat
  E_STARTSTOP_STEPS : Int
  HEATER_FAN : Option Nat
  HEATER_BED : Option Nat
  NUM_TEMP_SENSORS : Nat
  NUM_HEATERS : Nat
  DEBUG : Bool
  DEBUG_POSITION : Nat
  DEBUG_ECHO : Nat
  EECONFIG : Bool
  SD : Bool
  SDFLAG_MOUNTED : Nat
  SDFLAG_READING : Nat
  SDFLAG_WRITING : Nat
  ACCELERATION_REPRAP : Bool

/-- Values handed back by the collaborators during one command. -/
structure Env where
  /-- result of `temp_achieved()` -/
  temp_achieved : Nat
  /-- the flag `clock_flag_10ms` as seen by the dwell loop when `P` has the given value -/
  clock_flag_10ms : Nat → Bool
  /-- result of `f_mount` (`FR_OK` is 0) -/
  f_mount : Nat
  /-- result of `f_opendir` -/
  f_opendir : Nat
  /-- result of `f_open` -/
  f_open : Nat
  /-- result of `f_lseek` -/
  f_lseek : Nat
  /-- result of `disk_initialize` (a status byte, 0 when the drive is ready) -/
  disk_init : Nat
  /-- result of `f_close` -/
  f_close : Nat
  /-- the byte read at an address (M353, M354) -/
  mem : Int → Nat
  /-- the fields `c`, `endpoint` and `end_c` of `movebuffer[mb_tail]` (M350) -/
  mb_c : Nat
  mb_endpoint : TARGET
  mb_end_c : Nat
  /-- the value `enqueue` leaves in `startpoint`, given the target handed over
  (`none` for `enqueue(NULL)`) and the `startpoint` it finds -/
  enqueue_startpoint : Option TARGET → TARGET → TARGET
  /-- the value of `eeconfig` after a store of a value through
  `eeconfig.temptable[S].member` when `S` is not a row of the table -/
  store_outside_table : EECONFIG → Int → TEMPTABLE_MEMBER → Int → EECONFIG

/-- An argument of a formatted message. -/
inductive Arg where
  | num (i : Int)
  | sdbuffer
  deriving DecidableEq, Repr

/-- The file-open modes used by M23 and M28. -/
inductive OpenMode where
  | read_existing
  | write_create_always
  deriving DecidableEq, Repr

/-- A call to a function of another file, with its arguments. -/
inductive Event where
  | enqueue (t : Option TARGET)
  | queue_wait
  | queue_flush
  | print_queue
  | timer_stop
  | clock_10ms
  | delay_ms (n : Nat)
  | home_x_negative
  | home_y_negative
  | home_z_negative
  | home_x_positive
  | home_y_positive
  | home_z_positive
  | x_enable
  | y_enable
  | z_enable
  | e_enable
  | x_disable
  | y_disable
  | z_disable
  | e_disable
  | power_on
  | power_off
  | heater_set (h : Nat) (v : Int)
  | temp_set (p : Nat) (s : Int)
  | temp_print (p : Nat)
  | enable_heater
  | disable_heater
  | pid_set_p (p : Nat) (s : Int)
  | pid_set_i (p : Nat) (s : Int)
  | pid_set_d (p : Nat) (s : Int)
  | pid_set_i_limit (p : Nat) (s : Int)
  | heater_save_settings
  | heater_print (p : Nat)
  | sersendf_P (fmt : String) (args : List Arg)
  | serial_writestr_P (s : String)
  | serwrite_hex8 (v : Nat)
  | mem_write (addr : Int) (v : Nat)
  | disk_init (drv : Nat)
  | f_mount
  | f_opendir
  | f_open (mode : OpenMode)
  | f_close
  | f_lseek (ofs : Int)
  deriving DecidableEq, Repr

/-- The globals of gcode_process.c and of the files it shares state with, the
calls made so far, and whether the non-returning loop of M2 was entered. -/
structure Machine where
  next_target : GCODE_COMMAND
  startpoint : TARGET
  current_position : TARGET
  tool : Nat
  next_tool : Nat
  steptimeout : Nat
  debug_flags : Nat
  eeconfig : EECONFIG
  sdflags : Nat
  fr : Nat
  trace : List Event
  wd_loop : Bool

/-- The result code `FR_OK` of ff.h. -/
def FR_OK : Nat := 0

/-! ## Machine arithmetic -/

/-- Two's-complement wrap of an integer into the `int32_t` range. -/
def wrapI32 (x : Int) : Int := (x + 2 ^ 31) % 2 ^ 32 - 2 ^ 31

/-- Conversion of a `double` to `int32_t`: the fractional part is discarded
(truncation towards zero). -/
def double_to_int32 (q : ℚ) : Int := if 0 ≤ q then ⌊q⌋ else ⌈q⌉

/-- Record a call in the trace. -/
def Machine.call (m : Machine) (e : Event) : Machine :=
  { m with trace := m.trace ++ [e] }

/-- The call `enqueue(t)` of dda_queue.c (`t = none` is `enqueue(NULL)`): it is
recorded in the trace, and the queue code writes `startpoint`. -/
def enqueue (env : Env) (t : Option TARGET) (m : Machine) : Machine :=
  { m with
    trace := m.trace ++ [.enqueue t],
    startpoint := env.enqueue_startpoint t m.startpoint }

/-- The C expression `a & ~b` on unsigned values. -/
def and_not (a b : Nat) : Nat := a ^^^ (a &&& b)

/-! ## Private functions: moves built without a G-code command -/

/-- The function `zero_x`: move to X = 0. -/
def zero_x (cfg : Config) (env : Env) (m : Machine) : Machine :=
  let t := m.startpoint
  let t := { t with X := 0 }
  let t := { t with F := cfg.SEARCH_FEEDRATE_X }
  enqueue env (some t) m

/-- The function `zero_y`: move to Y = 0. -/
def zero_y (cfg : Config) (env : Env) (m : Machine) : Machine :=
  let t := m.startpoint
  let t := { t with Y := 0 }
  let t := { t with F := cfg.SEARCH_FEEDRATE_Y }
  enqueue env (some t) m

/-- The function `zero_z`: move to Z = 0. -/
def zero_z (cfg : Config) (env : Env) (m : Machine) : Machine :=
  let t := m.startpoint
  let t := { t with Z := 0 }
  let t := { t with F := cfg.SEARCH_FEEDRATE_Z }
  enqueue env (some t) m

/-- The function `SpecialMoveE`: move E by a certain amount at a certain
speed (compiled when `E_STARTSTOP_STEPS > 0`). -/
def SpecialMoveE (env : Env) (e : Int) (f : Nat) (m : Machine) : Machine :=
  let t := m.startpoint
  let t := { t with E := wrapI32 (t.E + e) }
  let t := { t with F := f }
  enqueue env (some t) m

/-! ## `process_gcode_command`, stage by stage -/

/-- Lines 91-99: convert relative to absolute. -/
def convert_relative (cfg : Config) (m : Machine) : Machine :=
  if m.next_target.option_relative then
    let t := m.next_target.target
    let t := { t with X := wrapI32 (t.X + m.startpoint.X) }
    let t := { t with Y := wrapI32 (t.Y + m.startpoint.Y) }
    let t := { t with Z := wrapI32 (t.Z + m.startpoint.Z) }
    let t := if cfg.E_ABSOLUTE then { t with E := wrapI32 (t.E + m.startpoint.E) } else t
    { m with next_target := { m.next_target with target := t } }
  else m

/-- Lines 107-110, compiled when `X_MIN` is defined. -/
def limit_X_MIN (cfg : Config) (t : TARGET) : TARGET :=
  match cfg.X_MIN with
  | some X_MIN =>
    if (t.X : ℚ) < X_MIN * 1000 then { t with X := double_to_int32 (X_MIN * 1000) } else t
  | none => t

/-- Lines 111-114, compiled when `X_MAX` is defined. -/
def limit_X_MAX (cfg : Config) (t : TARGET) : TARGET :=
  match cfg.X_MAX with
  | some X_MAX =>
    if (t.X : ℚ) > X_MAX * 1000 then { t with X := double_to_int32 (X_MAX * 1000) } else t
  | none => t

/-- Lines 115-118, compiled when `Y_MIN` is defined. -/
def limit_Y_MIN (cfg : Config) (t : TARGET) : TARGET :=
  match cfg.Y_MIN with
  | some Y_MIN =>
    if (t.Y : ℚ) < Y_MIN * cfg.STEPS_PER_MM_Y then
      { t with Y := double_to_int32 (Y_MIN * cfg.STEPS_PER_MM_Y) } else t
  | none => t

/-- Lines 119-122, compiled when `Y_MAX` is defined. -/
def limit_Y_MAX (cfg : Config) (t : TARGET) : TARGET :=
  match cfg.Y_MAX with
  | some Y_MAX =>
    if (t.Y : ℚ) > Y_MAX * cfg.STEPS_PER_MM_Y then
      { t with Y := double_to_int32 (Y_MAX * cfg.STEPS_PER_MM_Y) } else t
  | none => t

/-- Lines 123-126, compiled when `Z_MIN` is defined. -/
def limit_Z_MIN (cfg : Config) (t : TARGET) : TARGET :=
  match cfg.Z_MIN with
  | some Z_MIN =>
    if (t.Z : ℚ) < Z_MIN * cfg.STEPS_PER_MM_Z then
      { t with Z := double_to_int32 (Z_MIN * cfg.STEPS_PER_MM_Z) } else t
  | none => t

/-- Lines 127-130, compiled when `Z_MAX` is defined. -/
def limit_Z_MAX (cfg : Config) (t : TARGET) : TARGET :=
  match cfg.Z_MAX with
  | some Z_MAX =>
    if (t.Z : ℚ) > Z_MAX * cfg.STEPS_PER_MM_Z then
      { t with Z := double_to_int32 (Z_MAX * cfg.STEPS_PER_MM_Z) } else t
  | none => t

/-- Lines 106-130: implement axis limits. -/
def axis_limits (cfg : Config) (m : Machine) : Machine :=
  let t := m.next_target.target
  let t := limit_X_MIN cfg t
  let t := limit_X_MAX cfg t
  let t := limit_Y_MIN cfg t
  let t := limit_Y_MAX cfg t
  let t := limit_Z_MIN cfg t
  let t := limit_Z_MAX cfg t
  { m with next_target := { m.next_target with target := t } }

/-- Lines 133-135: `if (next_target.seen_T) next_tool = next_target.T;`. -/
def select_next_tool (m : Machine) : Machine :=
  if m.next_target.seen_T then { m with next_tool := m.next_target.T } else m

/-- Lines 91-135: everything done before the dispatch on the code family. -/
def normalize (cfg : Config) (m : Machine) : Machine :=
  select_next_tool (axis_limits cfg (convert_relative cfg m))

/-- Lines 280-283: the position debug output after a handled G-code. -/
def debug_position (cfg : Config) (m : Machine) : Machine :=
  if cfg.DEBUG then
    if cfg.DEBUG_POSITION ≠ 0 ∧ (m.debug_flags &&& cfg.DEBUG_POSITION) ≠ 0 then
      m.call .print_queue
    else m
  else m

/-- G0: rapid, unsynchronised motion. -/
def case_G0 (cfg : Config) (env : Env) (m : Machine) : Machine :=
  let backup_f := m.next_target.target.F
  let m := { m with next_target := { m.next_target with
    target := { m.next_target.target with F := (cfg.MAXIMUM_FEEDRATE_X * 2) % 2 ^ 32 } } }
  let m := enqueue env (some m.next_target.target) m
  { m with next_target := { m.next_target with
    target := { m.next_target.target with F := backup_f } } }

/-- G1: synchronised motion. -/
def case_G1 (env : Env) (m : Machine) : Machine :=
  enqueue env (some m.next_target.target) m

/-- The delay loop of G4: `for (;next_target.P > 0;next_target.P--)`; the
first argument is the value of `next_target.P` at the loop test. -/
def dwell_loop (env : Env) : Nat → Machine → Machine
  | 0, m => m
  | P + 1, m =>
    let m := if env.clock_flag_10ms (P + 1) then m.call .clock_10ms else m
    let m := m.call (.delay_ms 1)
    dwell_loop env P { m with next_target := { m.next_target with P := P } }

/-- G4: dwell. -/
def case_G4 (env : Env) (m : Machine) : Machine :=
  let m := m.call .queue_wait
  dwell_loop env m.next_target.P m

/-- G28: go home. Also the tail of G30, which falls through into it. -/
def case_G28 (cfg : Config) (env : Env) (m : Machine) : Machine :=
  let axisSelected := false
  let m := m.call .queue_wait
  let (m, axisSelected) :=
    if m.next_target.seen_X then (zero_x cfg env m, true) else (m, axisSelected)
  let (m, axisSelected) :=
    if m.next_target.seen_Y then (zero_y cfg env m, true) else (m, axisSelected)
  let (m, axisSelected) :=
    if m.next_target.seen_Z then (zero_z cfg env m, true) else (m, axisSelected)
  if !axisSelected then
    zero_z cfg env (zero_y cfg env (zero_x cfg env m))
  else m

/-- G30: go home via point: the move, then (no break) the code of G28. -/
def case_G30 (cfg : Config) (env : Env) (m : Machine) : Machine :=
  let m := enqueue env (some m.next_target.target) m
  case_G28 cfg env m

/-- G92: set home. -/
def case_G92 (cfg : Config) (m : Machine) : Machine :=
  let axisSelected := false
  let m := m.call .queue_wait
  let (m, axisSelected) :=
    if m.next_target.seen_X then
      ({ m with
          current_position := { m.current_position with X := m.next_target.target.X },
          startpoint := { m.startpoint with X := m.next_target.target.X } }, true)
    else (m, axisSelected)
  let (m, axisSelected) :=
    if m.next_target.seen_Y then
      ({ m with
          current_position := { m.current_position with Y := m.next_target.target.Y },
          startpoint := { m.startpoint with Y := m.next_target.target.Y } }, true)
    else (m, axisSelected)
  let (m, axisSelected) :=
    if m.next_target.seen_Z then
      ({ m with
          current_position := { m.current_position with Z := m.next_target.target.Z },
          startpoint := { m.startpoint with Z := m.next_target.target.Z } }, true)
    else (m, axisSelected)
  let (m, axisSelected) :=
    if m.next_target.seen_E then
      (if cfg.E_ABSOLUTE then
        { m with
          current_position := { m.current_position with E := m.next_target.target.E },
          startpoint := { m.startpoint with E := m.next_target.target.E } }
       else m, true)
    else (m, axisSelected)
  if axisSelected = false then
    { m with
      next_target := { m.next_target with
        target := { m.next_target.target with X := 0, Y := 0, Z := 0 } },
      current_position := { m.current_position with X := 0, Y := 0, Z := 0 },
      startpoint := { m.startpoint with X := 0, Y := 0, Z := 0 } }
  else m

/-- G161: home negative. -/
def case_G161 (m : Machine) : Machine :=
  let m := if m.next_target.seen_X then m.call .home_x_negative else m
  let m := if m.next_target.seen_Y then m.call .home_y_negative else m
  if m.next_target.seen_Z then m.call .home_z_negative else m

/-- G162: home positive. -/
def case_G162 (m : Machine) : Machine :=
  let m := if m.next_target.seen_X then m.call .home_x_positive else m
  let m := if m.next_target.seen_Y then m.call .home_y_positive else m
  if m.next_target.seen_Z then m.call .home_z_positive else m

/-- Lines 139-279: `switch (next_target.G)`. A handled code leaves the switch
by `break` and reaches the debug output; the default case returns. -/
def switch_G (cfg : Config) (env : Env) (m : Machine) : Machine :=
  let G := m.next_target.G
  if G = 0 then debug_position cfg (case_G0 cfg env m)
  else if G = 1 then debug_position cfg (case_G1 env m)
  else if G = 4 then debug_position cfg (case_G4 env m)
  else if G = 20 then
    debug_position cfg { m with next_target := { m.next_target with option_inches := true } }
  else if G = 21 then
    debug_position cfg { m with next_target := { m.next_target with option_inches := false } }
  else if G = 30 then debug_position cfg (case_G30 cfg env m)
  else if G = 28 then debug_position cfg (case_G28 cfg env m)
  else if G = 90 then
    debug_position cfg { m with next_target := { m.next_target with option_relative := false } }
  else if G = 91 then
    debug_position cfg { m with next_target := { m.next_target with option_relative := true } }
  else if G = 92 then debug_position cfg (case_G92 cfg m)
  else if G = 161 then debug_position cfg (case_G161 m)
  else if G = 162 then debug_position cfg (case_G162 m)
  else m.call (.sersendf_P "E: Bad G-code %d" [.num m.next_target.G])

/-- The statement `if (!next_target.seen_P) next_target.P = next_target.target.T;`
of M104, M105 and M109. -/
def default_P (m : Machine) : Machine :=
  if !m.next_target.seen_P then
    { m with next_target := { m.next_target with P := m.next_target.target.T } }
  else m

/-- M2: program end. The final loop `for (;;) wd_reset();` does not return. -/
def case_M2 (m : Machine) : Machine :=
  let m := m.call .timer_stop
  let m := m.call .queue_flush
  let m := m.call .x_disable
  let m := m.call .y_disable
  let m := m.call .z_disable
  let m := m.call .e_disable
  let m := m.call .power_off
  { m with wd_loop := true }

/-- M3 / M101: extruder on. -/
def case_M101 (cfg : Config) (env : Env) (m : Machine) : Machine :=
  let m := if env.temp_achieved = 0 then enqueue env none m else m
  match cfg.DC_EXTRUDER with
  | some DC_EXTRUDER => m.call (.heater_set DC_EXTRUDER cfg.DC_EXTRUDER_PWM)
  | none =>
    if cfg.E_STARTSTOP_STEPS > 0 then
      let backup_f := m.startpoint.F
      let m := { m with startpoint := { m.startpoint with F := cfg.MAXIMUM_FEEDRATE_E } }
      let m := SpecialMoveE env cfg.E_STARTSTOP_STEPS cfg.MAXIMUM_FEEDRATE_E m
      { m with startpoint := { m.startpoint with F := backup_f } }
    else m

/-- M5 / M103: extruder off. -/
def case_M103 (cfg : Config) (env : Env) (m : Machine) : Machine :=
  match cfg.DC_EXTRUDER with
  | some DC_EXTRUDER => m.call (.heater_set DC_EXTRUDER 0)
  | none =>
    if cfg.E_STARTSTOP_STEPS > 0 then
      let backup_f := m.startpoint.F
      let m := { m with startpoint := { m.startpoint with F := cfg.MAXIMUM_FEEDRATE_E } }
      let m := SpecialMoveE env (-cfg.E_STARTSTOP_STEPS) cfg.MAXIMUM_FEEDRATE_E m
      { m with startpoint := { m.startpoint with F := backup_f } }
    else m

/-- M104: set temperature. -/
def case_M104 (m : Machine) : Machine :=
  let m := default_P m
  let m := m.call (.temp_set m.next_target.P m.next_target.S)
  if m.next_target.S ≠ 0 then m.call .power_on else m

/-- M105: get temperature. -/
def case_M105 (m : Machine) : Machine :=
  let m := default_P m
  m.call (.temp_print m.next_target.P)

/-- M7 / M106: fan on. -/
def case_M106 (cfg : Config) (m : Machine) : Machine :=
  match cfg.HEATER_FAN with
  | some HEATER_FAN => m.call (.heater_set HEATER_FAN 255)
  | none => m

/-- M9 / M107: fan off. -/
def case_M107 (cfg : Config) (m : Machine) : Machine :=
  match cfg.HEATER_FAN with
  | some HEATER_FAN => m.call (.heater_set HEATER_FAN 0)
  | none => m

/-- M109: set temp and wait. -/
def case_M109 (env : Env) (m : Machine) : Machine :=
  let m := default_P m
  let m := if m.next_target.seen_S then
      m.call (.temp_set m.next_target.P m.next_target.S) else m
  let m := if m.next_target.S ≠ 0 then
      (m.call .power_on).call .enable_heater
    else m.call .disable_heater
  enqueue env none m

/-- M112: immediate stop. -/
def case_M112 (m : Machine) : Machine :=
  let m := m.call .timer_stop
  let m := m.call .queue_flush
  m.call .power_off

/-- M114: report XYZEF to host. -/
def case_M114 (cfg : Config) (m : Machine) : Machine :=
  m.call (.sersendf_P "X:%lq,Y:%lq,Z:%lq,E:%lq,F:%ld"
    [.num m.current_position.X,
     .num (wrapI32 (m.current_position.Y * cfg.UM_PER_STEP_Y)),
     .num (wrapI32 (m.current_position.Z * cfg.UM_PER_STEP_Z)),
     .num (wrapI32 (m.current_position.E * cfg.UM_PER_STEP_E)),
     .num m.current_position.F])

/-- M115: capabilities string. -/
def case_M115 (cfg : Config) (m : Machine) : Machine :=
  m.call (.sersendf_P "FIRMWARE_NAME:Teacup FIRMWARE_URL:http%%3A//github.com/triffid/Teacup_Firmware/ PROTOCOL_VERSION:1.0 MACHINE_TYPE:Mendel EXTRUDER_COUNT:%d TEMP_SENSOR_COUNT:%d HEATER_COUNT:%d"
    [.num 1, .num cfg.NUM_TEMP_SENSORS, .num cfg.NUM_HEATERS])

/-- M135 / M247: set heater output. -/
def case_M135 (m : Machine) : Machine :=
  if m.next_target.seen_S then
    (m.call (.heater_set m.next_target.P m.next_target.S)).call .power_on
  else m

/-- M140: set heated bed temperature. -/
def case_M140 (cfg : Config) (m : Machine) : Machine :=
  match cfg.HEATER_BED with
  | some HEATER_BED =>
    let m := m.call (.temp_set HEATER_BED m.next_target.S)
    if m.next_target.S ≠ 0 then m.call .power_on else m
  | none => m

/-- M190: power on. -/
def case_M190 (m : Machine) : Machine :=
  let m := m.call .power_on
  let m := m.call .x_enable
  let m := m.call .y_enable
  let m := m.call .z_enable
  let m := m.call .e_enable
  { m with steptimeout := 0 }

/-- M191: power off. -/
def case_M191 (m : Machine) : Machine :=
  let m := m.call .x_disable
  let m := m.call .y_disable
  let m := m.call .z_disable
  let m := m.call .e_disable
  m.call .power_off

/-- M244: set baudrate. -/
def case_M244 (m : Machine) : Machine :=
  if m.next_target.seen_S then
    if m.next_target.S ≥ 1200 ∧ m.next_target.S ≤ 1000000 then
      { m with eeconfig := { m.eeconfig with baud := m.next_target.S } }
    else m
  else m

/-- The assignment `eeconfig.temptable[S].member = v`. The index is not
checked by the code: when `S` is a row of the table the member of that row is
written, otherwise the store lands outside the table. -/
def store_temptable (env : Env) (e : EECONFIG) (S : Int) (member : TEMPTABLE_MEMBER)
    (v : Int) : EECONFIG :=
  if 0 ≤ S ∧ S < e.temptable.length then
    let row := e.temptable.getD S.toNat ⟨0, 0⟩
    let row := match member with
      | .adc_value => { row with adc_value := v }
      | .temperature => { row with temperature := v }
    { e with temptable := e.temptable.set S.toNat row }
  else env.store_outside_table e S member v

/-- M245: write temp table value, S(index), X(adc reading), Y(temperature). -/
def case_M245 (env : Env) (m : Machine) : Machine :=
  if m.next_target.seen_S ∧ m.next_target.seen_X ∧ m.next_target.seen_Y then
    let S := m.next_target.S
    let e := store_temptable env m.eeconfig S .adc_value m.next_target.target.X
    let e := store_temptable env e S .temperature m.next_target.target.Y
    { m with eeconfig := e }
  else m

/-- M249: temp residency time. -/
def case_M249 (m : Machine) : Machine :=
  if m.next_target.seen_P then
    { m with eeconfig := { m.eeconfig with temp_residency := m.next_target.P } }
  else m

/-- M250: Z min endstop position. -/
def case_M250 (m : Machine) : Machine :=
  if m.next_target.seen_Z then
    { m with eeconfig := { m.eeconfig with min_endstop_pos_z := m.next_target.target.Z } }
  else m

/-- M253: max speeds. -/
def case_M253 (m : Machine) : Machine :=
  let m := if m.next_target.seen_X then
    { m with eeconfig := { m.eeconfig with max_speed_x := m.next_target.target.X } } else m
  let m := if m.next_target.seen_Y then
    { m with eeconfig := { m.eeconfig with max_speed_y := m.next_target.target.Y } } else m
  let m := if m.next_target.seen_Z then
    { m with eeconfig := { m.eeconfig with max_speed_z := m.next_target.target.Z } } else m
  if m.next_target.seen_E then
    { m with eeconfig := { m.eeconfig with max_speed_e := m.next_target.target.E } } else m

/-- M254: set build volume. -/
def case_M254 (m : Machine) : Machine :=
  let m := if m.next_target.seen_X then
    { m with eeconfig := { m.eeconfig with size_x := m.next_target.target.X } } else m
  let m := if m.next_target.seen_Y then
    { m with eeconfig := { m.eeconfig with size_y := m.next_target.target.Y } } else m
  if m.next_target.seen_Z then
    { m with eeconfig := { m.eeconfig with size_z := m.next_target.target.Z } } else m

/-- M255: set steps per mm. -/
def case_M255 (m : Machine) : Machine :=
  let m := if m.next_target.seen_X then
    { m with eeconfig := { m.eeconfig with steps_per_mm_x := m.next_target.target.X } } else m
  let m := if m.next_target.seen_Y then
    { m with eeconfig := { m.eeconfig with steps_per_mm_y := m.next_target.target.Y } } else m
  let m := if m.next_target.seen_Z then
    { m with eeconfig := { m.eeconfig with steps_per_mm_z := m.next_target.target.Z } } else m
  if m.next_target.seen_E then
    { m with eeconfig := { m.eeconfig with steps_per_mm_e := m.next_target.target.E } } else m

/-- M340: echo off. -/
def case_M340 (cfg : Config) (m : Machine) : Machine :=
  let m := { m with debug_flags := and_not m.debug_flags cfg.DEBUG_ECHO }
  m.call (.serial_writestr_P "Echo off")

/-- M341: echo on. -/
def case_M341 (cfg : Config) (m : Machine) : Machine :=
  let m := { m with debug_flags := m.debug_flags ||| cfg.DEBUG_ECHO }
  m.call (.serial_writestr_P "Echo on")

/-- M350: return current position, end position, queue. -/
def case_M350 (cfg : Config) (env : Env) (m : Machine) : Machine :=
  let m := m.call (.sersendf_P
    "\x7bX:%ld,Y:%ld,Z:%ld,E:%ld,F:%lu,c:%lu\x7d\t\x7bX:%ld,Y:%ld,Z:%ld,E:%ld,F:%lu,c:%lu\x7d\t"
    [.num m.current_position.X, .num m.current_position.Y, .num m.current_position.Z,
     .num m.current_position.E, .num m.current_position.F, .num env.mb_c,
     .num env.mb_endpoint.X, .num env.mb_endpoint.Y, .num env.mb_endpoint.Z,
     .num env.mb_endpoint.E, .num env.mb_endpoint.F,
     .num (if cfg.ACCELERATION_REPRAP then env.mb_end_c else env.mb_c)])
  m.call .print_queue

/-- The loop of M353: `for (; next_target.P; next_target.P--)`; the first
argument is the value of `next_target.P` at the loop test. -/
def read_memory_loop (env : Env) : Nat → Machine → Machine
  | 0, m => m
  | P + 1, m =>
    let m := m.call (.serwrite_hex8 (env.mem m.next_target.S))
    let m := { m with next_target := { m.next_target with S := m.next_target.S + 1 } }
    read_memory_loop env P { m with next_target := { m.next_target with P := P } }

/-- M353: read arbitrary memory location. -/
def case_M353 (env : Env) (m : Machine) : Machine :=
  let m := if m.next_target.seen_P = false then
      { m with next_target := { m.next_target with P := 1 } }
    else m
  read_memory_loop env m.next_target.P m

/-- M354: write arbitrary memory location. -/
def case_M354 (env : Env) (m : Machine) : Machine :=
  let m := m.call (.sersendf_P "%x:%x->%x"
    [.num m.next_target.S, .num (env.mem m.next_target.S), .num m.next_target.P])
  m.call (.mem_write m.next_target.S m.next_target.P)

/-- M21: initialise SD card. -/
def case_M21 (cfg : Config) (env : Env) (m : Machine) : Machine :=
  let m := m.call (.disk_init 0)
  let m := { m.call .f_mount with fr := env.f_mount }
  if m.fr = FR_OK then
    let m := { m.call .f_opendir with fr := env.f_opendir }
    if m.fr = FR_OK then
      let m := m.call (.serial_writestr_P "SD initialised")
      { m with sdflags := cfg.SDFLAG_MOUNTED }
    else
      m.call (.sersendf_P "E: read root directory failed: %sd!" [.num m.fr])
  else
    m.call (.sersendf_P "E: SD init failed: %sd!" [.num m.fr])

/-- M22: release SD card. -/
def case_M22 (m : Machine) : Machine :=
  let m := m.call .f_close
  { m with sdflags := 0 }

/-- M23: select file. -/
def case_M23 (env : Env) (m : Machine) : Machine :=
  let m := { m.call (.f_open .read_existing) with fr := env.f_open }
  if m.fr = FR_OK then
    m.call (.sersendf_P "\x27%t\x27 ready" [.sdbuffer])
  else
    m.call (.sersendf_P "E: could not open \x27%t\x27: %sd" [.sdbuffer, .num m.fr])

/-- M26: seek. -/
def case_M26 (env : Env) (m : Machine) : Machine :=
  let m := { m.call (.f_lseek m.next_target.S) with fr := env.f_lseek }
  if m.fr = FR_OK then
    m.call (.sersendf_P "Ready to print from %lu bytes" [.num m.next_target.S])
  else
    m.call (.sersendf_P "E: seek failed: %sd" [.num m.fr])

/-- M28: begin write. -/
def case_M28 (cfg : Config) (env : Env) (m : Machine) : Machine :=
  let m := { m.call (.f_open .write_create_always) with fr := env.f_open }
  if m.fr = FR_OK then
    let m := m.call (.sersendf_P "Ready to write to \x27%t\x27" [.sdbuffer])
    { m with sdflags := m.sdflags ||| cfg.SDFLAG_WRITING }
  else
    m.call (.sersendf_P "E: open failed: %sd" [.num m.fr])

/-- M29: stop writing. -/
def case_M29 (cfg : Config) (m : Machine) : Machine :=
  let m := { m with sdflags := and_not m.sdflags cfg.SDFLAG_WRITING }
  m.call .f_close

/-- Lines 286-677: `switch (next_target.M)`. The cases inside `#ifdef DEBUG`,
`#ifdef EECONFIG` and `#ifdef SD` exist only when the symbol is defined. -/
def switch_M (cfg : Config) (env : Env) (m : Machine) : Machine :=
  let M := m.next_target.M
  if M = 2 then case_M2 m
  else if M = 6 then
    { m with next_target := { m.next_target with
      target := { m.next_target.target with T := m.next_tool } } }
  else if M = 3 ∨ M = 101 then case_M101 cfg env m
  else if M = 5 ∨ M = 103 then case_M103 cfg env m
  else if M = 104 then case_M104 m
  else if M = 105 then case_M105 m
  else if M = 7 ∨ M = 106 then case_M106 cfg m
  else if M = 9 ∨ M = 107 then case_M107 cfg m
  else if M = 109 then case_M109 env m
  else if M = 110 then m
  else if M = 111 ∧ cfg.DEBUG then
    { m with debug_flags := (m.next_target.S % 256).toNat }
  else if M = 112 then case_M112 m
  else if M = 114 then case_M114 cfg m
  else if M = 115 then case_M115 cfg m
  else if M = 116 then enqueue env none m
  else if M = 130 then
    if m.next_target.seen_S then m.call (.pid_set_p m.next_target.P m.next_target.S) else m
  else if M = 131 then
    if m.next_target.seen_S then m.call (.pid_set_i m.next_target.P m.next_target.S) else m
  else if M = 132 then
    if m.next_target.seen_S then m.call (.pid_set_d m.next_target.P m.next_target.S) else m
  else if M = 133 then
    if m.next_target.seen_S then
      m.call (.pid_set_i_limit m.next_target.P m.next_target.S) else m
  else if M = 134 then m.call .heater_save_settings
  else if M = 135 ∨ M = 247 then case_M135 m
  else if M = 136 ∧ cfg.DEBUG then m.call (.heater_print m.next_target.P)
  else if M = 140 then case_M140 cfg m
  else if M = 190 then case_M190 m
  else if M = 191 then case_M191 m
  else if M = 244 ∧ cfg.EECONFIG then case_M244 m
  else if M = 245 ∧ cfg.EECONFIG then case_M245 env m
  else if M = 249 ∧ cfg.EECONFIG then case_M249 m
  else if M = 250 ∧ cfg.EECONFIG then case_M250 m
  else if M = 251 ∧ cfg.EECONFIG then m
  else if M = 253 ∧ cfg.EECONFIG then case_M253 m
  else if M = 254 ∧ cfg.EECONFIG then case_M254 m
  else if M = 255 ∧ cfg.EECONFIG then case_M255 m
  else if M = 340 ∧ cfg.DEBUG then case_M340 cfg m
  else if M = 341 ∧ cfg.DEBUG then case_M341 cfg m
  else if M = 350 ∧ cfg.DEBUG then case_M350 cfg env m
  else if M = 353 ∧ cfg.DEBUG then case_M353 env m
  else if M = 354 ∧ cfg.DEBUG then case_M354 env m
  else if M = 20 ∧ cfg.SD then m
  else if M = 21 ∧ cfg.SD then case_M21 cfg env m
  else if M = 22 ∧ cfg.SD then case_M22 m
  else if M = 23 ∧ cfg.SD then case_M23 env m
  else if M = 24 ∧ cfg.SD then { m with sdflags := m.sdflags ||| cfg.SDFLAG_READING }
  else if M = 25 ∧ cfg.SD then { m with sdflags := and_not m.sdflags cfg.SDFLAG_READING }
  else if M = 26 ∧ cfg.SD then case_M26 env m
  else if M = 27 ∧ cfg.SD then m
  else if M = 28 ∧ cfg.SD then case_M28 cfg env m
  else if M = 29 ∧ cfg.SD then case_M29 cfg m
  else m.call (.sersendf_P "E: Bad M-code %d" [.num m.next_target.M])

/-- The function `process_gcode_command`: process the command stored in
`next_target`. -/
def process_gcode_command (cfg : Config) (env : Env) (m : Machine) : Machine :=
  -- convert relative to absolute
  let m := convert_relative cfg m
  -- implement axis limits
  let m := axis_limits cfg m
  let m := select_next_tool m
  if m.next_target.seen_G then switch_G cfg env m
  else if m.next_target.seen_M then switch_M cfg env m
  else m

/-! ## Vocabulary of the specification -/

/-- The absolute target: `next_target.target` after the relative-to-absolute
stage, before the limits are applied. -/
def absolute_target (cfg : Config) (m : Machine) : TARGET :=
  (convert_relative cfg m).next_target.target

/-- The normalized target: `next_target.target` after the limit stage. -/
def normalized_target (cfg : Config) (m : Machine) : TARGET :=
  (axis_limits cfg (convert_relative cfg m)).next_target.target

/-- The targets handed to `enqueue`, in call order (`none` is `enqueue(NULL)`). -/
def enqueues : List Event → List (Option TARGET)
  | [] => []
  | .enqueue t :: es => t :: enqueues es
  | _ :: es => enqueues es

/-- The lower X limit in target units, as the limit stage stores it. -/
def X_MIN_units (cfg : Config) : Option Int :=
  cfg.X_MIN.map (fun X_MIN => double_to_int32 (X_MIN * 1000))

/-- The upper X limit in target units, as the limit stage stores it. -/
def X_MAX_units (cfg : Config) : Option Int :=
  cfg.X_MAX.map (fun X_MAX => double_to_int32 (X_MAX * 1000))

/-- The lower Y limit in target units, as the limit stage stores it. -/
def Y_MIN_units (cfg : Config) : Option Int :=
  cfg.Y_MIN.map (fun Y_MIN => double_to_int32 (Y_MIN * cfg.STEPS_PER_MM_Y))

/-- The upper Y limit in target units, as the limit stage stores it. -/
def Y_MAX_units (cfg : Config) : Option Int :=
  cfg.Y_MAX.map (fun Y_MAX => double_to_int32 (Y_MAX * cfg.STEPS_PER_MM_Y))

/-- The lower Z limit in target units, as the limit stage stores it. -/
def Z_MIN_units (cfg : Config) : Option Int :=
  cfg.Z_MIN.map (fun Z_MIN => double_to_int32 (Z_MIN * cfg.STEPS_PER_MM_Z))

/-- The upper Z limit in target units, as the limit stage stores it. -/
def Z_MAX_units (cfg : Config) : Option Int :=
  cfg.Z_MAX.map (fun Z_MAX => double_to_int32 (Z_MAX * cfg.STEPS_PER_MM_Z))

/-- Clamping as the specification words it: the lower bound when the value is
below it, the upper bound when above it, the value itself when inside the
range; a missing bound does not constrain. -/
def clamp_to_limits (lo hi : Option Int) (v : Int) : Int :=
  match lo, hi with
  | some l, some h => if v < l then l else if v > h then h else v
  | some l, none => if v < l then l else v
  | none, some h => if v > h then h else v
  | none, none => v

/-- The value lies within the configured bounds. -/
def within_limits (lo hi : Option Int) (v : Int) : Prop :=
  (∀ l, lo = some l → l ≤ v) ∧ (∀ h, hi = some h → v ≤ h)

/-- The value left by a lower-limit test against the bound `lo`. -/
def after_min (lo : Option ℚ) (v : Int) : Int :=
  match lo with
  | some a => if (v : ℚ) < a then double_to_int32 a else v
  | none => v

/-- The value left by an upper-limit test against the bound `hi`. -/
def after_max (hi : Option ℚ) (v : Int) : Int :=
  match hi with
  | some b => if (v : ℚ) > b then double_to_int32 b else v
  | none => v

/-- The calls made by the position debug output. -/
def debug_position_calls (cfg : Config) (debug_flags : Nat) : List Event :=
  if cfg.DEBUG = true ∧ cfg.DEBUG_POSITION ≠ 0 ∧ (debug_flags &&& cfg.DEBUG_POSITION) ≠ 0 then
    [.print_queue]
  else []

/-- The value is representable as an `int32_t`. -/
def fits_int32 (x : Int) : Prop := -2 ^ 31 ≤ x ∧ x < 2 ^ 31

instance (x : Int) : Decidable (fits_int32 x) := by
  unfold fits_int32
  infer_instance

/-- A linear axis. -/
inductive Axis where
  | X
  | Y
  | Z
  deriving DecidableEq, Repr

/-- The homing move of an axis, built from the startpoint `sp`: `sp` with the
homed axis set to 0 and F set to the `SEARCH_FEEDRATE` of that axis. -/
def homing_move (cfg : Config) : Axis → TARGET → TARGET
  | .X, sp => { sp with X := 0, F := cfg.SEARCH_FEEDRATE_X }
  | .Y, sp => { sp with Y := 0, F := cfg.SEARCH_FEEDRATE_Y }
  | .Z, sp => { sp with Z := 0, F := cfg.SEARCH_FEEDRATE_Z }

/-- The axes a homing command homes, as the specification words it: the
flagged axes in the order X, Y, Z, and all three in that order when none is
flagged. -/
def homed_axes (x y z : Bool) : List Axis :=
  if x = false ∧ y = false ∧ z = false then [.X, .Y, .Z]
  else (if x then [.X] else []) ++ (if y then [.Y] else []) ++ (if z then [.Z] else [])

/-- The homing moves of a list of axes, each built from the startpoint read at
the moment of its enqueue: the first from `sp`, every later one from the
startpoint that the enqueue of the move before it left. -/
def homing_moves (cfg : Config) (env : Env) : List Axis → TARGET → List TARGET
  | [], _ => []
  | a :: axes, sp =>
    homing_move cfg a sp ::
      homing_moves cfg env axes (env.enqueue_startpoint (some (homing_move cfg a sp)) sp)

/-- The startpoint left by the enqueues of the homing moves of a list of axes. -/
def startpoint_after_homing (cfg : Config) (env : Env) : List Axis → TARGET → TARGET
  | [], sp => sp
  | a :: axes, sp =>
    startpoint_after_homing cfg env axes
      (env.enqueue_startpoint (some (homing_move cfg a sp)) sp)

/-- The machine holding the same command record with `seen_G` set and the
G number `g`. -/
def with_G (m : Machine) (g : Nat) : Machine :=
  { m with next_target := { m.next_target with seen_G := true, G := g } }

/-- The effect trace of a command: the calls `process_gcode_command` makes,
in order. -/
def effects (cfg : Config) (env : Env) (m : Machine) : List Event :=
  (process_gcode_command cfg env { m with trace := [] }).trace

/-- The G numbers that have a case in `switch (next_target.G)`. -/
def handled_G (G : Nat) : Bool :=
  decide (G ∈ [0, 1, 4, 20, 21, 30, 28, 90, 91, 92, 161, 162])

/-- The M numbers that have a case in `switch (next_target.M)` under the
configuration: the unconditional cases, and those of the `DEBUG`, `EECONFIG`
and `SD` blocks when the block is compiled. -/
def handled_M (cfg : Config) (M : Nat) : Bool :=
  decide (M ∈ [2, 6, 3, 101, 5, 103, 104, 105, 7, 106, 9, 107, 109, 110, 112, 114, 115, 116,
    130, 131, 132, 133, 134, 135, 247, 140, 190, 191]) ||
  (cfg.DEBUG && decide (M ∈ [111, 136, 340, 341, 350, 353, 354])) ||
  (cfg.EECONFIG && decide (M ∈ [244, 245, 249, 250, 251, 253, 254, 255])) ||
  (cfg.SD && decide (M ∈ [20, 21, 22, 23, 24, 25, 26, 27, 28, 29]))

/-- The sensor id used by M104, M105 and M109: the supplied P, the tool of
the stored target when P is absent. -/
def sensor_id (c : GCODE_COMMAND) : Nat :=
  if c.seen_P then c.P else c.target.T

/-- The machine holding the same command record with `seen_M` and the M
number replaced. -/
def with_M_fields (m : Machine) (b : Bool) (k : Nat) : Machine :=
  { m with next_target := { m.next_target with seen_M := b, M := k } }

/-- A flag of `sdflags` (or of `debug_flags`) is set. -/
def flag_set (flags mask : Nat) : Prop := flags &&& mask ≠ 0

instance (flags mask : Nat) : Decidable (flag_set flags mask) := by
  unfold flag_set
  infer_instance

/-- The machine holding the same command record as a machine-code command
with the M number `k` (`seen_G` clear, `seen_M` set). -/
def with_M (m : Machine) (k : Nat) : Machine :=
  { m with next_target := { m.next_target with seen_G := false, seen_M := true, M := k } }

/-- A command of the storage block: a machine-code command M20 .. M29. -/
def is_storage_command (c : GCODE_COMMAND) : Prop :=
  c.seen_G = false ∧ c.seen_M = true ∧ 20 ≤ c.M ∧ c.M ≤ 29

/-- A storage session: the commands received one after the other, each with
the results the collaborators return while it is processed. Every command is
processed on the state its predecessor left. -/
def run_session (cfg : Config) : List (GCODE_COMMAND × Env) → Machine → Machine
  | [], m => m
  | (c, env) :: rest, m =>
    run_session cfg rest (process_gcode_command cfg env { m with next_target := c })

/-- Every M24 and every M28 of the session is received in a state whose
mounted flag is set. -/
def opened_while_mounted (cfg : Config) : List (GCODE_COMMAND × Env) → Machine → Prop
  | [], _ => True
  | (c, env) :: rest, m =>
    ((c.M = 24 ∨ c.M = 28) → flag_set m.sdflags cfg.SDFLAG_MOUNTED) ∧
    opened_while_mounted cfg rest (process_gcode_command cfg env { m with next_target := c })

/-- The session invariant of the specification: reading or writing only
while mounted. -/
def session_invariant (cfg : Config) (sdflags : Nat) : Prop :=
  (flag_set sdflags cfg.SDFLAG_READING ∨ flag_set sdflags cfg.SDFLAG_WRITING) →
    flag_set sdflags cfg.SDFLAG_MOUNTED

/-- The value of `sdflags` after the storage command `M`, read off the cases
M20 .. M29. -/
def sdflags_after (cfg : Config) (env : Env) (M : Nat) (sdflags : Nat) : Nat :=
  if M = 21 then
    if env.f_mount = FR_OK ∧ env.f_opendir = FR_OK then cfg.SDFLAG_MOUNTED else sdflags
  else if M = 22 then 0
  else if M = 24 then sdflags ||| cfg.SDFLAG_READING
  else if M = 25 then and_not sdflags cfg.SDFLAG_READING
  else if M = 28 then
    if env.f_open = FR_OK then sdflags ||| cfg.SDFLAG_WRITING else sdflags
  else if M = 29 then and_not sdflags cfg.SDFLAG_WRITING
  else sdflags

/-- The event is an unknown-code error report (`E: Bad G-code` or
`E: Bad M-code`). -/
def is_unknown_code_report : Event → Bool
  | .sersendf_P fmt _ => decide (fmt = "E: Bad G-code %d") || decide (fmt = "E: Bad M-code %d")
  | _ => false

/-- The command is answered with an unknown-code error report. -/
def reports_unknown_code (cfg : Config) (env : Env) (m : Machine) : Prop :=
  (effects cfg env m).any is_unknown_code_report = true

/-- The base build: none of `DEBUG`, `EECONFIG`, `SD` is defined. -/
def base_build (cfg : Config) : Prop :=
  cfg.DEBUG = false ∧ cfg.EECONFIG = false ∧ cfg.SD = false

/-- The motion codes of the documented list. -/
def documented_G (G : Nat) : Bool :=
  decide (G ∈ [0, 1, 4, 20, 21, 28, 30, 90, 91, 92, 161, 162])

/-- The machine codes of the documented list (without the optional blocks). -/
def documented_M (M : Nat) : Bool :=
  decide (M ∈ [2, 3, 5, 6, 7, 9, 101, 103, 104, 105, 106, 107, 109, 110, 111, 112, 114, 115,
    116, 130, 131, 132, 133, 134, 135, 136, 140, 190, 191])

/-- The machine codes that have a case in the base build: the documented list
without 111 and 136 (cases of the `DEBUG` block) and with 247 (a second label
of the case of 135). -/
def accepted_M_base (M : Nat) : Bool :=
  decide (M ∈ [2, 3, 5, 6, 7, 9, 101, 103, 104, 105, 106, 107, 109, 110, 112, 114, 115, 116,
    130, 131, 132, 133, 134, 135, 140, 190, 191, 247])

/-- No unknown-code error report among the calls. -/
def no_report (es : List Event) : Prop :=
  es.any is_unknown_code_report = false

/-- The fields of the configuration record `eeconfig`; a row of the
thermistor table contributes its two members. -/
inductive EEField where
  | baud
  | adc_value (row : Nat)
  | temperature (row : Nat)
  | temp_residency
  | min_endstop_pos_z
  | max_speed_x
  | max_speed_y
  | max_speed_z
  | max_speed_e
  | size_x
  | size_y
  | size_z
  | steps_per_mm_x
  | steps_per_mm_y
  | steps_per_mm_z
  | steps_per_mm_e
  deriving DecidableEq

/-- The value of a field of the configuration record. -/
def EEField.get : EEField → EECONFIG → Int
  | .baud, e => e.baud
  | .adc_value row, e => (e.temptable.getD row ⟨0, 0⟩).adc_value
  | .temperature row, e => (e.temptable.getD row ⟨0, 0⟩).temperature
  | .temp_residency, e => e.temp_residency
  | .min_endstop_pos_z, e => e.min_endstop_pos_z
  | .max_speed_x, e => e.max_speed_x
  | .max_speed_y, e => e.max_speed_y
  | .max_speed_z, e => e.max_speed_z
  | .max_speed_e, e => e.max_speed_e
  | .size_x, e => e.size_x
  | .size_y, e => e.size_y
  | .size_z, e => e.size_z
  | .steps_per_mm_x, e => e.steps_per_mm_x
  | .steps_per_mm_y, e => e.steps_per_mm_y
  | .steps_per_mm_z, e => e.steps_per_mm_z
  | .steps_per_mm_e, e => e.steps_per_mm_e

/-- The seen flag of the parameter letter a field is keyed on. -/
def EEField.keyed_seen : EEField → GCODE_COMMAND → Bool
  | .baud, c => c.seen_S
  | .adc_value _, c => c.seen_X
  | .temperature _, c => c.seen_Y
  | .temp_residency, c => c.seen_P
  | .min_endstop_pos_z, c => c.seen_Z
  | .max_speed_x, c => c.seen_X
  | .max_speed_y, c => c.seen_Y
  | .max_speed_z, c => c.seen_Z
  | .max_speed_e, c => c.seen_E
  | .size_x, c => c.seen_X
  | .size_y, c => c.seen_Y
  | .size_z, c => c.seen_Z
  | .steps_per_mm_x, c => c.seen_X
  | .steps_per_mm_y, c => c.seen_Y
  | .steps_per_mm_z, c => c.seen_Z
  | .steps_per_mm_e, c => c.seen_E

/-- The M number of the command that writes a field. -/
def EEField.code : EEField → Nat
  | .baud => 244
  | .adc_value _ => 245
  | .temperature _ => 245
  | .temp_residency => 249
  | .min_endstop_pos_z => 250
  | .max_speed_x => 253
  | .max_speed_y => 253
  | .max_speed_z => 253
  | .max_speed_e => 253
  | .size_x => 254
  | .size_y => 254
  | .size_z => 254
  | .steps_per_mm_x => 255
  | .steps_per_mm_y => 255
  | .steps_per_mm_z => 255
  | .steps_per_mm_e => 255

/-- The formats of the error lines of the storage block. -/
def storage_error_formats : List String :=
  ["E: SD init failed: %sd!", "E: read root directory failed: %sd!",
   "E: could not open \x27%t\x27: %sd", "E: seek failed: %sd", "E: open failed: %sd"]

/-- The event is an error line of the storage block. -/
def is_storage_error : Event → Bool
  | .sersendf_P fmt _ => decide (fmt ∈ storage_error_formats)
  | _ => false

/-- The machine as the enqueue of the move of the held command leaves it: the
same command record, the startpoint advanced by the enqueue of the normalized
target (the trace apart). -/
def after_move (cfg : Config) (env : Env) (m : Machine) : Machine :=
  { m with
    startpoint := env.enqueue_startpoint (some (normalized_target cfg m)) m.startpoint }

/-! ## Concrete inputs -/

/-- A configuration in the style of the distributed config.h: limits on all
three axes, no optional block compiled in. -/
def cfg_example : Config where
  X_MIN := some 0
  X_MAX := some 200
  Y_MIN := some 0
  Y_MAX := some 200
  Z_MIN := some 0
  Z_MAX := some 140
  STEPS_PER_MM_Y := 320
  STEPS_PER_MM_Z := 320
  UM_PER_STEP_Y := 3
  UM_PER_STEP_Z := 3
  UM_PER_STEP_E := 3
  E_ABSOLUTE := false
  SEARCH_FEEDRATE_X := 50
  SEARCH_FEEDRATE_Y := 50
  SEARCH_FEEDRATE_Z := 50
  MAXIMUM_FEEDRATE_X := 200
  MAXIMUM_FEEDRATE_E := 200
  DC_EXTRUDER := none
  DC_EXTRUDER_PWM := 180
  E_STARTSTOP_STEPS := 0
  HEATER_FAN := none
  HEATER_BED := none
  NUM_TEMP_SENSORS := 1
  NUM_HEATERS := 1
  DEBUG := false
  DEBUG_POSITION := 4
  DEBUG_ECHO := 128
  EECONFIG := false
  SD := false
  SDFLAG_MOUNTED := 1
  SDFLAG_READING := 2
  SDFLAG_WRITING := 4
  ACCELERATION_REPRAP := false

/-- The same configuration without travel limits. -/
def cfg_unlimited : Config :=
  { cfg_example with
    X_MIN := none, X_MAX := none, Y_MIN := none, Y_MAX := none, Z_MIN := none, Z_MAX := none }

/-- Modelled from the spec: the value `enqueue` leaves in `startpoint` (code of
dda.c, not in this file). After a move the position is the target handed to
the queue ("position must equal the last value given to the motion queue"),
with the extrusion origin reset (comment at lines 100-104: `startpoint.E = 0`
at the end of `dda_create()`); `enqueue(NULL)` creates no move and leaves it
as it was. -/
def startpoint_after_enqueue : Option TARGET → TARGET → TARGET
  | some t, _ => { t with E := 0 }
  | none, sp => sp

/-- Collaborators that report success and a reached temperature; a store
outside the thermistor table misses `eeconfig`. -/
def env_example : Env where
  temp_achieved := 1
  clock_flag_10ms := fun _ => false
  f_mount := 0
  f_opendir := 0
  f_open := 0
  f_lseek := 0
  disk_init := 0
  f_close := 0
  mem := fun _ => 0
  mb_c := 0
  mb_endpoint := ⟨0, 0, 0, 0, 0, 0⟩
  mb_end_c := 0
  enqueue_startpoint := startpoint_after_enqueue
  store_outside_table := fun e _ _ _ => e

/-- An all-zero configuration record with a thermistor table of 20 rows. -/
def eeconfig_zero : EECONFIG where
  baud := 0
  temptable := List.replicate 20 ⟨0, 0⟩
  temp_residency := 0
  min_endstop_pos_z := 0
  max_speed_x := 0
  max_speed_y := 0
  max_speed_z := 0
  max_speed_e := 0
  size_x := 0
  size_y := 0
  size_z := 0
  steps_per_mm_x := 0
  steps_per_mm_y := 0
  steps_per_mm_z := 0
  steps_per_mm_e := 0

/-- A command record with no letter seen, absolute mode, all values zero. -/
def cmd_empty : GCODE_COMMAND where
  seen_G := false
  seen_M := false
  seen_X := false
  seen_Y := false
  seen_Z := false
  seen_E := false
  seen_F := false
  seen_S := false
  seen_P := false
  seen_T := false
  option_relative := false
  option_inches := false
  G := 0
  M := 0
  target := ⟨0, 0, 0, 0, 0, 0⟩
  S := 0
  P := 0
  T := 0

/-- The machine holding the command `c`, positioned at `sp`, with an empty
trace. -/
def machine_at (c : GCODE_COMMAND) (sp : TARGET) : Machine where
  next_target := c
  startpoint := sp
  current_position := sp
  tool := 0
  next_tool := 0
  steptimeout := 0
  debug_flags := 0
  eeconfig := eeconfig_zero
  sdflags := 0
  fr := 0
  trace := []
  wd_loop := false

/-- The position with every field zero. -/
def origin : TARGET := ⟨0, 0, 0, 0, 0, 0⟩

/-- The command `G1 X250 Y-5 Z100 F1500` (values already scaled by the parser). -/
def cmd_G1_far : GCODE_COMMAND :=
  { cmd_empty with
    seen_G := true, G := 1, seen_X := true, seen_Y := true, seen_Z := true, seen_F := true,
    target := ⟨250000, -5, 100, 0, 1500, 0⟩ }

/-- A relative move by (500, -20, 7) carrying E = 33. -/
def cmd_G1_relative : GCODE_COMMAND :=
  { cmd_empty with
    seen_G := true, G := 1, seen_X := true, seen_Y := true, seen_Z := true, seen_E := true,
    option_relative := true,
    target := ⟨500, -20, 7, 33, 1500, 0⟩ }

/-- A position away from the origin. -/
def somewhere : TARGET := ⟨1000, 2000, 3000, 77, 5, 0⟩

/-- The command `G92` with no axis word. -/
def cmd_G92 : GCODE_COMMAND :=
  { cmd_empty with seen_G := true, G := 92 }

/-- The command `G92 Z40`. -/
def cmd_G92_Z : GCODE_COMMAND :=
  { cmd_empty with seen_G := true, G := 92, seen_Z := true, target := ⟨0, 0, 40, 0, 0, 0⟩ }

/-- The command `G92 X0.5` (500 um) received in relative positioning mode. -/
def cmd_G92_X_relative : GCODE_COMMAND :=
  { cmd_empty with
    seen_G := true, G := 92, seen_X := true, option_relative := true,
    target := ⟨500, 0, 0, 0, 0, 0⟩ }

/-- The command `G92 X300` (300000 um) received in absolute positioning mode. -/
def cmd_G92_X_beyond : GCODE_COMMAND :=
  { cmd_empty with
    seen_G := true, G := 92, seen_X := true,
    target := ⟨300000, 0, 0, 0, 0, 0⟩ }

/-- The command `G92 X150` (150000 um) received in absolute positioning mode. -/
def cmd_G92_X_inside : GCODE_COMMAND :=
  { cmd_empty with
    seen_G := true, G := 92, seen_X := true,
    target := ⟨150000, 0, 0, 0, 0, 0⟩ }

/-- The command `G28` with no axis word. -/
def cmd_G28 : GCODE_COMMAND :=
  { cmd_empty with seen_G := true, G := 28 }

/-- The command `G28 Y0`. -/
def cmd_G28_Y : GCODE_COMMAND :=
  { cmd_empty with seen_G := true, G := 28, seen_Y := true }

/-- The command `G30 X10 Y5` (only the command letters differ from `G28 X10 Y5`). -/
def cmd_G30_XY : GCODE_COMMAND :=
  { cmd_empty with
    seen_G := true, G := 30, seen_X := true, seen_Y := true,
    target := ⟨10000, 1600, 0, 0, 900, 0⟩ }

/-- The command `M109` with no S and no P word; the stored S is 0. -/
def cmd_M109 : GCODE_COMMAND :=
  { cmd_empty with seen_M := true, M := 109 }

/-- The command `M109 S200 P1`. -/
def cmd_M109_S : GCODE_COMMAND :=
  { cmd_empty with seen_M := true, M := 109, seen_S := true, S := 200, seen_P := true, P := 1 }

/-- The command `G55 T3`. -/
def cmd_G55_T : GCODE_COMMAND :=
  { cmd_empty with seen_G := true, G := 55, seen_T := true, T := 3 }

/-- The command `M999 X0.5` received in relative positioning mode. -/
def cmd_M999_relative : GCODE_COMMAND :=
  { cmd_empty with
    seen_M := true, M := 999, seen_X := true, option_relative := true,
    target := ⟨500, 0, 0, 0, 0, 0⟩ }

/-- The command `G55` in absolute mode with no other word. -/
def cmd_G55 : GCODE_COMMAND :=
  { cmd_empty with seen_G := true, G := 55 }

/-- The command `M999` in absolute mode with no other word. -/
def cmd_M999 : GCODE_COMMAND :=
  { cmd_empty with seen_M := true, M := 999 }

/-- A line holding only `T1`. -/
def cmd_T1 : GCODE_COMMAND :=
  { cmd_empty with seen_T := true, T := 1 }

/-- The command `G0 X10 F900`. -/
def cmd_G0 : GCODE_COMMAND :=
  { cmd_empty with
    seen_G := true, G := 0, seen_X := true, seen_F := true,
    target := ⟨10000, 0, 0, 0, 900, 0⟩ }

/-- The limit-free configuration with the storage block compiled in. -/
def cfg_sd : Config := { cfg_unlimited with SD := true }

/-- Collaborators whose `f_open` fails with result 4. -/
def env_open_fails : Env := { env_example with f_open := 4 }

/-- The command `M23` (select file). -/
def cmd_M23 : GCODE_COMMAND :=
  { cmd_empty with seen_M := true, M := 23 }

/-- The command `M24` (start or resume print). -/
def cmd_M24 : GCODE_COMMAND :=
  { cmd_empty with seen_M := true, M := 24 }

/-- The command `M21` (initialise SD card). -/
def cmd_M21 : GCODE_COMMAND :=
  { cmd_empty with seen_M := true, M := 21 }

/-- The command `M25` (pause print). -/
def cmd_M25 : GCODE_COMMAND :=
  { cmd_empty with seen_M := true, M := 25 }

/-- The command `M2` (program end). -/
def cmd_M2 : GCODE_COMMAND :=
  { cmd_empty with seen_M := true, M := 2 }

/-- The command `M112` (immediate stop). -/
def cmd_M112 : GCODE_COMMAND :=
  { cmd_empty with seen_M := true, M := 112 }

/-- The command `M111` (set debug level). -/
def cmd_M111 : GCODE_COMMAND :=
  { cmd_empty with seen_M := true, M := 111, seen_S := true, S := 1 }

/-- The command `M247` (set heater PWM). -/
def cmd_M247 : GCODE_COMMAND :=
  { cmd_empty with seen_M := true, M := 247, seen_S := true, S := 128, seen_P := true, P := 0 }

/-- The limit-free configuration with the persisted-configuration block
compiled in. -/
def cfg_eeconfig : Config := { cfg_unlimited with EECONFIG := true }

/-- The example configuration (travel limits X 0..200 mm, Y 0..200 mm,
Z 0..140 mm) with the persisted-configuration block compiled in. -/
def cfg_eeconfig_limits : Config := { cfg_example with EECONFIG := true }

/-- The command `M253 X120 E30` (max speeds): X and E named, Y and Z absent. -/
def cmd_M253_XE : GCODE_COMMAND :=
  { cmd_empty with
    seen_M := true, M := 253, seen_X := true, seen_E := true,
    target := ⟨120, 55, 66, 30, 0, 0⟩ }

/-- The command `M244 S300`: a baud rate below the accepted range. -/
def cmd_M244_low : GCODE_COMMAND :=
  { cmd_empty with seen_M := true, M := 244, seen_S := true, S := 300 }

/-- The command `M253 X300` (300000 in target units) received in absolute
positioning mode. -/
def cmd_M253_X_beyond : GCODE_COMMAND :=
  { cmd_empty with
    seen_M := true, M := 253, seen_X := true,
    target := ⟨300000, 0, 0, 0, 0, 0⟩ }

/-- The command `M255 X80` received in relative positioning mode. -/
def cmd_M255_X_relative : GCODE_COMMAND :=
  { cmd_empty with
    seen_M := true, M := 255, seen_X := true, option_relative := true,
    target := ⟨80, 0, 0, 0, 0, 0⟩ }

/-- The command `M254 X150 Y100` (150000 and 32000 in target units) received
in absolute positioning mode. -/
def cmd_M254_inside : GCODE_COMMAND :=
  { cmd_empty with
    seen_M := true, M := 254, seen_X := true, seen_Y := true,
    target := ⟨150000, 32000, 0, 0, 0, 0⟩ }

/-- The command `M104 S200` with no P word, the stored target carrying tool 2. -/
def cmd_M104_tool2 : GCODE_COMMAND :=
  { cmd_empty with
    seen_M := true, M := 104, seen_S := true, S := 200,
    target := ⟨0, 0, 0, 0, 0, 2⟩ }

/-- The command `M105 P1`, the stored target carrying tool 2. -/
def cmd_M105_P1 : GCODE_COMMAND :=
  { cmd_empty with
    seen_M := true, M := 105, seen_P := true, P := 1,
    target := ⟨0, 0, 0, 0, 0, 2⟩ }

/-- The command `M6 T2` (tool change). -/
def cmd_M6_T2 : GCODE_COMMAND :=
  { cmd_empty with seen_M := true, M := 6, seen_T := true, T := 2 }

/-- The limit-free configuration with a heated bed on heater 1. -/
def cfg_bed : Config := { cfg_unlimited with HEATER_BED := some 1 }

/-- A temperature command with no S and no P word: `seen_S` is clear and the
record still holds the value `S` of an earlier command. -/
def cmd_temperature_no_S (M : Nat) (S : Int) : GCODE_COMMAND :=
  { cmd_empty with seen_M := true, M := M, S := S }

/-- Collaborators whose `f_close` fails with result 1. -/
def env_close_fails : Env := { env_example with f_close := 1 }

/-- Collaborators whose `disk_initialize` reports a drive that is not ready
(status 1) while `f_mount` and `f_opendir` succeed. -/
def env_disk_not_ready : Env := { env_example with disk_init := 1 }

/-- Collaborators whose `f_lseek` fails with result 9. -/
def env_seek_fails : Env := { env_example with f_lseek := 9 }

/-- The command `M22` (release SD card). -/
def cmd_M22 : GCODE_COMMAND :=
  { cmd_empty with seen_M := true, M := 22 }

/-- The command `M29` (stop writing). -/
def cmd_M29 : GCODE_COMMAND :=
  { cmd_empty with seen_M := true, M := 29 }

/-- The command `M26 S512` (seek). -/
def cmd_M26 : GCODE_COMMAND :=
  { cmd_empty with seen_M := true, M := 26, seen_S := true, S := 512 }

/-- The command `G92 E0`. -/
def cmd_G92_E : GCODE_COMMAND :=
  { cmd_empty with seen_G := true, G := 92, seen_E := true }

/-- A position with the extrusion origin at 0. -/
def parked : TARGET := ⟨1000, 2000, 3000, 0, 5, 0⟩

/-- The command `G30 X10 Y5` received in relative mode. -/
def cmd_G30_XY_relative : GCODE_COMMAND :=
  { cmd_G30_XY with option_relative := true }

/-- The command `M245 S3 X5 Y7`: row 3 of the thermistor table. -/
def cmd_M245_row3 : GCODE_COMMAND :=
  { cmd_empty with
    seen_M := true, M := 245, seen_S := true, S := 3, seen_X := true, seen_Y := true,
    target := ⟨5, 7, 0, 0, 0, 0⟩ }

/-- The command `M245 S20 X5 Y7`: an index one past the last row of a table of
20 rows. -/
def cmd_M245_overrun : GCODE_COMMAND :=
  { cmd_empty with
    seen_M := true, M := 245, seen_S := true, S := 20, seen_X := true, seen_Y := true,
    target := ⟨5, 7, 0, 0, 0, 0⟩ }

/-- The command `M245 S-1 X5 Y7`: an index one before the first row. -/
def cmd_M245_underrun : GCODE_COMMAND :=
  { cmd_empty with
    seen_M := true, M := 245, seen_S := true, S := -1, seen_X := true, seen_Y := true,
    target := ⟨5, 7, 0, 0, 0, 0⟩ }

/-- Collaborators as in `env_example`, in a memory layout where the member
`baud` precedes the thermistor table and the member `temp_residency` follows
it: a store through a negative index lands in `baud`, a store through an index
past the last row in `temp_residency`. -/
def env_overrun : Env :=
  { env_example with
    store_outside_table := fun e S _ v =>
      if S < 0 then { e with baud := v } else { e with temp_residency := v.toNat } }

/-! ## Auxiliary lemmas -/

theorem double_to_int32_lt {t : Int} {D : ℚ} (h : (t : ℚ) < D) : t ≤ double_to_int32 D := by
  unfold double_to_int32
  split_ifs with h0
  · exact Int.le_floor.mpr h.le
  · exact Int.cast_le.mp (h.le.trans (Int.le_ceil D))

theorem double_to_int32_ge {t : Int} {D : ℚ} (h : ¬ (t : ℚ) < D) : double_to_int32 D ≤ t := by
  unfold double_to_int32
  push_neg at h
  split_ifs with h0
  · exact Int.cast_le.mp ((Int.floor_le D).trans h)
  · exact Int.ceil_le.mpr h

theorem double_to_int32_gt {t : Int} {D : ℚ} (h : (t : ℚ) > D) : double_to_int32 D ≤ t := by
  unfold double_to_int32
  split_ifs with h0
  · exact Int.cast_le.mp ((Int.floor_le D).trans h.le)
  · exact Int.ceil_le.mpr h.le

theorem double_to_int32_le {t : Int} {D : ℚ} (h : ¬ (t : ℚ) > D) : t ≤ double_to_int32 D := by
  unfold double_to_int32
  push_neg at h
  split_ifs with h0
  · exact Int.le_floor.mpr h
  · exact Int.cast_le.mp (h.trans (Int.le_ceil D))

theorem double_to_int32_mono {a b : ℚ} (h : a ≤ b) : double_to_int32 a ≤ double_to_int32 b := by
  unfold double_to_int32
  split_ifs with ha hb hb
  · exact Int.floor_mono h
  · exact absurd (ha.trans h) hb
  · push_neg at ha
    have h1 : ⌈a⌉ ≤ 0 := Int.ceil_le.mpr (by exact_mod_cast ha.le)
    have h2 : (0 : Int) ≤ ⌊b⌋ := Int.le_floor.mpr (by exact_mod_cast hb)
    omega
  · exact Int.ceil_mono h

theorem after_min_max_eq_clamp (lo hi : Option ℚ) (v : Int)
    (h : ∀ a b, lo = some a → hi = some b → a ≤ b) :
    after_max hi (after_min lo v)
      = clamp_to_limits (lo.map double_to_int32) (hi.map double_to_int32) v := by
  rcases lo with _ | a <;> rcases hi with _ | b <;>
    simp only [after_min, after_max, clamp_to_limits, Option.map]
  · by_cases h1 : (v : ℚ) > b
    · have := double_to_int32_gt h1
      simp only [h1, if_true]; split_ifs <;> omega
    · have := double_to_int32_le h1
      simp only [h1, if_false]; split_ifs <;> omega
  · by_cases h1 : (v : ℚ) < a
    · have := double_to_int32_lt h1
      simp only [h1, if_true]; split_ifs <;> omega
    · have := double_to_int32_ge h1
      simp only [h1, if_false]; split_ifs <;> omega
  · have hab := double_to_int32_mono (h a b rfl rfl)
    by_cases h1 : (v : ℚ) < a
    · have k1 := double_to_int32_lt h1
      simp only [h1, if_true]
      by_cases h2 : ((double_to_int32 a : Int) : ℚ) > b
      · have k2 := double_to_int32_gt h2
        simp only [h2, if_true]; split_ifs <;> omega
      · have k2 := double_to_int32_le h2
        simp only [h2, if_false]; split_ifs <;> omega
    · have k1 := double_to_int32_ge h1
      simp only [h1, if_false]
      by_cases h2 : (v : ℚ) > b
      · have k2 := double_to_int32_gt h2
        simp only [h2, if_true]; split_ifs <;> omega
      · have k2 := double_to_int32_le h2
        simp only [h2, if_false]; split_ifs <;> omega

theorem clamp_within_limits (lo hi : Option Int) (v : Int)
    (h : ∀ l u, lo = some l → hi = some u → l ≤ u) :
    within_limits lo hi (clamp_to_limits lo hi v) := by
  rcases lo with _ | l <;> rcases hi with _ | u <;>
    simp only [within_limits, clamp_to_limits]
  · simp
  · simp only [Option.some.injEq, forall_eq', false_implies, implies_true, true_and, reduceCtorEq]
    split_ifs <;> omega
  · simp only [Option.some.injEq, forall_eq', false_implies, implies_true, and_true, reduceCtorEq]
    split_ifs <;> omega
  · have := h l u rfl rfl
    simp only [Option.some.injEq, forall_eq']
    split_ifs <;> omega

theorem limit_X_MIN_eq (cfg : Config) (t : TARGET) :
    limit_X_MIN cfg t = { t with X := after_min (cfg.X_MIN.map (fun a => a * 1000)) t.X } := by
  unfold limit_X_MIN after_min
  rcases cfg.X_MIN with _ | a
  · rfl
  · simp only [Option.map]; split_ifs <;> rfl

theorem limit_X_MAX_eq (cfg : Config) (t : TARGET) :
    limit_X_MAX cfg t = { t with X := after_max (cfg.X_MAX.map (fun a => a * 1000)) t.X } := by
  unfold limit_X_MAX after_max
  rcases cfg.X_MAX with _ | a
  · rfl
  · simp only [Option.map]; split_ifs <;> rfl

theorem limit_Y_MIN_eq (cfg : Config) (t : TARGET) :
    limit_Y_MIN cfg t =
      { t with Y := after_min (cfg.Y_MIN.map (fun a => a * cfg.STEPS_PER_MM_Y)) t.Y } := by
  unfold limit_Y_MIN after_min
  rcases cfg.Y_MIN with _ | a
  · rfl
  · simp only [Option.map]; split_ifs <;> rfl

theorem limit_Y_MAX_eq (cfg : Config) (t : TARGET) :
    limit_Y_MAX cfg t =
      { t with Y := after_max (cfg.Y_MAX.map (fun a => a * cfg.STEPS_PER_MM_Y)) t.Y } := by
  unfold limit_Y_MAX after_max
  rcases cfg.Y_MAX with _ | a
  · rfl
  · simp only [Option.map]; split_ifs <;> rfl

theorem limit_Z_MIN_eq (cfg : Config) (t : TARGET) :
    limit_Z_MIN cfg t =
      { t with Z := after_min (cfg.Z_MIN.map (fun a => a * cfg.STEPS_PER_MM_Z)) t.Z } := by
  unfold limit_Z_MIN after_min
  rcases cfg.Z_MIN with _ | a
  · rfl
  · simp only [Option.map]; split_ifs <;> rfl

theorem limit_Z_MAX_eq (cfg : Config) (t : TARGET) :
    limit_Z_MAX cfg t =
      { t with Z := after_max (cfg.Z_MAX.map (fun a => a * cfg.STEPS_PER_MM_Z)) t.Z } := by
  unfold limit_Z_MAX after_max
  rcases cfg.Z_MAX with _ | a
  · rfl
  · simp only [Option.map]; split_ifs <;> rfl

/-- The limit stage rewrites X, Y and Z of the stored target and nothing else. -/
theorem axis_limits_eq (cfg : Config) (m : Machine) :
    axis_limits cfg m =
      { m with next_target := { m.next_target with target := { m.next_target.target with
        X := after_max (cfg.X_MAX.map (fun a => a * 1000))
              (after_min (cfg.X_MIN.map (fun a => a * 1000)) m.next_target.target.X),
        Y := after_max (cfg.Y_MAX.map (fun a => a * cfg.STEPS_PER_MM_Y))
              (after_min (cfg.Y_MIN.map (fun a => a * cfg.STEPS_PER_MM_Y))
                m.next_target.target.Y),
        Z := after_max (cfg.Z_MAX.map (fun a => a * cfg.STEPS_PER_MM_Z))
              (after_min (cfg.Z_MIN.map (fun a => a * cfg.STEPS_PER_MM_Z))
                m.next_target.target.Z) } } } := by
  simp only [axis_limits, limit_X_MIN_eq, limit_X_MAX_eq, limit_Y_MIN_eq, limit_Y_MAX_eq,
    limit_Z_MIN_eq, limit_Z_MAX_eq]

theorem ordered_map (lo hi : Option ℚ) (s : ℚ)
    (h : ∀ a b, lo = some a → hi = some b → a * s ≤ b * s) :
    ∀ a b, lo.map (fun x => x * s) = some a → hi.map (fun x => x * s) = some b → a ≤ b := by
  intro a b ha hb
  rcases lo with _ | l <;> rcases hi with _ | u <;> simp at ha hb
  subst ha; subst hb; exact h l u rfl rfl

theorem ordered_units (lo hi : Option ℚ) (s : ℚ)
    (h : ∀ a b, lo = some a → hi = some b → a * s ≤ b * s) :
    ∀ l u, lo.map (fun x => double_to_int32 (x * s)) = some l →
      hi.map (fun x => double_to_int32 (x * s)) = some u → l ≤ u := by
  intro a b ha hb
  rcases lo with _ | l <;> rcases hi with _ | u <;> simp at ha hb
  subst ha; subst hb; exact double_to_int32_mono (h l u rfl rfl)

theorem enqueues_append (xs ys : List Event) :
    enqueues (xs ++ ys) = enqueues xs ++ enqueues ys := by
  induction xs with
  | nil => rfl
  | cons e es ih => cases e <;> simp [enqueues, ih]

theorem debug_position_eq (cfg : Config) (m : Machine) :
    debug_position cfg m =
      { m with trace := m.trace ++ debug_position_calls cfg m.debug_flags } := by
  unfold debug_position debug_position_calls Machine.call
  by_cases h1 : cfg.DEBUG = true <;>
    by_cases h2 : cfg.DEBUG_POSITION ≠ 0 ∧ (m.debug_flags &&& cfg.DEBUG_POSITION) ≠ 0 <;>
    simp [h1, h2]

theorem enqueues_debug_position_calls (cfg : Config) (f : Nat) :
    enqueues (debug_position_calls cfg f) = [] := by
  unfold debug_position_calls
  split_ifs <;> rfl

/-- The stages before the dispatch change the stored target and `next_tool`
only. -/
theorem normalize_eq (cfg : Config) (m : Machine) :
    normalize cfg m =
      { m with
        next_target := { m.next_target with target := normalized_target cfg m },
        next_tool := if m.next_target.seen_T then m.next_target.T else m.next_tool } := by
  unfold normalize select_next_tool normalized_target
  rw [axis_limits_eq]
  unfold convert_relative
  split_ifs <;> rfl

theorem process_eq (cfg : Config) (env : Env) (m : Machine) :
    process_gcode_command cfg env m =
      if m.next_target.seen_G then switch_G cfg env (normalize cfg m)
      else if m.next_target.seen_M then switch_M cfg env (normalize cfg m)
      else normalize cfg m := by
  have h : process_gcode_command cfg env m =
      if (normalize cfg m).next_target.seen_G then switch_G cfg env (normalize cfg m)
      else if (normalize cfg m).next_target.seen_M then switch_M cfg env (normalize cfg m)
      else normalize cfg m := rfl
  rw [h, normalize_eq]

theorem cfg_example_ordered :
    (∀ lo hi, cfg_example.X_MIN = some lo → cfg_example.X_MAX = some hi →
      lo * 1000 ≤ hi * 1000) ∧
    (∀ lo hi, cfg_example.Y_MIN = some lo → cfg_example.Y_MAX = some hi →
      lo * cfg_example.STEPS_PER_MM_Y ≤ hi * cfg_example.STEPS_PER_MM_Y) ∧
    (∀ lo hi, cfg_example.Z_MIN = some lo → cfg_example.Z_MAX = some hi →
      lo * cfg_example.STEPS_PER_MM_Z ≤ hi * cfg_example.STEPS_PER_MM_Z) := by
  refine ⟨?_, ?_, ?_⟩ <;>
  · intro lo hi h1 h2
    simp only [cfg_example, Option.some.injEq] at h1 h2
    subst h1; subst h2
    norm_num [cfg_example]

theorem wrapI32_of_fits {x : Int} (h : fits_int32 x) : wrapI32 x = x := by
  unfold fits_int32 at h
  unfold wrapI32
  omega

theorem after_min_none (v : Int) : after_min none v = v := rfl

theorem after_max_none (v : Int) : after_max none v = v := rfl

theorem normalize_next_target (cfg : Config) (m : Machine) :
    (normalize cfg m).next_target =
      { m.next_target with target := normalized_target cfg m } := by
  rw [normalize_eq]

theorem normalize_startpoint (cfg : Config) (m : Machine) :
    (normalize cfg m).startpoint = m.startpoint := by
  rw [normalize_eq]

theorem normalize_current_position (cfg : Config) (m : Machine) :
    (normalize cfg m).current_position = m.current_position := by
  rw [normalize_eq]

theorem normalize_trace (cfg : Config) (m : Machine) :
    (normalize cfg m).trace = m.trace := by
  rw [normalize_eq]

theorem normalize_debug_flags (cfg : Config) (m : Machine) :
    (normalize cfg m).debug_flags = m.debug_flags := by
  rw [normalize_eq]

/-- A command with `seen_G` set and `G = 92` runs the G92 case on the
normalized machine. -/
theorem process_G92 (cfg : Config) (env : Env) (m : Machine)
    (hG : m.next_target.seen_G = true) (h92 : m.next_target.G = 92) :
    process_gcode_command cfg env m = debug_position cfg (case_G92 cfg (normalize cfg m)) := by
  rw [process_eq, if_pos hG]
  have h1 : (normalize cfg m).next_target.G = 92 := by rw [normalize_next_target]; exact h92
  simp [switch_G, h1]

theorem after_min_max_of_within (lo hi : Option ℚ) (v : Int)
    (h : within_limits (lo.map double_to_int32) (hi.map double_to_int32) v) :
    after_max hi (after_min lo v) = v := by
  obtain ⟨h1, h2⟩ := h
  have hlo : after_min lo v = v := by
    rcases lo with _ | a
    · rfl
    · simp only [after_min]
      split_ifs with hc
      · have := double_to_int32_lt hc
        have := h1 _ rfl
        omega
      · rfl
  rw [hlo]
  rcases hi with _ | b
  · rfl
  · simp only [after_max]
    split_ifs with hc
    · have := double_to_int32_gt hc
      have := h2 _ rfl
      omega
    · rfl

/-- In absolute mode a target inside the limits is its own normalization. -/
theorem normalized_target_of_within (cfg : Config) (m : Machine)
    (hr : m.next_target.option_relative = false)
    (hx : within_limits (X_MIN_units cfg) (X_MAX_units cfg) m.next_target.target.X)
    (hy : within_limits (Y_MIN_units cfg) (Y_MAX_units cfg) m.next_target.target.Y)
    (hz : within_limits (Z_MIN_units cfg) (Z_MAX_units cfg) m.next_target.target.Z) :
    normalized_target cfg m = m.next_target.target := by
  have e1 := after_min_max_of_within (cfg.X_MIN.map (fun a => a * 1000))
    (cfg.X_MAX.map (fun a => a * 1000)) m.next_target.target.X
    (by rw [Option.map_map, Option.map_map]; exact hx)
  have e2 := after_min_max_of_within (cfg.Y_MIN.map (fun a => a * cfg.STEPS_PER_MM_Y))
    (cfg.Y_MAX.map (fun a => a * cfg.STEPS_PER_MM_Y)) m.next_target.target.Y
    (by rw [Option.map_map, Option.map_map]; exact hy)
  have e3 := after_min_max_of_within (cfg.Z_MIN.map (fun a => a * cfg.STEPS_PER_MM_Z))
    (cfg.Z_MAX.map (fun a => a * cfg.STEPS_PER_MM_Z)) m.next_target.target.Z
    (by rw [Option.map_map, Option.map_map]; exact hz)
  unfold normalized_target
  rw [axis_limits_eq]
  simp only [convert_relative, hr, Bool.false_eq_true, if_false, e1, e2, e3]

/-- The code of G28 calls `queue_wait` and enqueues the homing moves, each
built from the startpoint the enqueue before it left. -/
theorem case_G28_eq (cfg : Config) (env : Env) (m : Machine) :
    case_G28 cfg env m =
      { m with
        trace := m.trace ++ .queue_wait ::
          (homing_moves cfg env
            (homed_axes m.next_target.seen_X m.next_target.seen_Y m.next_target.seen_Z)
            m.startpoint).map (fun t => Event.enqueue (some t)),
        startpoint := startpoint_after_homing cfg env
          (homed_axes m.next_target.seen_X m.next_target.seen_Y m.next_target.seen_Z)
          m.startpoint } := by
  cases hx : m.next_target.seen_X <;> cases hy : m.next_target.seen_Y <;>
    cases hz : m.next_target.seen_Z <;>
    simp [case_G28, zero_x, zero_y, zero_z, enqueue, Machine.call, homed_axes, homing_moves,
      startpoint_after_homing, homing_move, hx, hy, hz]

theorem enqueues_map_enqueue (ts : List TARGET) :
    enqueues (ts.map (fun t => Event.enqueue (some t))) = ts.map some := by
  induction ts with
  | nil => rfl
  | cons t ts ih => simp [enqueues, ih]

/-- A command with `seen_G` set and `G = 28` runs the G28 case on the
normalized machine. -/
theorem process_G28 (cfg : Config) (env : Env) (m : Machine)
    (hG : m.next_target.seen_G = true) (h28 : m.next_target.G = 28) :
    process_gcode_command cfg env m =
      debug_position cfg (case_G28 cfg env (normalize cfg m)) := by
  rw [process_eq, if_pos hG]
  have h1 : (normalize cfg m).next_target.G = 28 := by rw [normalize_next_target]; exact h28
  simp [switch_G, h1]

/-- A command with `seen_G` set and `G = 30` runs the G30 case on the
normalized machine. -/
theorem process_G30 (cfg : Config) (env : Env) (m : Machine)
    (hG : m.next_target.seen_G = true) (h30 : m.next_target.G = 30) :
    process_gcode_command cfg env m =
      debug_position cfg (case_G30 cfg env (normalize cfg m)) := by
  rw [process_eq, if_pos hG]
  have h1 : (normalize cfg m).next_target.G = 30 := by rw [normalize_next_target]; exact h30
  simp [switch_G, h1]

theorem within_limits_some {l h v : Int} (h1 : l ≤ v) (h2 : v ≤ h) :
    within_limits (some l) (some h) v := by
  constructor
  · intro a ha; cases ha; exact h1
  · intro a ha; cases ha; exact h2

/-- The limits of the example configuration in target units. -/
theorem cfg_example_units :
    X_MIN_units cfg_example = some 0 ∧ X_MAX_units cfg_example = some 200000 ∧
    Y_MIN_units cfg_example = some 0 ∧ Y_MAX_units cfg_example = some 64000 ∧
    Z_MIN_units cfg_example = some 0 ∧ Z_MAX_units cfg_example = some 44800 := by
  simp only [X_MIN_units, X_MAX_units, Y_MIN_units, Y_MAX_units, Z_MIN_units, Z_MAX_units,
    cfg_example, Option.map, double_to_int32]
  norm_num

theorem normalized_target_with_G (cfg : Config) (m : Machine) (g : Nat) :
    normalized_target cfg (with_G m g) = normalized_target cfg m := by
  unfold normalized_target
  rw [axis_limits_eq, axis_limits_eq]
  unfold convert_relative with_G
  split_ifs <;> rfl

theorem normalized_target_trace (cfg : Config) (m : Machine) (t : List Event) :
    normalized_target cfg { m with trace := t } = normalized_target cfg m := by
  unfold normalized_target
  rw [axis_limits_eq, axis_limits_eq]
  unfold convert_relative
  split_ifs <;> rfl

theorem normalized_target_F (cfg : Config) (m : Machine) :
    (normalized_target cfg m).F = m.next_target.target.F := by
  unfold normalized_target
  rw [axis_limits_eq]
  unfold convert_relative
  split_ifs <;> rfl

theorem normalized_target_T (cfg : Config) (m : Machine) :
    (normalized_target cfg m).T = m.next_target.target.T := by
  unfold normalized_target
  rw [axis_limits_eq]
  unfold convert_relative
  split_ifs <;> rfl

/-- A command without `seen_G` and with `seen_M` runs the M switch on the
normalized machine. -/
theorem process_M (cfg : Config) (env : Env) (m : Machine)
    (hG : m.next_target.seen_G = false) (hM : m.next_target.seen_M = true) :
    process_gcode_command cfg env m = switch_M cfg env (normalize cfg m) := by
  rw [process_eq, hG, hM]
  rfl

theorem process_G (cfg : Config) (env : Env) (m : Machine)
    (hG : m.next_target.seen_G = true) :
    process_gcode_command cfg env m = switch_G cfg env (normalize cfg m) := by
  rw [process_eq, if_pos hG]

theorem normalized_target_with_M_fields (cfg : Config) (m : Machine) (b : Bool) (k : Nat) :
    normalized_target cfg (with_M_fields m b k) = normalized_target cfg m := by
  unfold normalized_target
  rw [axis_limits_eq, axis_limits_eq]
  unfold convert_relative with_M_fields
  split_ifs <;> rfl

theorem normalize_with_M_fields (cfg : Config) (m : Machine) (b : Bool) (k : Nat) :
    normalize cfg (with_M_fields m b k) = with_M_fields (normalize cfg m) b k := by
  rw [normalize_eq, normalize_eq, normalized_target_with_M_fields]
  rfl

theorem dwell_loop_with_M_fields (env : Env) (b : Bool) (k : Nat) :
    ∀ (P : Nat) (m : Machine),
      dwell_loop env P (with_M_fields m b k) = with_M_fields (dwell_loop env P m) b k := by
  intro P
  induction P with
  | zero => intro m; rfl
  | succ P ih =>
    intro m
    simp only [dwell_loop]
    split_ifs
    · exact ih { (m.call .clock_10ms).call (.delay_ms 1) with
        next_target := { ((m.call .clock_10ms).call (.delay_ms 1)).next_target with P := P } }
    · exact ih { m.call (.delay_ms 1) with
        next_target := { (m.call (.delay_ms 1)).next_target with P := P } }

theorem debug_position_with_M_fields (cfg : Config) (m : Machine) (b : Bool) (k : Nat) :
    debug_position cfg (with_M_fields m b k) = with_M_fields (debug_position cfg m) b k := by
  rw [debug_position_eq, debug_position_eq]
  rfl

theorem case_G28_with_M_fields (cfg : Config) (env : Env) (m : Machine) (b : Bool) (k : Nat) :
    case_G28 cfg env (with_M_fields m b k) = with_M_fields (case_G28 cfg env m) b k := by
  rw [case_G28_eq, case_G28_eq]
  rfl

theorem case_G92_with_M_fields (cfg : Config) (m : Machine) (b : Bool) (k : Nat) :
    case_G92 cfg (with_M_fields m b k) = with_M_fields (case_G92 cfg m) b k := by
  cases hx : m.next_target.seen_X <;> cases hy : m.next_target.seen_Y <;>
    cases hz : m.next_target.seen_Z <;> cases he : m.next_target.seen_E <;>
    cases hea : cfg.E_ABSOLUTE <;>
    simp [case_G92, with_M_fields, Machine.call, hx, hy, hz, he, hea]

theorem case_G161_with_M_fields (m : Machine) (b : Bool) (k : Nat) :
    case_G161 (with_M_fields m b k) = with_M_fields (case_G161 m) b k := by
  cases hx : m.next_target.seen_X <;> cases hy : m.next_target.seen_Y <;>
    cases hz : m.next_target.seen_Z <;>
    simp [case_G161, with_M_fields, Machine.call, hx, hy, hz]

theorem case_G162_with_M_fields (m : Machine) (b : Bool) (k : Nat) :
    case_G162 (with_M_fields m b k) = with_M_fields (case_G162 m) b k := by
  cases hx : m.next_target.seen_X <;> cases hy : m.next_target.seen_Y <;>
    cases hz : m.next_target.seen_Z <;>
    simp [case_G162, with_M_fields, Machine.call, hx, hy, hz]

/-- The G switch neither reads nor writes `seen_M` and `M`. -/
theorem switch_G_with_M_fields (cfg : Config) (env : Env) (m : Machine) (b : Bool) (k : Nat) :
    switch_G cfg env (with_M_fields m b k) = with_M_fields (switch_G cfg env m) b k := by
  have hg : (with_M_fields m b k).next_target.G = m.next_target.G := rfl
  simp only [switch_G, hg]
  by_cases h0 : m.next_target.G = 0
  · simp only [if_pos h0]
    rw [← debug_position_with_M_fields]; rfl
  simp only [if_neg h0]
  by_cases h1 : m.next_target.G = 1
  · simp only [if_pos h1]
    rw [← debug_position_with_M_fields]; rfl
  simp only [if_neg h1]
  by_cases h4 : m.next_target.G = 4
  · simp only [if_pos h4]
    rw [← debug_position_with_M_fields]; simp only [case_G4]; rw [← dwell_loop_with_M_fields]; rfl
  simp only [if_neg h4]
  by_cases h20 : m.next_target.G = 20
  · simp only [if_pos h20]
    rw [← debug_position_with_M_fields]; rfl
  simp only [if_neg h20]
  by_cases h21 : m.next_target.G = 21
  · simp only [if_pos h21]
    rw [← debug_position_with_M_fields]; rfl
  simp only [if_neg h21]
  by_cases h30 : m.next_target.G = 30
  · simp only [if_pos h30]
    rw [← debug_position_with_M_fields]; simp only [case_G30]; rw [← case_G28_with_M_fields]; rfl
  simp only [if_neg h30]
  by_cases h28 : m.next_target.G = 28
  · simp only [if_pos h28]
    rw [← debug_position_with_M_fields, ← case_G28_with_M_fields]
  simp only [if_neg h28]
  by_cases h90 : m.next_target.G = 90
  · simp only [if_pos h90]
    rw [← debug_position_with_M_fields]; rfl
  simp only [if_neg h90]
  by_cases h91 : m.next_target.G = 91
  · simp only [if_pos h91]
    rw [← debug_position_with_M_fields]; rfl
  simp only [if_neg h91]
  by_cases h92 : m.next_target.G = 92
  · simp only [if_pos h92]
    rw [← debug_position_with_M_fields, ← case_G92_with_M_fields]
  simp only [if_neg h92]
  by_cases h161 : m.next_target.G = 161
  · simp only [if_pos h161]
    rw [← debug_position_with_M_fields, ← case_G161_with_M_fields]
  simp only [if_neg h161]
  by_cases h162 : m.next_target.G = 162
  · simp only [if_pos h162]
    rw [← debug_position_with_M_fields, ← case_G162_with_M_fields]
  simp only [if_neg h162]
  rfl

/-- In a build with the storage block, M23 runs its case on the normalized
machine. -/
theorem process_M23 (cfg : Config) (env : Env) (m : Machine)
    (hSD : cfg.SD = true) (hG : m.next_target.seen_G = false)
    (hM : m.next_target.seen_M = true) (h23 : m.next_target.M = 23) :
    process_gcode_command cfg env m = case_M23 env (normalize cfg m) := by
  rw [process_M cfg env m hG hM]
  have h1 : (normalize cfg m).next_target.M = 23 := by rw [normalize_next_target]; exact h23
  simp [switch_M, h1, hSD]

theorem normalize_sdflags (cfg : Config) (m : Machine) :
    (normalize cfg m).sdflags = m.sdflags := by
  rw [normalize_eq]

theorem normalize_wd_loop (cfg : Config) (m : Machine) :
    (normalize cfg m).wd_loop = m.wd_loop := by
  rw [normalize_eq]

theorem normalize_eeconfig (cfg : Config) (m : Machine) :
    (normalize cfg m).eeconfig = m.eeconfig := by
  rw [normalize_eq]

theorem flag_set_iff (s F : Nat) :
    flag_set s F ↔ ∃ i, s.testBit i = true ∧ F.testBit i = true := by
  unfold flag_set
  constructor
  · intro h
    obtain ⟨i, hi⟩ := Nat.ne_zero_implies_bit_true h
    rw [Nat.testBit_and, Bool.and_eq_true] at hi
    exact ⟨i, hi⟩
  · rintro ⟨i, h1, h2⟩ h0
    have := Nat.testBit_and s F i
    rw [h0, Nat.zero_testBit, h1, h2] at this
    exact absurd this (by decide)

theorem disjoint_testBit {a b : Nat} (h : a &&& b = 0) (i : Nat) :
    ¬ (a.testBit i = true ∧ b.testBit i = true) := by
  rintro ⟨h1, h2⟩
  have := Nat.testBit_and a b i
  rw [h, Nat.zero_testBit, h1, h2] at this
  exact absurd this (by decide)

theorem and_not_testBit (a b i : Nat) :
    (and_not a b).testBit i = (a.testBit i && !b.testBit i) := by
  unfold and_not
  rw [Nat.testBit_xor, Nat.testBit_and]
  cases a.testBit i <;> cases b.testBit i <;> rfl

theorem not_flag_set_zero (F : Nat) : ¬ flag_set 0 F := by
  unfold flag_set
  simp

theorem flag_set_or_left {s F : Nat} (X : Nat) (h : flag_set s F) : flag_set (s ||| X) F := by
  rw [flag_set_iff] at h ⊢
  obtain ⟨i, h1, h2⟩ := h
  exact ⟨i, by rw [Nat.testBit_or, h1]; rfl, h2⟩

theorem flag_set_of_and_not {s X F : Nat} (h : flag_set (and_not s X) F) : flag_set s F := by
  rw [flag_set_iff] at h ⊢
  obtain ⟨i, h1, h2⟩ := h
  rw [and_not_testBit, Bool.and_eq_true] at h1
  exact ⟨i, h1.1, h2⟩

theorem not_flag_set_and_not_self (s X : Nat) : ¬ flag_set (and_not s X) X := by
  rw [flag_set_iff]
  rintro ⟨i, h1, h2⟩
  rw [and_not_testBit, h2] at h1
  simp at h1

theorem flag_set_and_not_of_disjoint {s X F : Nat} (hd : F &&& X = 0) (h : flag_set s F) :
    flag_set (and_not s X) F := by
  rw [flag_set_iff] at h ⊢
  obtain ⟨i, h1, h2⟩ := h
  refine ⟨i, ?_, h2⟩
  rw [and_not_testBit, h1]
  have := disjoint_testBit hd i
  cases hx : X.testBit i
  · rfl
  · exact absurd ⟨h2, hx⟩ this

theorem not_flag_set_of_disjoint {F X : Nat} (hd : F &&& X = 0) : ¬ flag_set F X := by
  unfold flag_set
  simpa using hd

/-- One storage command keeps the session invariant, provided M24 and M28
arrive in a mounted state and the masks of READING and WRITING are disjoint
from the mask of MOUNTED. -/
theorem session_invariant_step (cfg : Config) (env : Env) (M s : Nat)
    (hMR : cfg.SDFLAG_MOUNTED &&& cfg.SDFLAG_READING = 0)
    (hMW : cfg.SDFLAG_MOUNTED &&& cfg.SDFLAG_WRITING = 0)
    (hI : session_invariant cfg s)
    (hg : (M = 24 ∨ M = 28) → flag_set s cfg.SDFLAG_MOUNTED) :
    session_invariant cfg (sdflags_after cfg env M s) := by
  unfold sdflags_after
  by_cases h21 : M = 21
  · simp only [h21, if_true]
    split_ifs
    · intro h
      rcases h with h | h
      · exact absurd h (not_flag_set_of_disjoint hMR)
      · exact absurd h (not_flag_set_of_disjoint hMW)
    · exact hI
  simp only [if_neg h21]
  by_cases h22 : M = 22
  · simp only [h22, if_true]
    intro h
    rcases h with h | h <;> exact absurd h (not_flag_set_zero _)
  simp only [if_neg h22]
  by_cases h24 : M = 24
  · simp only [h24, if_true]
    intro _
    exact flag_set_or_left _ (hg (Or.inl h24))
  simp only [if_neg h24]
  by_cases h25 : M = 25
  · simp only [h25, if_true]
    intro h
    rcases h with h | h
    · exact absurd h (not_flag_set_and_not_self _ _)
    · exact flag_set_and_not_of_disjoint hMR (hI (Or.inr (flag_set_of_and_not h)))
  simp only [if_neg h25]
  by_cases h28 : M = 28
  · simp only [h28, if_true]
    split_ifs
    · intro _
      exact flag_set_or_left _ (hg (Or.inr h28))
    · exact hI
  simp only [if_neg h28]
  by_cases h29 : M = 29
  · simp only [h29, if_true]
    intro h
    rcases h with h | h
    · exact flag_set_and_not_of_disjoint hMW (hI (Or.inl (flag_set_of_and_not h)))
    · exact absurd h (not_flag_set_and_not_self _ _)
  simp only [if_neg h29]
  exact hI

/-- In a build with the storage block, a storage command leaves `sdflags` as
`sdflags_after` says. -/
theorem process_storage_sdflags (cfg : Config) (env : Env) (m : Machine)
    (hSD : cfg.SD = true) (hc : is_storage_command m.next_target) :
    (process_gcode_command cfg env m).sdflags =
      sdflags_after cfg env m.next_target.M m.sdflags := by
  obtain ⟨hG, hM, hlo, hhi⟩ := hc
  rw [process_M cfg env m hG hM]
  have e : (normalize cfg m).next_target.M = m.next_target.M := by
    rw [normalize_next_target]
  have hk : m.next_target.M = 20 ∨ m.next_target.M = 21 ∨ m.next_target.M = 22 ∨
      m.next_target.M = 23 ∨ m.next_target.M = 24 ∨ m.next_target.M = 25 ∨
      m.next_target.M = 26 ∨ m.next_target.M = 27 ∨ m.next_target.M = 28 ∨
      m.next_target.M = 29 := by omega
  rcases hk with h | h | h | h | h | h | h | h | h | h
  · simp [switch_M, sdflags_after, e, h, hSD, normalize_sdflags]
  · by_cases h1 : env.f_mount = FR_OK <;> by_cases h2 : env.f_opendir = FR_OK <;>
      simp [switch_M, sdflags_after, e, h, hSD, normalize_sdflags, case_M21, Machine.call,
        h1, h2]
  · simp [switch_M, sdflags_after, e, h, hSD, normalize_sdflags, case_M22, Machine.call]
  · by_cases h1 : env.f_open = FR_OK <;>
      simp [switch_M, sdflags_after, e, h, hSD, normalize_sdflags, case_M23, Machine.call, h1]
  · simp [switch_M, sdflags_after, e, h, hSD, normalize_sdflags]
  · simp [switch_M, sdflags_after, e, h, hSD, normalize_sdflags]
  · by_cases h1 : env.f_lseek = FR_OK <;>
      simp [switch_M, sdflags_after, e, h, hSD, normalize_sdflags, case_M26, Machine.call, h1]
  · simp [switch_M, sdflags_after, e, h, hSD, normalize_sdflags]
  · by_cases h1 : env.f_open = FR_OK <;>
      simp [switch_M, sdflags_after, e, h, hSD, normalize_sdflags, case_M28, Machine.call, h1]
  · simp [switch_M, sdflags_after, e, h, hSD, normalize_sdflags, case_M29, Machine.call]

/-- The session invariant is kept along a session that starts in a state
having it. -/
theorem session_invariant_run (cfg : Config) (hSD : cfg.SD = true)
    (hMR : cfg.SDFLAG_MOUNTED &&& cfg.SDFLAG_READING = 0)
    (hMW : cfg.SDFLAG_MOUNTED &&& cfg.SDFLAG_WRITING = 0) :
    ∀ (steps : List (GCODE_COMMAND × Env)) (m : Machine),
      session_invariant cfg m.sdflags →
      (∀ s ∈ steps, is_storage_command s.1) →
      opened_while_mounted cfg steps m →
      session_invariant cfg (run_session cfg steps m).sdflags := by
  intro steps
  induction steps with
  | nil => intro m hI _ _; exact hI
  | cons s rest ih =>
    intro m hI hs hg
    obtain ⟨c, env⟩ := s
    have hc : is_storage_command c := hs (c, env) (List.mem_cons_self _ _)
    simp only [run_session]
    apply ih
    · rw [process_storage_sdflags cfg env _ hSD hc]
      exact session_invariant_step cfg env c.M m.sdflags hMR hMW hI hg.1
    · intro s' hs'
      exact hs s' (List.mem_cons_of_mem _ hs')
    · exact hg.2

theorem no_report_call {m : Machine} {e : Event} (h : no_report m.trace)
    (he : is_unknown_code_report e = false) : no_report (m.call e).trace := by
  unfold no_report at h ⊢
  simp only [Machine.call, List.any_append, h, List.any_cons, he, List.any_nil, Bool.or_false]

theorem no_report_enqueue_iff (env : Env) (t : Option TARGET) (m : Machine) :
    no_report (enqueue env t m).trace ↔ no_report m.trace := by
  unfold no_report
  simp [enqueue, List.any_append, is_unknown_code_report]

theorem no_report_enqueue {env : Env} {t : Option TARGET} {m : Machine}
    (h : no_report m.trace) : no_report (enqueue env t m).trace :=
  (no_report_enqueue_iff env t m).2 h

theorem no_report_dwell_loop (env : Env) :
    ∀ (P : Nat) (m : Machine), no_report m.trace → no_report (dwell_loop env P m).trace := by
  intro P
  induction P with
  | zero => intro m h; exact h
  | succ P ih =>
    intro m h
    simp only [dwell_loop]
    split_ifs
    · exact ih _ (no_report_call (no_report_call h rfl) rfl)
    · exact ih _ (no_report_call h rfl)

theorem debug_position_base (cfg : Config) (m : Machine) (hD : cfg.DEBUG = false) :
    debug_position cfg m = m := by
  simp [debug_position, hD]

theorem no_report_case_G28 (cfg : Config) (env : Env) (m : Machine) (h : no_report m.trace) :
    no_report (case_G28 cfg env m).trace := by
  rw [case_G28_eq]
  unfold no_report at h ⊢
  simp only [List.any_append, h, List.any_cons, List.any_map, Bool.false_or]
  simp [is_unknown_code_report, Function.comp_def]

theorem no_report_case_G92 (cfg : Config) (m : Machine) (h : no_report m.trace) :
    no_report (case_G92 cfg m).trace := by
  have h1 : (case_G92 cfg m).trace = (m.call .queue_wait).trace := by
    cases hx : m.next_target.seen_X <;> cases hy : m.next_target.seen_Y <;>
      cases hz : m.next_target.seen_Z <;> cases he : m.next_target.seen_E <;>
      cases hea : cfg.E_ABSOLUTE <;>
      simp [case_G92, Machine.call, hx, hy, hz, he, hea]
  rw [h1]
  exact no_report_call h rfl

theorem call_next_target (m : Machine) (e : Event) :
    (m.call e).next_target = m.next_target := rfl

theorem no_report_case_G161 (m : Machine) (h : no_report m.trace) :
    no_report (case_G161 m).trace := by
  cases hx : m.next_target.seen_X <;> cases hy : m.next_target.seen_Y <;>
    cases hz : m.next_target.seen_Z <;>
    simp only [case_G161, call_next_target, hx, hy, hz, if_true, if_false,
      Bool.false_eq_true] <;>
    first
    | exact h
    | exact no_report_call h rfl
    | exact no_report_call (no_report_call h rfl) rfl
    | exact no_report_call (no_report_call (no_report_call h rfl) rfl) rfl

theorem no_report_case_G162 (m : Machine) (h : no_report m.trace) :
    no_report (case_G162 m).trace := by
  cases hx : m.next_target.seen_X <;> cases hy : m.next_target.seen_Y <;>
    cases hz : m.next_target.seen_Z <;>
    simp only [case_G162, call_next_target, hx, hy, hz, if_true, if_false,
      Bool.false_eq_true] <;>
    first
    | exact h
    | exact no_report_call h rfl
    | exact no_report_call (no_report_call h rfl) rfl
    | exact no_report_call (no_report_call (no_report_call h rfl) rfl) rfl

/-- In a build without `DEBUG`, a G number that has a case is processed
without an unknown-code report. -/
theorem no_report_switch_G (cfg : Config) (env : Env) (m : Machine)
    (hD : cfg.DEBUG = false) (hh : handled_G m.next_target.G = true)
    (h : no_report m.trace) : no_report (switch_G cfg env m).trace := by
  simp only [handled_G, decide_eq_true_eq, List.mem_cons, List.mem_singleton,
    List.mem_nil_iff, or_false] at hh
  simp only [switch_G, debug_position_base _ _ hD]
  rcases hh with g | g | g | g | g | g | g | g | g | g | g | g <;> simp only [g] <;> norm_num
  · simpa [case_G0, no_report_enqueue_iff] using h
  · simpa [case_G1, no_report_enqueue_iff] using h
  · exact no_report_dwell_loop env _ _ (no_report_call h rfl)
  · exact h
  · exact h
  · exact no_report_case_G28 cfg env _ (no_report_enqueue h)
  · exact no_report_case_G28 cfg env _ h
  · exact h
  · exact h
  · exact no_report_case_G92 cfg _ h
  · exact no_report_case_G161 _ h
  · exact no_report_case_G162 _ h

theorem no_report_call_iff (m : Machine) (e : Event) :
    no_report (m.call e).trace ↔ no_report m.trace ∧ is_unknown_code_report e = false := by
  unfold no_report
  simp [Machine.call, List.any_append]

theorem no_report_case_M101 (cfg : Config) (env : Env) (m : Machine)
    (h : no_report m.trace) : no_report (case_M101 cfg env m).trace := by
  unfold case_M101
  rcases cfg.DC_EXTRUDER with _ | d <;> simp only [] <;> split_ifs <;>
    simp [SpecialMoveE, no_report_call_iff, no_report_enqueue_iff, h, is_unknown_code_report]

theorem no_report_case_M103 (cfg : Config) (env : Env) (m : Machine)
    (h : no_report m.trace) : no_report (case_M103 cfg env m).trace := by
  unfold case_M103
  rcases cfg.DC_EXTRUDER with _ | d <;> simp only []
  · split_ifs <;>
      simp [SpecialMoveE, no_report_call_iff, no_report_enqueue_iff, h, is_unknown_code_report]
  · simp [no_report_call_iff, h, is_unknown_code_report]

theorem no_report_case_M104 (m : Machine) (h : no_report m.trace) :
    no_report (case_M104 m).trace := by
  unfold case_M104 default_P
  simp only []
  split_ifs <;> simp [no_report_call_iff, h, is_unknown_code_report]

theorem no_report_case_M105 (m : Machine) (h : no_report m.trace) :
    no_report (case_M105 m).trace := by
  unfold case_M105 default_P
  simp only []
  split_ifs <;> simp [no_report_call_iff, h, is_unknown_code_report]

theorem no_report_case_M106 (cfg : Config) (m : Machine) (h : no_report m.trace) :
    no_report (case_M106 cfg m).trace := by
  unfold case_M106
  rcases cfg.HEATER_FAN with _ | d <;>
    simp [no_report_call_iff, h, is_unknown_code_report]

theorem no_report_case_M107 (cfg : Config) (m : Machine) (h : no_report m.trace) :
    no_report (case_M107 cfg m).trace := by
  unfold case_M107
  rcases cfg.HEATER_FAN with _ | d <;>
    simp [no_report_call_iff, h, is_unknown_code_report]

theorem no_report_case_M109 (env : Env) (m : Machine) (h : no_report m.trace) :
    no_report (case_M109 env m).trace := by
  unfold case_M109 default_P
  simp only []
  split_ifs <;>
    simp [no_report_call_iff, no_report_enqueue_iff, h, is_unknown_code_report]

theorem no_report_case_M140 (cfg : Config) (m : Machine) (h : no_report m.trace) :
    no_report (case_M140 cfg m).trace := by
  unfold case_M140
  rcases cfg.HEATER_BED with _ | d <;> simp only []
  · exact h
  · split_ifs <;> simp [no_report_call_iff, h, is_unknown_code_report]

theorem no_report_case_M135 (m : Machine) (h : no_report m.trace) :
    no_report (case_M135 m).trace := by
  unfold case_M135
  split_ifs <;> simp [no_report_call_iff, h, is_unknown_code_report]

/-- In the base build, an M number that has a case is processed without an
unknown-code report. -/
theorem no_report_switch_M_base (cfg : Config) (env : Env) (m : Machine)
    (hb : base_build cfg) (hh : accepted_M_base m.next_target.M = true)
    (h : no_report m.trace) : no_report (switch_M cfg env m).trace := by
  obtain ⟨hD, hE, hS⟩ := hb
  simp only [accepted_M_base, decide_eq_true_eq, List.mem_cons, List.mem_singleton,
    List.mem_nil_iff, or_false] at hh
  simp only [switch_M, hD, hE, hS, Bool.false_eq_true, and_false, if_false]
  rcases hh with g | g | g | g | g | g | g | g | g | g | g | g | g | g | g | g | g | g | g |
    g | g | g | g | g | g | g | g | g <;> simp only [g] <;> norm_num
  · simp [case_M2, no_report_call_iff, h, is_unknown_code_report]
  · exact no_report_case_M101 cfg env m h
  · exact no_report_case_M103 cfg env m h
  · exact h
  · exact no_report_case_M106 cfg m h
  · exact no_report_case_M107 cfg m h
  · exact no_report_case_M101 cfg env m h
  · exact no_report_case_M103 cfg env m h
  · exact no_report_case_M104 m h
  · exact no_report_case_M105 m h
  · exact no_report_case_M106 cfg m h
  · exact no_report_case_M107 cfg m h
  · exact no_report_case_M109 env m h
  · exact h
  · simp [case_M112, no_report_call_iff, h, is_unknown_code_report]
  · simp [case_M114, no_report_call_iff, h, is_unknown_code_report]
  · simp [case_M115, no_report_call_iff, h, is_unknown_code_report]
  · simp [no_report_enqueue_iff, h]
  · split_ifs <;> simp [no_report_call_iff, h, is_unknown_code_report]
  · split_ifs <;> simp [no_report_call_iff, h, is_unknown_code_report]
  · split_ifs <;> simp [no_report_call_iff, h, is_unknown_code_report]
  · split_ifs <;> simp [no_report_call_iff, h, is_unknown_code_report]
  · simp [no_report_call_iff, h, is_unknown_code_report]
  · exact no_report_case_M135 m h
  · exact no_report_case_M140 cfg m h
  · simp [case_M190, no_report_call_iff, h, is_unknown_code_report]
  · simp [case_M191, no_report_call_iff, h, is_unknown_code_report]
  · exact no_report_case_M135 m h

/-- A G number without a case is answered with the error report alone. -/
theorem switch_G_unhandled (cfg : Config) (env : Env) (m : Machine)
    (hh : handled_G m.next_target.G = false) :
    switch_G cfg env m = m.call (.sersendf_P "E: Bad G-code %d" [.num m.next_target.G]) := by
  simp only [handled_G, decide_eq_false_iff_not, List.mem_cons, List.mem_singleton,
    List.mem_nil_iff, or_false, not_or] at hh
  obtain ⟨g0, g1, g4, g20, g21, g30, g28, g90, g91, g92, g161, g162⟩ := hh
  simp only [switch_G, g0, g1, g4, g20, g21, g30, g28, g90, g91, g92, g161, g162, if_false]

/-- In the base build an M number without a case is answered with the error
report alone. -/
theorem switch_M_unhandled_base (cfg : Config) (env : Env) (m : Machine)
    (hb : base_build cfg) (hh : accepted_M_base m.next_target.M = false) :
    switch_M cfg env m = m.call (.sersendf_P "E: Bad M-code %d" [.num m.next_target.M]) := by
  obtain ⟨hD, hE, hS⟩ := hb
  simp only [accepted_M_base, decide_eq_false_iff_not, List.mem_cons, List.mem_singleton,
    List.mem_nil_iff, or_false, not_or] at hh
  obtain ⟨b2, b3, b5, b6, b7, b9, b101, b103, b104, b105, b106, b107, b109, b110, b112,
    b114, b115, b116, b130, b131, b132, b133, b134, b135, b140, b190, b191, b247⟩ := hh
  simp only [switch_M, hD, hE, hS, Bool.false_eq_true, and_false, if_false, b2, b3, b5, b6,
    b7, b9, b101, b103, b104, b105, b106, b107, b109, b110, b112, b114, b115, b116, b130,
    b131, b132, b133, b134, b135, b140, b190, b191, b247, or_self]

theorem accepted_M_base_iff (M : Nat) :
    accepted_M_base M = true ↔
      (documented_M M = true ∧ M ≠ 111 ∧ M ≠ 136) ∨ M = 247 := by
  simp only [accepted_M_base, documented_M, decide_eq_true_eq, List.mem_cons,
    List.mem_singleton, List.mem_nil_iff, or_false]
  omega

theorem handled_G_eq_documented (G : Nat) : handled_G G = documented_G G := by
  have h : handled_G G = true ↔ documented_G G = true := by
    simp only [handled_G, documented_G, decide_eq_true_eq, List.mem_cons,
      List.mem_singleton, List.mem_nil_iff, or_false]
    omega
  cases h1 : handled_G G <;> cases h2 : documented_G G <;> simp_all

theorem case_M253_eeconfig (m : Machine) :
    (case_M253 m).eeconfig =
      { m.eeconfig with
        max_speed_x :=
          if m.next_target.seen_X then m.next_target.target.X else m.eeconfig.max_speed_x,
        max_speed_y :=
          if m.next_target.seen_Y then m.next_target.target.Y else m.eeconfig.max_speed_y,
        max_speed_z :=
          if m.next_target.seen_Z then m.next_target.target.Z else m.eeconfig.max_speed_z,
        max_speed_e :=
          if m.next_target.seen_E then m.next_target.target.E else m.eeconfig.max_speed_e } := by
  cases hx : m.next_target.seen_X <;> cases hy : m.next_target.seen_Y <;>
    cases hz : m.next_target.seen_Z <;> cases he : m.next_target.seen_E <;>
    simp [case_M253, hx, hy, hz, he]

theorem case_M254_eeconfig (m : Machine) :
    (case_M254 m).eeconfig =
      { m.eeconfig with
        size_x := if m.next_target.seen_X then m.next_target.target.X else m.eeconfig.size_x,
        size_y := if m.next_target.seen_Y then m.next_target.target.Y else m.eeconfig.size_y,
        size_z := if m.next_target.seen_Z then m.next_target.target.Z else m.eeconfig.size_z } := by
  cases hx : m.next_target.seen_X <;> cases hy : m.next_target.seen_Y <;>
    cases hz : m.next_target.seen_Z <;>
    simp [case_M254, hx, hy, hz]

theorem case_M255_eeconfig (m : Machine) :
    (case_M255 m).eeconfig =
      { m.eeconfig with
        steps_per_mm_x :=
          if m.next_target.seen_X then m.next_target.target.X else m.eeconfig.steps_per_mm_x,
        steps_per_mm_y :=
          if m.next_target.seen_Y then m.next_target.target.Y else m.eeconfig.steps_per_mm_y,
        steps_per_mm_z :=
          if m.next_target.seen_Z then m.next_target.target.Z else m.eeconfig.steps_per_mm_z,
        steps_per_mm_e :=
          if m.next_target.seen_E then m.next_target.target.E
          else m.eeconfig.steps_per_mm_e } := by
  cases hx : m.next_target.seen_X <;> cases hy : m.next_target.seen_Y <;>
    cases hz : m.next_target.seen_Z <;> cases he : m.next_target.seen_E <;>
    simp [case_M255, hx, hy, hz, he]

theorem case_M244_eeconfig (m : Machine) :
    (case_M244 m).eeconfig =
      { m.eeconfig with
        baud :=
          if m.next_target.seen_S = true ∧ 1200 ≤ m.next_target.S ∧ m.next_target.S ≤ 1000000
          then m.next_target.S else m.eeconfig.baud } := by
  unfold case_M244
  cases hs : m.next_target.seen_S
  · simp
  · by_cases hr : m.next_target.S ≥ 1200 ∧ m.next_target.S ≤ 1000000
    · simp [hr, hr.1, hr.2]
    · have hr' : ¬ (1200 ≤ m.next_target.S ∧ m.next_target.S ≤ 1000000) := hr
      simp [hr, hr']

/-- M245 with an index that is a row of the table writes that row. -/
theorem case_M245_eeconfig (env : Env) (m : Machine)
    (hS : 0 ≤ m.next_target.S ∧ m.next_target.S < m.eeconfig.temptable.length) :
    (case_M245 env m).eeconfig =
      { m.eeconfig with
        temptable :=
          if m.next_target.seen_S = true ∧ m.next_target.seen_X = true ∧
              m.next_target.seen_Y = true then
            m.eeconfig.temptable.set m.next_target.S.toNat
              ⟨m.next_target.target.X, m.next_target.target.Y⟩
          else m.eeconfig.temptable } := by
  unfold case_M245
  by_cases h : m.next_target.seen_S = true ∧ m.next_target.seen_X = true ∧
      m.next_target.seen_Y = true
  · have hlt : m.next_target.S.toNat < m.eeconfig.temptable.length := by
      have := hS.1; have := hS.2; omega
    simp [h, store_temptable, hS, List.getD_eq_getElem?_getD, hlt]
  · simp [h]

/-- M245 without one of its three parameters leaves the record as it is. -/
theorem case_M245_absent (env : Env) (m : Machine)
    (h : ¬ (m.next_target.seen_S = true ∧ m.next_target.seen_X = true ∧
      m.next_target.seen_Y = true)) :
    (case_M245 env m).eeconfig = m.eeconfig := by
  unfold case_M245
  simp [h]

theorem case_M249_eeconfig (m : Machine) :
    (case_M249 m).eeconfig =
      { m.eeconfig with
        temp_residency :=
          if m.next_target.seen_P then m.next_target.P else m.eeconfig.temp_residency } := by
  cases hp : m.next_target.seen_P <;> simp [case_M249, hp]

theorem case_M250_eeconfig (m : Machine) :
    (case_M250 m).eeconfig =
      { m.eeconfig with
        min_endstop_pos_z :=
          if m.next_target.seen_Z then m.next_target.target.Z
          else m.eeconfig.min_endstop_pos_z } := by
  cases hz : m.next_target.seen_Z <;> simp [case_M250, hz]

/-- In a build with the persisted-configuration block, the commands M244,
M245, M249, M250, M253, M254, M255 run their case on the normalized machine. -/
theorem process_eeconfig (cfg : Config) (env : Env) (m : Machine)
    (hE : cfg.EECONFIG = true) (hG : m.next_target.seen_G = false)
    (hM : m.next_target.seen_M = true) :
    (m.next_target.M = 244 →
      process_gcode_command cfg env m = case_M244 (normalize cfg m)) ∧
    (m.next_target.M = 245 →
      process_gcode_command cfg env m = case_M245 env (normalize cfg m)) ∧
    (m.next_target.M = 249 →
      process_gcode_command cfg env m = case_M249 (normalize cfg m)) ∧
    (m.next_target.M = 250 →
      process_gcode_command cfg env m = case_M250 (normalize cfg m)) ∧
    (m.next_target.M = 253 →
      process_gcode_command cfg env m = case_M253 (normalize cfg m)) ∧
    (m.next_target.M = 254 →
      process_gcode_command cfg env m = case_M254 (normalize cfg m)) ∧
    (m.next_target.M = 255 →
      process_gcode_command cfg env m = case_M255 (normalize cfg m)) := by
  rw [process_M cfg env m hG hM]
  have e : (normalize cfg m).next_target.M = m.next_target.M := by
    rw [normalize_next_target]
  refine ⟨?_, ?_, ?_, ?_, ?_, ?_, ?_⟩ <;> intro h <;> simp [switch_M, e, h, hE]

theorem normalized_target_E (cfg : Config) (m : Machine) (hea : cfg.E_ABSOLUTE = false) :
    (normalized_target cfg m).E = m.next_target.target.E := by
  unfold normalized_target
  rw [axis_limits_eq]
  unfold convert_relative
  simp only [hea, Bool.false_eq_true, if_false]
  split_ifs <;> rfl

/-- In absolute mode the normalized target depends on the command record only. -/
theorem normalized_target_absolute (cfg : Config) (m k : Machine)
    (hr : k.next_target.option_relative = false) (h : m.next_target = k.next_target) :
    normalized_target cfg m = normalized_target cfg k := by
  unfold normalized_target
  rw [axis_limits_eq, axis_limits_eq]
  simp [convert_relative, h, hr]

/-! ## Theorems -/

/-- C1. Travel-limit clamp: on each axis whose configured minimum does not
exceed its configured maximum, the normalized value is the absolute target
value clamped to the configured bounds expressed in target units (the lower
bound below it, the upper bound above it, the value itself inside) and lies
within those bounds; a G1 command hands exactly the normalized target to
`enqueue`. -/
theorem travel_limit_clamp (cfg : Config) (env : Env) (m : Machine) :
    ((∀ lo hi, cfg.X_MIN = some lo → cfg.X_MAX = some hi → lo * 1000 ≤ hi * 1000) →
      (normalized_target cfg m).X =
        clamp_to_limits (X_MIN_units cfg) (X_MAX_units cfg) (absolute_target cfg m).X ∧
      within_limits (X_MIN_units cfg) (X_MAX_units cfg) (normalized_target cfg m).X) ∧
    ((∀ lo hi, cfg.Y_MIN = some lo → cfg.Y_MAX = some hi →
        lo * cfg.STEPS_PER_MM_Y ≤ hi * cfg.STEPS_PER_MM_Y) →
      (normalized_target cfg m).Y =
        clamp_to_limits (Y_MIN_units cfg) (Y_MAX_units cfg) (absolute_target cfg m).Y ∧
      within_limits (Y_MIN_units cfg) (Y_MAX_units cfg) (normalized_target cfg m).Y) ∧
    ((∀ lo hi, cfg.Z_MIN = some lo → cfg.Z_MAX = some hi →
        lo * cfg.STEPS_PER_MM_Z ≤ hi * cfg.STEPS_PER_MM_Z) →
      (normalized_target cfg m).Z =
        clamp_to_limits (Z_MIN_units cfg) (Z_MAX_units cfg) (absolute_target cfg m).Z ∧
      within_limits (Z_MIN_units cfg) (Z_MAX_units cfg) (normalized_target cfg m).Z) ∧
    (m.next_target.seen_G = true → m.next_target.G = 1 →
      enqueues (process_gcode_command cfg env m).trace =
        enqueues m.trace ++ [some (normalized_target cfg m)]) := by
  refine ⟨?_, ?_, ?_, ?_⟩
  · intro hX
    have hx : (normalized_target cfg m).X =
        clamp_to_limits (X_MIN_units cfg) (X_MAX_units cfg) (absolute_target cfg m).X := by
      unfold normalized_target absolute_target
      rw [axis_limits_eq]
      simp only []
      rw [after_min_max_eq_clamp _ _ _ (ordered_map _ _ _ hX), Option.map_map, Option.map_map]
      rfl
    refine ⟨hx, ?_⟩
    rw [hx]
    exact clamp_within_limits _ _ _ (ordered_units _ _ _ hX)
  · intro hY
    have hy : (normalized_target cfg m).Y =
        clamp_to_limits (Y_MIN_units cfg) (Y_MAX_units cfg) (absolute_target cfg m).Y := by
      unfold normalized_target absolute_target
      rw [axis_limits_eq]
      simp only []
      rw [after_min_max_eq_clamp _ _ _ (ordered_map _ _ _ hY), Option.map_map, Option.map_map]
      rfl
    refine ⟨hy, ?_⟩
    rw [hy]
    exact clamp_within_limits _ _ _ (ordered_units _ _ _ hY)
  · intro hZ
    have hz : (normalized_target cfg m).Z =
        clamp_to_limits (Z_MIN_units cfg) (Z_MAX_units cfg) (absolute_target cfg m).Z := by
      unfold normalized_target absolute_target
      rw [axis_limits_eq]
      simp only []
      rw [after_min_max_eq_clamp _ _ _ (ordered_map _ _ _ hZ), Option.map_map, Option.map_map]
      rfl
    refine ⟨hz, ?_⟩
    rw [hz]
    exact clamp_within_limits _ _ _ (ordered_units _ _ _ hZ)
  · intro hG hG1
    rw [process_eq, if_pos hG]
    have h1 : (normalize cfg m).next_target.G = 1 := by rw [normalize_eq]; exact hG1
    simp only [switch_G, h1, debug_position_eq, case_G1, enqueue, Machine.call]
    simp [enqueues_append, enqueues, enqueues_debug_position_calls, normalize_eq]

/-- Witness for C1: `G1 X250 Y-5 Z100` under the limits X 0..200 mm,
Y 0..200 mm, Z 0..140 mm is enqueued as (200000, 0, 100). -/
theorem travel_limit_clamp_witness :
    normalized_target cfg_example (machine_at cmd_G1_far origin) = ⟨200000, 0, 100, 0, 1500, 0⟩ ∧
    within_limits (X_MIN_units cfg_example) (X_MAX_units cfg_example)
      (normalized_target cfg_example (machine_at cmd_G1_far origin)).X ∧
    within_limits (Y_MIN_units cfg_example) (Y_MAX_units cfg_example)
      (normalized_target cfg_example (machine_at cmd_G1_far origin)).Y ∧
    within_limits (Z_MIN_units cfg_example) (Z_MAX_units cfg_example)
      (normalized_target cfg_example (machine_at cmd_G1_far origin)).Z ∧
    enqueues (process_gcode_command cfg_example env_example (machine_at cmd_G1_far origin)).trace
      = [some ⟨200000, 0, 100, 0, 1500, 0⟩] := by
  have h := travel_limit_clamp cfg_example env_example (machine_at cmd_G1_far origin)
  have hv : normalized_target cfg_example (machine_at cmd_G1_far origin)
      = ⟨200000, 0, 100, 0, 1500, 0⟩ := by
    simp [normalized_target, axis_limits_eq, convert_relative, machine_at, cmd_G1_far,
      cmd_empty, cfg_example, after_min, after_max, double_to_int32]
    norm_num
  refine ⟨hv, (h.1 cfg_example_ordered.1).2, (h.2.1 cfg_example_ordered.2.1).2,
    (h.2.2.1 cfg_example_ordered.2.2).2, ?_⟩
  have h3 := h.2.2.2 rfl rfl
  rw [hv] at h3
  simpa [machine_at, enqueues] using h3

/-- C3. G92 (set home): with none of `seen_X`, `seen_Y`, `seen_Z`, `seen_E`
set, X, Y and Z of `startpoint` and of `current_position` are 0 afterwards and
their E and F are untouched; with `seen_Z` set and `seen_X`, `seen_Y` clear,
X and Y of `startpoint` and of `current_position` keep their values. -/
theorem G92_set_home (cfg : Config) (env : Env) (m : Machine)
    (hG : m.next_target.seen_G = true) (h92 : m.next_target.G = 92) :
    (m.next_target.seen_X = false → m.next_target.seen_Y = false →
      m.next_target.seen_Z = false → m.next_target.seen_E = false →
      (process_gcode_command cfg env m).startpoint =
        { m.startpoint with X := 0, Y := 0, Z := 0 } ∧
      (process_gcode_command cfg env m).current_position =
        { m.current_position with X := 0, Y := 0, Z := 0 }) ∧
    (m.next_target.seen_X = false → m.next_target.seen_Y = false →
      m.next_target.seen_Z = true →
      (process_gcode_command cfg env m).startpoint.X = m.startpoint.X ∧
      (process_gcode_command cfg env m).startpoint.Y = m.startpoint.Y ∧
      (process_gcode_command cfg env m).current_position.X = m.current_position.X ∧
      (process_gcode_command cfg env m).current_position.Y = m.current_position.Y) := by
  rw [process_G92 cfg env m hG h92, debug_position_eq]
  constructor
  · intro hx hy hz he
    simp [case_G92, Machine.call, normalize_next_target, normalize_startpoint,
      normalize_current_position, hx, hy, hz, he]
  · intro hx hy hz
    cases he : m.next_target.seen_E <;> cases hea : cfg.E_ABSOLUTE <;>
      simp [case_G92, Machine.call, normalize_next_target, normalize_startpoint,
        normalize_current_position, hx, hy, hz, he, hea]

/-- Witness for C3: `G92` and `G92 Z40` received at (1000, 2000, 3000). -/
theorem G92_set_home_witness :
    (process_gcode_command cfg_unlimited env_example (machine_at cmd_G92 somewhere)).startpoint
      = ⟨0, 0, 0, 77, 5, 0⟩ ∧
    (process_gcode_command cfg_unlimited env_example
      (machine_at cmd_G92 somewhere)).current_position = ⟨0, 0, 0, 77, 5, 0⟩ ∧
    (process_gcode_command cfg_unlimited env_example
      (machine_at cmd_G92_Z somewhere)).startpoint.X = 1000 ∧
    (process_gcode_command cfg_unlimited env_example
      (machine_at cmd_G92_Z somewhere)).startpoint.Y = 2000 :=
  have h := (G92_set_home cfg_unlimited env_example (machine_at cmd_G92 somewhere)
    rfl rfl).1 rfl rfl rfl rfl
  have k := (G92_set_home cfg_unlimited env_example (machine_at cmd_G92_Z somewhere)
    rfl rfl).2 rfl rfl rfl
  ⟨h.1, h.2, k.1, k.2.1⟩

/-- C4, as stated, fails: in relative mode `G92 X0.5` received at X = 1000
sets the home to 1500, not to the 500 the command carried; in absolute mode
`G92 X300` under the limit X_MAX = 200 mm sets it to 200000, not 300000. -/
theorem G92_given_value_counterexample :
    (cmd_G92_X_relative.seen_X = true ∧ cmd_G92_X_relative.target.X = 500 ∧
      (process_gcode_command cfg_unlimited env_example
        (machine_at cmd_G92_X_relative somewhere)).startpoint.X = 1500 ∧
      (process_gcode_command cfg_unlimited env_example
        (machine_at cmd_G92_X_relative somewhere)).current_position.X = 1500) ∧
    (cmd_G92_X_beyond.seen_X = true ∧ cmd_G92_X_beyond.option_relative = false ∧
      cmd_G92_X_beyond.target.X = 300000 ∧
      (process_gcode_command cfg_example env_example
        (machine_at cmd_G92_X_beyond somewhere)).startpoint.X = 200000 ∧
      (process_gcode_command cfg_example env_example
        (machine_at cmd_G92_X_beyond somewhere)).current_position.X = 200000) := by
  refine ⟨⟨rfl, rfl, ?_, ?_⟩, ⟨rfl, rfl, rfl, ?_, ?_⟩⟩
  · decide
  · decide
  · rw [process_G92 _ _ _ rfl rfl, debug_position_eq]
    simp [case_G92, Machine.call, normalize_next_target, normalize_startpoint,
      normalize_current_position, normalized_target, axis_limits_eq, convert_relative,
      machine_at, cmd_G92_X_beyond, cmd_empty, cfg_example, after_min, after_max,
      double_to_int32]
    norm_num
  · rw [process_G92 _ _ _ rfl rfl, debug_position_eq]
    simp [case_G92, Machine.call, normalize_next_target, normalize_startpoint,
      normalize_current_position, normalized_target, axis_limits_eq, convert_relative,
      machine_at, cmd_G92_X_beyond, cmd_empty, cfg_example, after_min, after_max,
      double_to_int32]
    norm_num

/-- C4, amended. G92 stores the normalized value: for each of X, Y, Z whose
seen flag is set, `startpoint` and `current_position` take the normalized
target value of that axis (the carried value, plus `startpoint` in relative
mode, clamped to the travel limits); in absolute mode, when the carried X, Y, Z
lie within the limits, that is the carried value itself. -/
theorem G92_stores_normalized_value (cfg : Config) (env : Env) (m : Machine)
    (hG : m.next_target.seen_G = true) (h92 : m.next_target.G = 92) :
    (m.next_target.seen_X = true →
      (process_gcode_command cfg env m).startpoint.X = (normalized_target cfg m).X ∧
      (process_gcode_command cfg env m).current_position.X = (normalized_target cfg m).X) ∧
    (m.next_target.seen_Y = true →
      (process_gcode_command cfg env m).startpoint.Y = (normalized_target cfg m).Y ∧
      (process_gcode_command cfg env m).current_position.Y = (normalized_target cfg m).Y) ∧
    (m.next_target.seen_Z = true →
      (process_gcode_command cfg env m).startpoint.Z = (normalized_target cfg m).Z ∧
      (process_gcode_command cfg env m).current_position.Z = (normalized_target cfg m).Z) ∧
    (m.next_target.option_relative = false →
      within_limits (X_MIN_units cfg) (X_MAX_units cfg) m.next_target.target.X →
      within_limits (Y_MIN_units cfg) (Y_MAX_units cfg) m.next_target.target.Y →
      within_limits (Z_MIN_units cfg) (Z_MAX_units cfg) m.next_target.target.Z →
      normalized_target cfg m = m.next_target.target) := by
  rw [process_G92 cfg env m hG h92, debug_position_eq]
  refine ⟨?_, ?_, ?_, normalized_target_of_within cfg m⟩
  · intro hx
    cases hy : m.next_target.seen_Y <;> cases hz : m.next_target.seen_Z <;>
      cases he : m.next_target.seen_E <;> cases hea : cfg.E_ABSOLUTE <;>
      simp [case_G92, Machine.call, normalize_next_target, normalize_startpoint,
        normalize_current_position, hx, hy, hz, he, hea]
  · intro hy
    cases hx : m.next_target.seen_X <;> cases hz : m.next_target.seen_Z <;>
      cases he : m.next_target.seen_E <;> cases hea : cfg.E_ABSOLUTE <;>
      simp [case_G92, Machine.call, normalize_next_target, normalize_startpoint,
        normalize_current_position, hx, hy, hz, he, hea]
  · intro hz
    cases hx : m.next_target.seen_X <;> cases hy : m.next_target.seen_Y <;>
      cases he : m.next_target.seen_E <;> cases hea : cfg.E_ABSOLUTE <;>
      simp [case_G92, Machine.call, normalize_next_target, normalize_startpoint,
        normalize_current_position, hx, hy, hz, he, hea]

/-- Witness for the amended C4: `G92 X150` in absolute mode under the limits
0..200 mm stores 150000, the value carried. -/
theorem G92_stores_normalized_value_witness :
    (process_gcode_command cfg_example env_example
      (machine_at cmd_G92_X_inside somewhere)).startpoint.X = 150000 ∧
    (process_gcode_command cfg_example env_example
      (machine_at cmd_G92_X_inside somewhere)).current_position.X = 150000 := by
  have h := G92_stores_normalized_value cfg_example env_example
    (machine_at cmd_G92_X_inside somewhere) rfl rfl
  obtain ⟨u1, u2, u3, u4, u5, u6⟩ := cfg_example_units
  have hn := h.2.2.2 rfl
    (by rw [u1, u2]; exact within_limits_some (by decide) (by decide))
    (by rw [u3, u4]; exact within_limits_some (by decide) (by decide))
    (by rw [u5, u6]; exact within_limits_some (by decide) (by decide))
  have hx := h.1 rfl
  rw [hn] at hx
  exact hx

/-- C5. G28 (go home): the calls of a G28 command are one `queue_wait`
followed by the enqueues of the homing moves of the flagged axes among X, Y, Z
in that order, of all three when none is flagged (and, in a DEBUG build, the
position debug output). Each homing move is the startpoint read at the moment
of its enqueue with the homed axis set to 0 and F set to the search feed rate
of that axis: the first move is built from the startpoint on entry, each later
one from the startpoint that the enqueue before it left, and the command ends
with the startpoint the last enqueue left. With no axis flag there are exactly
three enqueues, with only `seen_Y` exactly one. -/
theorem G28_homing_sequence (cfg : Config) (env : Env) (m : Machine)
    (hG : m.next_target.seen_G = true) (h28 : m.next_target.G = 28) :
    (process_gcode_command cfg env m).trace =
      m.trace ++ .queue_wait ::
        (homing_moves cfg env
          (homed_axes m.next_target.seen_X m.next_target.seen_Y m.next_target.seen_Z)
          m.startpoint).map (fun t => Event.enqueue (some t))
        ++ debug_position_calls cfg m.debug_flags ∧
    enqueues (process_gcode_command cfg env m).trace =
      enqueues m.trace ++
        (homing_moves cfg env
          (homed_axes m.next_target.seen_X m.next_target.seen_Y m.next_target.seen_Z)
          m.startpoint).map some ∧
    (process_gcode_command cfg env m).startpoint =
      startpoint_after_homing cfg env
        (homed_axes m.next_target.seen_X m.next_target.seen_Y m.next_target.seen_Z)
        m.startpoint ∧
    (m.next_target.seen_X = false → m.next_target.seen_Y = false →
      m.next_target.seen_Z = false →
      ∀ sp1 sp2 : TARGET,
        sp1 = env.enqueue_startpoint
          (some { m.startpoint with X := 0, F := cfg.SEARCH_FEEDRATE_X }) m.startpoint →
        sp2 = env.enqueue_startpoint
          (some { sp1 with Y := 0, F := cfg.SEARCH_FEEDRATE_Y }) sp1 →
        enqueues (process_gcode_command cfg env m).trace =
          enqueues m.trace ++
            [some { m.startpoint with X := 0, F := cfg.SEARCH_FEEDRATE_X },
             some { sp1 with Y := 0, F := cfg.SEARCH_FEEDRATE_Y },
             some { sp2 with Z := 0, F := cfg.SEARCH_FEEDRATE_Z }]) ∧
    (m.next_target.seen_X = false → m.next_target.seen_Y = true →
      m.next_target.seen_Z = false →
      enqueues (process_gcode_command cfg env m).trace =
        enqueues m.trace ++ [some { m.startpoint with Y := 0, F := cfg.SEARCH_FEEDRATE_Y }]) := by
  have hp : process_gcode_command cfg env m =
      debug_position cfg (case_G28 cfg env (normalize cfg m)) := process_G28 cfg env m hG h28
  have ht : (process_gcode_command cfg env m).trace =
      m.trace ++ .queue_wait ::
        (homing_moves cfg env
          (homed_axes m.next_target.seen_X m.next_target.seen_Y m.next_target.seen_Z)
          m.startpoint).map (fun t => Event.enqueue (some t))
        ++ debug_position_calls cfg m.debug_flags := by
    rw [hp, debug_position_eq, case_G28_eq]
    simp [normalize_next_target, normalize_startpoint, normalize_trace, normalize_debug_flags]
  have he : enqueues (process_gcode_command cfg env m).trace =
      enqueues m.trace ++
        (homing_moves cfg env
          (homed_axes m.next_target.seen_X m.next_target.seen_Y m.next_target.seen_Z)
          m.startpoint).map some := by
    rw [ht]
    simp [enqueues_append, enqueues, enqueues_map_enqueue, enqueues_debug_position_calls]
  refine ⟨ht, he, ?_, ?_, ?_⟩
  · rw [hp, debug_position_eq, case_G28_eq]
    simp [normalize_next_target, normalize_startpoint]
  · intro hx hy hz sp1 sp2 h1 h2
    rw [he, hx, hy, hz, h2, h1]
    rfl
  · intro hx hy hz
    rw [he, hx, hy, hz]
    rfl

/-- Witness for C5: `G28` and `G28 Y0` received at (1000, 2000, 3000), the
queue leaving in `startpoint` the target of each move. -/
theorem G28_homing_sequence_witness :
    (process_gcode_command cfg_unlimited env_example (machine_at cmd_G28 parked)).trace =
      [.queue_wait, .enqueue (some ⟨0, 2000, 3000, 0, 50, 0⟩),
       .enqueue (some ⟨0, 0, 3000, 0, 50, 0⟩), .enqueue (some ⟨0, 0, 0, 0, 50, 0⟩)] ∧
    (process_gcode_command cfg_unlimited env_example (machine_at cmd_G28 parked)).startpoint =
      ⟨0, 0, 0, 0, 50, 0⟩ ∧
    (process_gcode_command cfg_unlimited env_example (machine_at cmd_G28_Y parked)).trace =
      [.queue_wait, .enqueue (some ⟨1000, 0, 3000, 0, 50, 0⟩)] :=
  ⟨(G28_homing_sequence cfg_unlimited env_example (machine_at cmd_G28 parked) rfl rfl).1,
   (G28_homing_sequence cfg_unlimited env_example (machine_at cmd_G28 parked) rfl rfl).2.2.1,
   (G28_homing_sequence cfg_unlimited env_example (machine_at cmd_G28_Y parked) rfl rfl).1⟩

/-- C6, as stated, fails. `G30 X10 Y5` received at (1000, 2000, 3000): the
homing moves that follow the move are built from the startpoint the move left,
(10000, 1600, 0), while those of `G28 X10 Y5` processed from the same state are
built from (1000, 2000, 3000). The same command in relative mode: G30 leaves
the target converted once, (11000, 3600, 3000), while `G28 X10 Y5` processed
after the move converts the record against the advanced startpoint and leaves
(21000, 5200, 3000). -/
theorem G30_same_record_counterexample :
    effects cfg_unlimited env_example (machine_at cmd_G30_XY parked) =
      [.enqueue (some ⟨10000, 1600, 0, 0, 900, 0⟩), .queue_wait,
       .enqueue (some ⟨0, 1600, 0, 0, 50, 0⟩),
       .enqueue (some ⟨0, 0, 0, 0, 50, 0⟩)] ∧
    effects cfg_unlimited env_example (with_G (machine_at cmd_G30_XY parked) 28) =
      [.queue_wait, .enqueue (some ⟨0, 2000, 3000, 0, 50, 0⟩),
       .enqueue (some ⟨0, 0, 3000, 0, 50, 0⟩)] ∧
    effects cfg_unlimited env_example (with_G (machine_at cmd_G30_XY parked) 30) ≠
      .enqueue (some (normalized_target cfg_unlimited (machine_at cmd_G30_XY parked))) ::
        effects cfg_unlimited env_example (with_G (machine_at cmd_G30_XY parked) 28) ∧
    (process_gcode_command cfg_unlimited env_example
      (with_G (machine_at cmd_G30_XY_relative parked) 30)).next_target.target =
        ⟨11000, 3600, 3000, 0, 900, 0⟩ ∧
    (process_gcode_command cfg_unlimited env_example
      (with_G (after_move cfg_unlimited env_example (machine_at cmd_G30_XY_relative parked))
        28)).next_target.target = ⟨21000, 5200, 3000, 0, 900, 0⟩ := by
  decide

/-- C6, amended. G30 is move-then-home: for every command record, the effect
trace of processing it with G = 30 is one enqueue of the normalized target
followed by the effect trace of processing the same record with G = 28 in the
state that enqueue left (the startpoint advanced by the move): `queue_wait`,
then the homing enqueues of the flagged axes, or of all three when none is
flagged, built from the advanced startpoint. The final state is the final
state of that G28 processing, the G number apart, with the stored target being
the normalized target of the G30 record; in absolute mode the two final states
agree in the stored target too. When the enqueue of the move leaves the
startpoint as it found it, trace and final state are those of the enqueue
followed by processing the record with G = 28 from the state on entry. -/
theorem G30_move_then_home (cfg : Config) (env : Env) (m : Machine) :
    effects cfg env (with_G m 30) =
      .enqueue (some (normalized_target cfg m)) ::
        effects cfg env (with_G (after_move cfg env m) 28) ∧
    effects cfg env (with_G (after_move cfg env m) 28) =
      .queue_wait ::
        (homing_moves cfg env
          (homed_axes m.next_target.seen_X m.next_target.seen_Y m.next_target.seen_Z)
          (env.enqueue_startpoint (some (normalized_target cfg m)) m.startpoint)).map
            (fun t => Event.enqueue (some t))
        ++ debug_position_calls cfg m.debug_flags ∧
    (process_gcode_command cfg env (with_G m 30)).trace =
      m.trace ++ effects cfg env (with_G m 30) ∧
    process_gcode_command cfg env (with_G m 30) =
      { process_gcode_command cfg env (with_G (after_move cfg env m) 28) with
        next_target :=
          { (process_gcode_command cfg env (with_G (after_move cfg env m) 28)).next_target with
            G := 30, target := normalized_target cfg m },
        trace := m.trace ++ effects cfg env (with_G m 30) } ∧
    (m.next_target.option_relative = false →
      process_gcode_command cfg env (with_G m 30) =
        { process_gcode_command cfg env (with_G (after_move cfg env m) 28) with
          next_target :=
            { (process_gcode_command cfg env (with_G (after_move cfg env m) 28)).next_target with
              G := 30 },
          trace := m.trace ++ effects cfg env (with_G m 30) }) ∧
    (env.enqueue_startpoint (some (normalized_target cfg m)) m.startpoint = m.startpoint →
      effects cfg env (with_G m 30) =
        .enqueue (some (normalized_target cfg m)) :: effects cfg env (with_G m 28) ∧
      process_gcode_command cfg env (with_G m 30) =
        { process_gcode_command cfg env (with_G m 28) with
          next_target :=
            { (process_gcode_command cfg env (with_G m 28)).next_target with G := 30 },
          trace := m.trace ++ effects cfg env (with_G m 30) }) := by
  have e28 : ∀ k : Machine, process_gcode_command cfg env (with_G k 28) =
      debug_position cfg (case_G28 cfg env (normalize cfg (with_G k 28))) :=
    fun k => process_G28 cfg env (with_G k 28) rfl rfl
  have e30 : ∀ k : Machine, process_gcode_command cfg env (with_G k 30) =
      debug_position cfg (case_G30 cfg env (normalize cfg (with_G k 30))) :=
    fun k => process_G30 cfg env (with_G k 30) rfl rfl
  have w28 : ∀ (k : Machine) (t : List Event), ({ with_G k 28 with trace := t } : Machine) =
      with_G { k with trace := t } 28 := fun _ _ => rfl
  have w30 : ∀ t : List Event, ({ with_G m 30 with trace := t } : Machine) =
      with_G { m with trace := t } 30 := fun _ => rfl
  have t28 : effects cfg env (with_G (after_move cfg env m) 28) =
      .queue_wait ::
        (homing_moves cfg env
          (homed_axes m.next_target.seen_X m.next_target.seen_Y m.next_target.seen_Z)
          (env.enqueue_startpoint (some (normalized_target cfg m)) m.startpoint)).map
            (fun t => Event.enqueue (some t))
        ++ debug_position_calls cfg m.debug_flags := by
    unfold effects
    rw [w28, e28]
    simp only [debug_position_eq, case_G28_eq, normalize_eq]
    simp [with_G, after_move]
  have t30 : effects cfg env (with_G m 30) =
      .enqueue (some (normalized_target cfg m)) ::
        effects cfg env (with_G (after_move cfg env m) 28) := by
    rw [t28]
    unfold effects
    rw [w30, e30]
    simp only [debug_position_eq, case_G30, case_G28_eq, enqueue, normalize_eq,
      normalized_target_with_G, normalized_target_trace]
    simp [with_G]
  have s30 : process_gcode_command cfg env (with_G m 30) =
      { process_gcode_command cfg env (with_G (after_move cfg env m) 28) with
        next_target :=
          { (process_gcode_command cfg env (with_G (after_move cfg env m) 28)).next_target with
            G := 30, target := normalized_target cfg m },
        trace := m.trace ++ effects cfg env (with_G m 30) } := by
    rw [t30, t28, e28, e30]
    simp only [debug_position_eq, case_G30, case_G28_eq, enqueue, normalize_eq,
      normalized_target_with_G, normalized_target_trace]
    simp [with_G, after_move]
  refine ⟨t30, t28, ?_, s30, ?_, ?_⟩
  · rw [s30]
  · intro hr
    have hn : normalized_target cfg (after_move cfg env m) = normalized_target cfg m :=
      normalized_target_absolute cfg _ m hr rfl
    have ht : (process_gcode_command cfg env
        (with_G (after_move cfg env m) 28)).next_target.target = normalized_target cfg m := by
      rw [e28, debug_position_eq, case_G28_eq]
      simp only [normalize_eq, normalized_target_with_G]
      exact hn
    rw [s30, ← ht]
  · intro hsp
    have ha : after_move cfg env m = m := by
      unfold after_move
      rw [hsp]
    have ht : (process_gcode_command cfg env (with_G m 28)).next_target.target =
        normalized_target cfg m := by
      rw [e28, debug_position_eq, case_G28_eq]
      simp only [normalize_eq, normalized_target_with_G]
    refine ⟨?_, ?_⟩
    · rw [t30, ha]
    · rw [s30, ha, ← ht]

/-- Witness for the amended C6: `G30 X10 Y5` received at (1000, 2000, 3000)
makes the move, homes X and Y from (10000, 1600, 0) and ends with the
startpoint at the origin. -/
theorem G30_move_then_home_witness :
    cmd_G30_XY.option_relative = false ∧
    effects cfg_unlimited env_example (machine_at cmd_G30_XY parked) =
      [.enqueue (some ⟨10000, 1600, 0, 0, 900, 0⟩), .queue_wait,
       .enqueue (some ⟨0, 1600, 0, 0, 50, 0⟩),
       .enqueue (some ⟨0, 0, 0, 0, 50, 0⟩)] ∧
    (process_gcode_command cfg_unlimited env_example
      (machine_at cmd_G30_XY parked)).startpoint = ⟨0, 0, 0, 0, 50, 0⟩ ∧
    (process_gcode_command cfg_unlimited env_example
      (machine_at cmd_G30_XY parked)).next_target.target = ⟨10000, 1600, 0, 0, 900, 0⟩ := by
  have h := G30_move_then_home cfg_unlimited env_example (machine_at cmd_G30_XY parked)
  have w : with_G (machine_at cmd_G30_XY parked) 30 = machine_at cmd_G30_XY parked := rfl
  rw [w] at h
  refine ⟨rfl, ?_, ?_, ?_⟩
  · exact h.1.trans (by decide)
  · exact (congrArg Machine.startpoint (h.2.2.2.2.1 rfl)).trans (by decide)
  · have e := congrArg (fun k : Machine => k.next_target.target) (h.2.2.2.2.1 rfl)
    refine e.trans ?_
    decide

/-- C7, as stated, fails: `M109` without an S word makes no `temp_set` call
at all before the synchronization marker. -/
theorem M109_temp_set_counterexample :
    cmd_M109.seen_S = false ∧
    (process_gcode_command cfg_unlimited env_example (machine_at cmd_M109 somewhere)).trace =
      [.disable_heater, .enqueue none] := by
  constructor
  · rfl
  · decide

/-- C7, amended. M109: the calls are `temp_set(P, S)` when S is present and
no `temp_set` when it is absent, then `power_on`, `enable_heater` when the
stored S is non-zero and `disable_heater` otherwise, then the marker
`enqueue(NULL)`: exactly one enqueue, and it is the last call. P is the
supplied P, the tool of the stored target when P is absent. -/
theorem M109_set_temp_and_wait (cfg : Config) (env : Env) (m : Machine)
    (hG : m.next_target.seen_G = false) (hM : m.next_target.seen_M = true)
    (h109 : m.next_target.M = 109) :
    (process_gcode_command cfg env m).trace =
      m.trace ++
        (if m.next_target.seen_S then
          [.temp_set (sensor_id m.next_target) m.next_target.S] else []) ++
        (if m.next_target.S ≠ 0 then [.power_on, .enable_heater] else [.disable_heater]) ++
        [.enqueue none] ∧
    enqueues (process_gcode_command cfg env m).trace = enqueues m.trace ++ [none] := by
  have h1 : (normalize cfg m).next_target.M = 109 := by rw [normalize_next_target]; exact h109
  have ht : (process_gcode_command cfg env m).trace =
      m.trace ++
        (if m.next_target.seen_S then
          [.temp_set (sensor_id m.next_target) m.next_target.S] else []) ++
        (if m.next_target.S ≠ 0 then [.power_on, .enable_heater] else [.disable_heater]) ++
        [.enqueue none] := by
    rw [process_M cfg env m hG hM]
    simp only [switch_M, h1]
    cases hS : m.next_target.seen_S <;> cases hP : m.next_target.seen_P <;>
      by_cases h0 : m.next_target.S = 0 <;>
      simp [case_M109, default_P, enqueue, Machine.call, sensor_id, normalize_next_target,
        normalize_trace, normalized_target_T, hS, hP, h0]
  refine ⟨ht, ?_⟩
  rw [ht]
  cases hS : m.next_target.seen_S <;> by_cases h0 : m.next_target.S = 0 <;>
    simp [enqueues_append, enqueues, h0]

/-- Witness for the amended C7: `M109 S200 P1`. -/
theorem M109_set_temp_and_wait_witness :
    (process_gcode_command cfg_unlimited env_example (machine_at cmd_M109_S somewhere)).trace =
      [.temp_set 1 200, .power_on, .enable_heater, .enqueue none] :=
  (M109_set_temp_and_wait cfg_unlimited env_example (machine_at cmd_M109_S somewhere)
    rfl rfl rfl).1

/-- C8, as stated, fails: the unknown code `G55 T3` changes `next_tool` from
0 to 3, and the unknown code `M999 X0.5` received in relative mode at
X = 1000 changes the stored target X from 500 to 1500. -/
theorem unknown_code_state_counterexample :
    ((machine_at cmd_G55_T somewhere).next_tool = 0 ∧
      (process_gcode_command cfg_unlimited env_example
        (machine_at cmd_G55_T somewhere)).next_tool = 3) ∧
    ((machine_at cmd_M999_relative somewhere).next_target.target.X = 500 ∧
      (process_gcode_command cfg_unlimited env_example
        (machine_at cmd_M999_relative somewhere)).next_target.target.X = 1500) := by
  refine ⟨⟨rfl, ?_⟩, ⟨rfl, ?_⟩⟩ <;> decide

/-- C8, amended. Unknown codes: a command whose G number has no case, or a
command without G whose M number has no case, makes exactly one call, the error
report carrying the family and the number, and leaves `startpoint`,
`current_position`, the mode flags, the tool and every other global unchanged,
except that the stored target is replaced by the normalized target and
`next_tool` takes T when `seen_T` is set. -/
theorem unknown_code_reports_error (cfg : Config) (env : Env) (m : Machine) :
    (m.next_target.seen_G = true → handled_G m.next_target.G = false →
      process_gcode_command cfg env m =
        { m with
          next_target := { m.next_target with target := normalized_target cfg m },
          next_tool := if m.next_target.seen_T then m.next_target.T else m.next_tool,
          trace := m.trace ++ [.sersendf_P "E: Bad G-code %d" [.num m.next_target.G]] }) ∧
    (m.next_target.seen_G = false → m.next_target.seen_M = true →
      handled_M cfg m.next_target.M = false →
      process_gcode_command cfg env m =
        { m with
          next_target := { m.next_target with target := normalized_target cfg m },
          next_tool := if m.next_target.seen_T then m.next_target.T else m.next_tool,
          trace := m.trace ++ [.sersendf_P "E: Bad M-code %d" [.num m.next_target.M]] }) := by
  constructor
  · intro hG hh
    rw [process_G cfg env m hG]
    simp only [handled_G, decide_eq_false_iff_not, List.mem_cons, List.mem_singleton,
      List.mem_nil_iff, or_false, not_or] at hh
    obtain ⟨g0, g1, g4, g20, g21, g30, g28, g90, g91, g92, g161, g162⟩ := hh
    have e : (normalize cfg m).next_target.G = m.next_target.G := by
      rw [normalize_next_target]
    simp only [switch_G, e, g0, g1, g4, g20, g21, g30, g28, g90, g91, g92, g161, g162,
      if_false, Machine.call]
    rw [normalize_eq]
  · intro hG hM hh
    rw [process_M cfg env m hG hM]
    have e : (normalize cfg m).next_target.M = m.next_target.M := by
      rw [normalize_next_target]
    simp only [handled_M, Bool.or_eq_false_iff, Bool.and_eq_false_iff, decide_eq_false_iff_not,
      List.mem_cons, List.mem_singleton, List.mem_nil_iff, or_false, not_or] at hh
    obtain ⟨⟨⟨hb, hd⟩, he⟩, hs⟩ := hh
    obtain ⟨b2, b6, b3, b101, b5, b103, b104, b105, b7, b106, b9, b107, b109, b110, b112,
      b114, b115, b116, b130, b131, b132, b133, b134, b135, b247, b140, b190, b191⟩ := hb
    have hd' : ∀ k ∈ [111, 136, 340, 341, 350, 353, 354],
        ¬ (m.next_target.M = k ∧ cfg.DEBUG = true) := by
      intro k hk hc
      rcases hd with hd | hd
      · rw [hd] at hc; exact absurd hc.2 (by simp)
      · simp only [List.mem_cons, List.mem_singleton, List.mem_nil_iff, or_false] at hk
        rw [hc.1] at hd
        omega
    have he' : ∀ k ∈ [244, 245, 249, 250, 251, 253, 254, 255],
        ¬ (m.next_target.M = k ∧ cfg.EECONFIG = true) := by
      intro k hk hc
      rcases he with he | he
      · rw [he] at hc; exact absurd hc.2 (by simp)
      · simp only [List.mem_cons, List.mem_singleton, List.mem_nil_iff, or_false] at hk
        rw [hc.1] at he
        omega
    have hs' : ∀ k ∈ [20, 21, 22, 23, 24, 25, 26, 27, 28, 29],
        ¬ (m.next_target.M = k ∧ cfg.SD = true) := by
      intro k hk hc
      rcases hs with hs | hs
      · rw [hs] at hc; exact absurd hc.2 (by simp)
      · simp only [List.mem_cons, List.mem_singleton, List.mem_nil_iff, or_false] at hk
        rw [hc.1] at hs
        omega
    simp only [switch_M, e, b2, b6, b3, b101, b5, b103, b104, b105, b7, b106, b9, b107, b109,
      b110, b112, b114, b115, b116, b130, b131, b132, b133, b134, b135, b247, b140, b190,
      b191, or_self, if_false,
      hd' 111 (by simp), hd' 136 (by simp), hd' 340 (by simp), hd' 341 (by simp),
      hd' 350 (by simp), hd' 353 (by simp), hd' 354 (by simp),
      he' 244 (by simp), he' 245 (by simp), he' 249 (by simp), he' 250 (by simp),
      he' 251 (by simp), he' 253 (by simp), he' 254 (by simp), he' 255 (by simp),
      hs' 20 (by simp), hs' 21 (by simp), hs' 22 (by simp), hs' 23 (by simp),
      hs' 24 (by simp), hs' 25 (by simp), hs' 26 (by simp), hs' 27 (by simp),
      hs' 28 (by simp), hs' 29 (by simp), Machine.call]
    rw [normalize_eq]

/-- Witness for the amended C8: `G55` and `M999` with no other word, in
absolute mode, make one error report and change nothing else. -/
theorem unknown_code_reports_error_witness :
    process_gcode_command cfg_unlimited env_example (machine_at cmd_G55 somewhere) =
      { machine_at cmd_G55 somewhere with
        trace := [.sersendf_P "E: Bad G-code %d" [.num 55]] } ∧
    process_gcode_command cfg_unlimited env_example (machine_at cmd_M999 somewhere) =
      { machine_at cmd_M999 somewhere with
        trace := [.sersendf_P "E: Bad M-code %d" [.num 999]] } :=
  ⟨(unknown_code_reports_error cfg_unlimited env_example
      (machine_at cmd_G55 somewhere)).1 rfl rfl,
   (unknown_code_reports_error cfg_unlimited env_example
      (machine_at cmd_M999 somewhere)).2 rfl rfl rfl⟩

/-- C9, as stated, fails: a line holding only `T1` (neither G nor M) is not a
no-op, it changes `next_tool` from 0 to 1. -/
theorem no_family_noop_counterexample :
    cmd_T1.seen_G = false ∧ cmd_T1.seen_M = false ∧
    (machine_at cmd_T1 somewhere).next_tool = 0 ∧
    (process_gcode_command cfg_unlimited env_example (machine_at cmd_T1 somewhere)).next_tool
      = 1 := by
  refine ⟨rfl, rfl, rfl, ?_⟩
  decide

/-- C9, amended. Family dispatch: with `seen_G` set only the G switch runs (on
the normalized machine), and the outcome does not depend on `seen_M` or on the
M number; with `seen_G` clear and `seen_M` set only the M switch runs; with
neither set no call is made and no global changes, except that the stored
target is replaced by the normalized target and `next_tool` takes T when
`seen_T` is set. -/
theorem family_dispatch (cfg : Config) (env : Env) (m : Machine) :
    (m.next_target.seen_G = true →
      process_gcode_command cfg env m = switch_G cfg env (normalize cfg m) ∧
      ∀ (b : Bool) (k : Nat),
        process_gcode_command cfg env (with_M_fields m b k) =
          with_M_fields (process_gcode_command cfg env m) b k) ∧
    (m.next_target.seen_G = false → m.next_target.seen_M = true →
      process_gcode_command cfg env m = switch_M cfg env (normalize cfg m)) ∧
    (m.next_target.seen_G = false → m.next_target.seen_M = false →
      process_gcode_command cfg env m =
        { m with
          next_target := { m.next_target with target := normalized_target cfg m },
          next_tool := if m.next_target.seen_T then m.next_target.T else m.next_tool }) := by
  refine ⟨?_, ?_, ?_⟩
  · intro hG
    refine ⟨process_G cfg env m hG, ?_⟩
    intro b k
    rw [process_G cfg env m hG, process_G cfg env (with_M_fields m b k) hG,
      normalize_with_M_fields, switch_G_with_M_fields]
  · intro hG hM
    exact process_M cfg env m hG hM
  · intro hG hM
    rw [process_eq, hG, hM, normalize_eq]
    rfl

/-- Witness for the amended C9: `G1` with and without an M word on the same
line, and an empty line. -/
theorem family_dispatch_witness :
    process_gcode_command cfg_unlimited env_example
        (with_M_fields (machine_at cmd_G1_far somewhere) true 104) =
      with_M_fields
        (process_gcode_command cfg_unlimited env_example (machine_at cmd_G1_far somewhere))
        true 104 ∧
    process_gcode_command cfg_unlimited env_example (machine_at cmd_empty somewhere) =
      machine_at cmd_empty somewhere :=
  ⟨((family_dispatch cfg_unlimited env_example (machine_at cmd_G1_far somewhere)).1 rfl).2
      true 104,
   (family_dispatch cfg_unlimited env_example (machine_at cmd_empty somewhere)).2.2 rfl rfl⟩

/-- C10. G0 (rapid move): when `2 * MAXIMUM_FEEDRATE_X` fits the `uint32_t`
feed rate, a G0 command performs exactly one enqueue, of the normalized target
with F replaced by `2 * MAXIMUM_FEEDRATE_X`; afterwards the stored target is
the normalized target, whose F is the feed rate carried on entry. -/
theorem G0_feedrate_substitution (cfg : Config) (env : Env) (m : Machine)
    (hG : m.next_target.seen_G = true) (h0 : m.next_target.G = 0)
    (hF : 2 * cfg.MAXIMUM_FEEDRATE_X < 2 ^ 32) :
    enqueues (process_gcode_command cfg env m).trace =
      enqueues m.trace ++
        [some { normalized_target cfg m with F := 2 * cfg.MAXIMUM_FEEDRATE_X }] ∧
    (process_gcode_command cfg env m).trace =
      m.trace ++
        .enqueue (some { normalized_target cfg m with F := 2 * cfg.MAXIMUM_FEEDRATE_X }) ::
        debug_position_calls cfg m.debug_flags ∧
    (process_gcode_command cfg env m).next_target.target = normalized_target cfg m ∧
    (process_gcode_command cfg env m).next_target.target.F = m.next_target.target.F := by
  have h1 : (normalize cfg m).next_target.G = 0 := by rw [normalize_next_target]; exact h0
  have hmod : cfg.MAXIMUM_FEEDRATE_X * 2 % 2 ^ 32 = 2 * cfg.MAXIMUM_FEEDRATE_X := by
    rw [Nat.mod_eq_of_lt (by omega)]
    omega
  have hp : process_gcode_command cfg env m =
      debug_position cfg (case_G0 cfg env (normalize cfg m)) := by
    rw [process_G cfg env m hG]
    simp [switch_G, h1]
  have ht : (process_gcode_command cfg env m).trace =
      m.trace ++
        .enqueue (some { normalized_target cfg m with F := 2 * cfg.MAXIMUM_FEEDRATE_X }) ::
        debug_position_calls cfg m.debug_flags := by
    rw [hp, debug_position_eq]
    simp only [case_G0, enqueue, Machine.call, normalize_next_target, normalize_trace,
      normalize_debug_flags, hmod]
    simp
  have hs : (process_gcode_command cfg env m).next_target.target = normalized_target cfg m := by
    rw [hp, debug_position_eq]
    simp [case_G0, enqueue, Machine.call, normalize_next_target]
  refine ⟨?_, ht, hs, ?_⟩
  · rw [ht]
    simp [enqueues_append, enqueues, enqueues_debug_position_calls]
  · rw [hs, normalized_target_F]

/-- Witness for C10: `G0 X10 F900` with `MAXIMUM_FEEDRATE_X = 200` is
enqueued at F = 400 and leaves F = 900 stored. -/
theorem G0_feedrate_substitution_witness :
    (process_gcode_command cfg_unlimited env_example (machine_at cmd_G0 somewhere)).trace =
      [.enqueue (some ⟨10000, 0, 0, 0, 400, 0⟩)] ∧
    (process_gcode_command cfg_unlimited env_example
      (machine_at cmd_G0 somewhere)).next_target.target = ⟨10000, 0, 0, 0, 900, 0⟩ :=
  have h := G0_feedrate_substitution cfg_unlimited env_example (machine_at cmd_G0 somewhere)
    rfl rfl (by decide)
  ⟨h.2.1, h.2.2.1⟩

/-- C11, as stated, fails: `M23` processed with `sdflags = 0` (not mounted)
and an `f_open` that returns `FR_OK` emits the 'ready' message and no error. -/
theorem M23_unmounted_counterexample :
    ¬ flag_set (machine_at cmd_M23 somewhere).sdflags cfg_sd.SDFLAG_MOUNTED ∧
    env_example.f_open = FR_OK ∧
    (process_gcode_command cfg_sd env_example (machine_at cmd_M23 somewhere)).trace =
      [.f_open .read_existing, .sersendf_P "\x27%t\x27 ready" [.sdbuffer]] := by
  refine ⟨by decide, rfl, ?_⟩
  decide

/-- C11, amended. M23 (select file) does not test the mounted flag: whatever
`sdflags` holds, when `f_open` returns a result other than `FR_OK` exactly one
error line carrying that result is emitted and no 'ready' message; when it
returns `FR_OK` the 'ready' message is emitted; `sdflags` is unchanged in both
cases. -/
theorem M23_select_file (cfg : Config) (env : Env) (m : Machine)
    (hSD : cfg.SD = true) (hG : m.next_target.seen_G = false)
    (hM : m.next_target.seen_M = true) (h23 : m.next_target.M = 23) :
    (env.f_open ≠ FR_OK →
      (process_gcode_command cfg env m).trace =
        m.trace ++ [.f_open .read_existing,
          .sersendf_P "E: could not open \x27%t\x27: %sd" [.sdbuffer, .num env.f_open]]) ∧
    (env.f_open = FR_OK →
      (process_gcode_command cfg env m).trace =
        m.trace ++ [.f_open .read_existing, .sersendf_P "\x27%t\x27 ready" [.sdbuffer]]) ∧
    (process_gcode_command cfg env m).sdflags = m.sdflags := by
  rw [process_M23 cfg env m hSD hG hM h23]
  refine ⟨?_, ?_, ?_⟩
  · intro h
    simp [case_M23, Machine.call, h, normalize_trace]
  · intro h
    simp [case_M23, Machine.call, h, normalize_trace]
  · by_cases h : env.f_open = FR_OK <;>
      simp [case_M23, Machine.call, h, normalize_sdflags]

/-- Witness for the amended C11: `M23` when `f_open` fails with result 4. -/
theorem M23_select_file_witness :
    (process_gcode_command cfg_sd env_open_fails (machine_at cmd_M23 somewhere)).trace =
      [.f_open .read_existing,
       .sersendf_P "E: could not open \x27%t\x27: %sd" [.sdbuffer, .num 4]] ∧
    (process_gcode_command cfg_sd env_open_fails (machine_at cmd_M23 somewhere)).sdflags = 0 :=
  have h := M23_select_file cfg_sd env_open_fails (machine_at cmd_M23 somewhere)
    rfl rfl rfl rfl
  ⟨h.1 (by decide), h.2.2⟩

/-- C12, as stated, fails: from `sdflags = 0` the single storage command `M24`
sets the reading flag while the mounted flag is clear. -/
theorem storage_session_counterexample :
    (machine_at cmd_empty somewhere).sdflags = 0 ∧
    is_storage_command cmd_M24 ∧
    flag_set (run_session cfg_sd [(cmd_M24, env_example)]
      (machine_at cmd_empty somewhere)).sdflags cfg_sd.SDFLAG_READING ∧
    ¬ flag_set (run_session cfg_sd [(cmd_M24, env_example)]
      (machine_at cmd_empty somewhere)).sdflags cfg_sd.SDFLAG_MOUNTED := by
  refine ⟨rfl, ⟨rfl, rfl, by decide, by decide⟩, ?_, ?_⟩
  · decide
  · decide

/-- C12, amended. The code never tests the mounted flag, so the invariant
holds for the sessions that respect it: when the masks of READING and WRITING
are disjoint from the mask of MOUNTED, starting from `sdflags = 0`, for every
sequence of storage commands M20 .. M29 with arbitrary collaborator results in
which every M24 and every M28 is received in a mounted state, in the state
reached the reading or the writing flag is set only if the mounted flag is
set. -/
theorem storage_session_invariant (cfg : Config) (steps : List (GCODE_COMMAND × Env))
    (m : Machine) (hSD : cfg.SD = true)
    (hMR : cfg.SDFLAG_MOUNTED &&& cfg.SDFLAG_READING = 0)
    (hMW : cfg.SDFLAG_MOUNTED &&& cfg.SDFLAG_WRITING = 0)
    (h0 : m.sdflags = 0)
    (hs : ∀ s ∈ steps, is_storage_command s.1)
    (hg : opened_while_mounted cfg steps m) :
    session_invariant cfg (run_session cfg steps m).sdflags := by
  apply session_invariant_run cfg hSD hMR hMW steps m _ hs hg
  rw [h0]
  intro h
  rcases h with h | h <;> exact absurd h (not_flag_set_zero _)

/-- Witness for the amended C12: the session `M21` (successful), `M24`, `M25`
received from `sdflags = 0`. -/
theorem storage_session_invariant_witness :
    session_invariant cfg_sd
      (run_session cfg_sd [(cmd_M21, env_example), (cmd_M24, env_example),
        (cmd_M25, env_example)] (machine_at cmd_empty somewhere)).sdflags ∧
    (run_session cfg_sd [(cmd_M21, env_example), (cmd_M24, env_example)]
      (machine_at cmd_empty somewhere)).sdflags = 3 := by
  refine ⟨?_, by decide⟩
  apply storage_session_invariant cfg_sd _ (machine_at cmd_empty somewhere) rfl
    (by decide) (by decide) rfl
  · intro s hs
    simp only [List.mem_cons, List.mem_singleton, List.mem_nil_iff, or_false] at hs
    rcases hs with h | h | h <;> subst h <;> exact ⟨rfl, rfl, by decide, by decide⟩
  · refine ⟨fun h => absurd h (by decide), fun _ => by decide,
      fun h => absurd h (by decide), trivial⟩

/-- C13, as stated, fails: the calls of `M112` are `timer_stop`,
`queue_flush`, `power_off`; no axis driver is disabled. -/
theorem M112_disable_counterexample :
    (process_gcode_command cfg_unlimited env_example (machine_at cmd_M112 somewhere)).trace =
      [.timer_stop, .queue_flush, .power_off] ∧
    Event.x_disable ∉
      (process_gcode_command cfg_unlimited env_example (machine_at cmd_M112 somewhere)).trace ∧
    Event.y_disable ∉
      (process_gcode_command cfg_unlimited env_example (machine_at cmd_M112 somewhere)).trace ∧
    Event.z_disable ∉
      (process_gcode_command cfg_unlimited env_example (machine_at cmd_M112 somewhere)).trace ∧
    Event.e_disable ∉
      (process_gcode_command cfg_unlimited env_example (machine_at cmd_M112 somewhere)).trace := by
  refine ⟨?_, ?_, ?_, ?_, ?_⟩ <;> decide

/-- C13, amended. Stop paths: the calls of M2 are `timer_stop`, `queue_flush`,
the disable call of each of the four axis drivers (X, Y, Z, E), `power_off`, in
that order, and M2 then enters the non-returning watchdog loop; the calls of
M112 are `timer_stop`, `queue_flush`, `power_off`, with no driver disable call,
and M112 returns. -/
theorem stop_paths (cfg : Config) (env : Env) (m : Machine)
    (hG : m.next_target.seen_G = false) (hM : m.next_target.seen_M = true) :
    (m.next_target.M = 2 →
      (process_gcode_command cfg env m).trace =
        m.trace ++ [.timer_stop, .queue_flush, .x_disable, .y_disable, .z_disable,
          .e_disable, .power_off] ∧
      (process_gcode_command cfg env m).wd_loop = true) ∧
    (m.next_target.M = 112 →
      (process_gcode_command cfg env m).trace =
        m.trace ++ [.timer_stop, .queue_flush, .power_off] ∧
      (process_gcode_command cfg env m).wd_loop = m.wd_loop) := by
  rw [process_M cfg env m hG hM]
  have e : (normalize cfg m).next_target.M = m.next_target.M := by
    rw [normalize_next_target]
  constructor
  · intro h
    simp [switch_M, e, h, case_M2, Machine.call, normalize_trace]
  · intro h
    simp [switch_M, e, h, case_M112, Machine.call, normalize_trace, normalize_wd_loop]

/-- Witness for the amended C13: `M2` and `M112`. -/
theorem stop_paths_witness :
    (process_gcode_command cfg_unlimited env_example (machine_at cmd_M2 somewhere)).trace =
      [.timer_stop, .queue_flush, .x_disable, .y_disable, .z_disable, .e_disable,
       .power_off] ∧
    (process_gcode_command cfg_unlimited env_example (machine_at cmd_M2 somewhere)).wd_loop
      = true ∧
    (process_gcode_command cfg_unlimited env_example (machine_at cmd_M112 somewhere)).wd_loop
      = false :=
  have h2 := (stop_paths cfg_unlimited env_example (machine_at cmd_M2 somewhere) rfl rfl).1 rfl
  have h112 := (stop_paths cfg_unlimited env_example (machine_at cmd_M112 somewhere)
    rfl rfl).2 rfl
  ⟨h2.1, h2.2, h112.2⟩

/-- C14, as stated, fails: in the base build `M111`, a number of the
documented list, is answered with `E: Bad M-code`, and `M247`, a number of the
optional block 244..255, is accepted and sets the heater output. -/
theorem protocol_code_set_counterexample :
    base_build cfg_unlimited ∧
    (documented_M 111 = true ∧
      (process_gcode_command cfg_unlimited env_example (machine_at cmd_M111 somewhere)).trace =
        [.sersendf_P "E: Bad M-code %d" [.num 111]]) ∧
    (documented_M 247 = false ∧
      (process_gcode_command cfg_unlimited env_example (machine_at cmd_M247 somewhere)).trace =
        [.heater_set 0 128, .power_on]) := by
  refine ⟨⟨rfl, rfl, rfl⟩, ⟨by decide, ?_⟩, ⟨by decide, ?_⟩⟩
  · decide
  · decide

/-- C14, amended. Protocol code set of the base build (`DEBUG`, `EECONFIG`,
`SD` not defined): a G command is answered with an unknown-code report if and
only if its number is outside the documented list 0, 1, 4, 20, 21, 28, 30, 90,
91, 92, 161, 162; a command without G is answered with one if and only if its
M number is outside the list of cases of the base build, which is the
documented list without 111 and 136 (compiled under `DEBUG` only) and with 247
(a second label of the case of 135). -/
theorem protocol_code_set (cfg : Config) (env : Env) (m : Machine) (hb : base_build cfg) :
    (m.next_target.seen_G = true →
      (reports_unknown_code cfg env m ↔ documented_G m.next_target.G = false)) ∧
    (m.next_target.seen_G = false → m.next_target.seen_M = true →
      (reports_unknown_code cfg env m ↔ accepted_M_base m.next_target.M = false)) ∧
    (∀ M : Nat, accepted_M_base M = true ↔
      (documented_M M = true ∧ M ≠ 111 ∧ M ≠ 136) ∨ M = 247) := by
  have hn : no_report (normalize cfg { m with trace := [] }).trace := by
    rw [normalize_trace]; rfl
  refine ⟨?_, ?_, accepted_M_base_iff⟩
  · intro hG
    rw [← handled_G_eq_documented]
    unfold reports_unknown_code effects
    rw [process_G cfg env { m with trace := [] } hG]
    have e : (normalize cfg { m with trace := [] }).next_target.G = m.next_target.G := by
      rw [normalize_next_target]
    constructor
    · intro hr
      cases hh : handled_G m.next_target.G
      · rfl
      · have := no_report_switch_G cfg env _ hb.1 (by rw [e]; exact hh) hn
        unfold no_report at this
        rw [this] at hr
        exact absurd hr (by decide)
    · intro hh
      rw [switch_G_unhandled cfg env _ (by rw [e]; exact hh)]
      simp [Machine.call, normalize_trace, is_unknown_code_report]
  · intro hG hM
    unfold reports_unknown_code effects
    rw [process_M cfg env { m with trace := [] } hG hM]
    have e : (normalize cfg { m with trace := [] }).next_target.M = m.next_target.M := by
      rw [normalize_next_target]
    constructor
    · intro hr
      cases hh : accepted_M_base m.next_target.M
      · rfl
      · have := no_report_switch_M_base cfg env _ hb (by rw [e]; exact hh) hn
        unfold no_report at this
        rw [this] at hr
        exact absurd hr (by decide)
    · intro hh
      rw [switch_M_unhandled_base cfg env _ hb (by rw [e]; exact hh)]
      simp [Machine.call, normalize_trace, is_unknown_code_report]

/-- Witness for the amended C14: in the base build `M104` is accepted and
`M111` is reported. -/
theorem protocol_code_set_witness :
    ¬ reports_unknown_code cfg_unlimited env_example
        (with_M (machine_at cmd_empty somewhere) 104) ∧
    reports_unknown_code cfg_unlimited env_example (machine_at cmd_M111 somewhere) := by
  have hb : base_build cfg_unlimited := ⟨rfl, rfl, rfl⟩
  constructor
  · intro h
    have := ((protocol_code_set cfg_unlimited env_example
      (with_M (machine_at cmd_empty somewhere) 104) hb).2.1 rfl rfl).mp h
    exact absurd this (by decide)
  · exact ((protocol_code_set cfg_unlimited env_example
      (machine_at cmd_M111 somewhere) hb).2.1 rfl rfl).mpr (by decide)

/-- Gating of the persisted-configuration commands on rows of the table
(EECONFIG build): after M244, M249, M250, M253, M254 or M255, and after M245
when its index S is a row of the thermistor table, a field of `eeconfig` that
differs from its value before the command is a field written by that command
whose parameter letter has its seen flag set; for `baud` moreover
1200 <= S <= 1000000, and for a thermistor-table member the row is S and S, X,
Y are all seen. Every other field, and every field whose parameter is absent,
keeps its value. -/
theorem eeconfig_gating (cfg : Config) (env : Env) (m : Machine)
    (hE : cfg.EECONFIG = true) (hG : m.next_target.seen_G = false)
    (hM : m.next_target.seen_M = true)
    (hk : m.next_target.M ∈ [244, 245, 249, 250, 253, 254, 255])
    (hS : m.next_target.M = 245 → m.next_target.seen_S = true →
      m.next_target.seen_X = true → m.next_target.seen_Y = true →
      0 ≤ m.next_target.S ∧ m.next_target.S < m.eeconfig.temptable.length)
    (f : EEField)
    (hd : f.get (process_gcode_command cfg env m).eeconfig ≠ f.get m.eeconfig) :
    f.code = m.next_target.M ∧ f.keyed_seen m.next_target = true ∧
    (f = .baud → 1200 ≤ m.next_target.S ∧ m.next_target.S ≤ 1000000) ∧
    (∀ row, f = .adc_value row ∨ f = .temperature row →
      (row : Int) = m.next_target.S ∧ m.next_target.seen_S = true ∧
      m.next_target.seen_X = true ∧ m.next_target.seen_Y = true) := by
  obtain ⟨p244, p245, p249, p250, p253, p254, p255⟩ := process_eeconfig cfg env m hE hG hM
  simp only [List.mem_cons, List.mem_singleton, List.mem_nil_iff, or_false] at hk
  rcases hk with h | h | h | h | h | h | h
  · rw [p244 h, case_M244_eeconfig, normalize_eeconfig, normalize_next_target] at hd
    cases f <;> simp [EEField.get, EEField.code, EEField.keyed_seen, h] at hd ⊢
    exact ⟨hd.1, hd.2.1, hd.2.2.1⟩
  · by_cases hc : m.next_target.seen_S = true ∧ m.next_target.seen_X = true ∧
        m.next_target.seen_Y = true
    · have hr := hS h hc.1 hc.2.1 hc.2.2
      have hr' : 0 ≤ (normalize cfg m).next_target.S ∧
          (normalize cfg m).next_target.S < (normalize cfg m).eeconfig.temptable.length := by
        rw [normalize_eeconfig, normalize_next_target]; exact hr
      rw [p245 h, case_M245_eeconfig env _ hr', normalize_eeconfig, normalize_next_target] at hd
      cases f <;>
        simp [EEField.get, EEField.code, EEField.keyed_seen, h, hc,
          List.getD_eq_getElem?_getD] at hd ⊢
      · rename_i row
        by_contra hne
        have hn : m.next_target.S.toNat ≠ row :=
          fun e => hne (by rw [← e]; exact Int.toNat_of_nonneg hr.1)
        rw [List.getElem?_set_ne hn] at hd
        exact hd rfl
      · rename_i row
        by_contra hne
        have hn : m.next_target.S.toNat ≠ row :=
          fun e => hne (by rw [← e]; exact Int.toNat_of_nonneg hr.1)
        rw [List.getElem?_set_ne hn] at hd
        exact hd rfl
    · rw [p245 h, case_M245_absent env _ (by rw [normalize_next_target]; exact hc),
        normalize_eeconfig] at hd
      exact absurd rfl hd
  · rw [p249 h, case_M249_eeconfig, normalize_eeconfig, normalize_next_target] at hd
    cases f <;> simp [EEField.get, EEField.code, EEField.keyed_seen, h] at hd ⊢
    exact hd.1
  · rw [p250 h, case_M250_eeconfig, normalize_eeconfig, normalize_next_target] at hd
    cases f <;> simp [EEField.get, EEField.code, EEField.keyed_seen, h] at hd ⊢
    exact hd.1
  · rw [p253 h, case_M253_eeconfig, normalize_eeconfig, normalize_next_target] at hd
    cases f <;> simp [EEField.get, EEField.code, EEField.keyed_seen, h] at hd ⊢ <;>
      exact hd.1
  · rw [p254 h, case_M254_eeconfig, normalize_eeconfig, normalize_next_target] at hd
    cases f <;> simp [EEField.get, EEField.code, EEField.keyed_seen, h] at hd ⊢ <;>
      exact hd.1
  · rw [p255 h, case_M255_eeconfig, normalize_eeconfig, normalize_next_target] at hd
    cases f <;> simp [EEField.get, EEField.code, EEField.keyed_seen, h] at hd ⊢ <;>
      exact hd.1

/-- An instance of the gating: `M253 X120 E30` changes `max_speed_x` (X is
seen) and leaves `max_speed_y` (Y is absent) and `size_x` (a field of M254)
alone; `M244 S300` leaves `baud` alone; `M245 S3 X5 Y7` writes row 3 of the
table. -/
theorem eeconfig_gating_witness :
    (process_gcode_command cfg_eeconfig env_example
      (machine_at cmd_M253_XE somewhere)).eeconfig.max_speed_x = 120 ∧
    (process_gcode_command cfg_eeconfig env_example
      (machine_at cmd_M253_XE somewhere)).eeconfig.max_speed_y = 0 ∧
    (process_gcode_command cfg_eeconfig env_example
      (machine_at cmd_M253_XE somewhere)).eeconfig.size_x = 0 ∧
    (process_gcode_command cfg_eeconfig env_example
      (machine_at cmd_M244_low somewhere)).eeconfig.baud = 0 ∧
    (process_gcode_command cfg_eeconfig env_example
      (machine_at cmd_M245_row3 somewhere)).eeconfig.temptable.getD 3 ⟨0, 0⟩ = ⟨5, 7⟩ ∧
    EEField.max_speed_x.code = cmd_M253_XE.M ∧
    EEField.max_speed_x.keyed_seen cmd_M253_XE = true ∧
    EEField.code (.adc_value 3) = cmd_M245_row3.M := by
  have h := eeconfig_gating cfg_eeconfig env_example (machine_at cmd_M253_XE somewhere)
    rfl rfl rfl (by decide) (by decide) EEField.max_speed_x (by decide)
  have k := eeconfig_gating cfg_eeconfig env_example (machine_at cmd_M245_row3 somewhere)
    rfl rfl rfl (by decide) (by decide) (EEField.adc_value 3) (by decide)
  exact ⟨by decide, by decide, by decide, by decide, by decide, h.1, h.2.1, k.1⟩

/-- C15: the gating fails at `M245 S20 X5 Y7` and at `M245 S-1 X5 Y7` on a
thermistor table of 20 rows (rows 0 .. 19). The code does not check the index:
no row of the table is written and both stores land outside the table. Where
the member that follows the table in memory is `temp_residency`, the first
command changes it from 0 to 7 although it is no field of M245 and P is
absent; where the member that precedes the table is `baud`, the second command
changes it from 0 to 7 although it is no field of M245 and 7 is no accepted
baud rate. -/
theorem M245_index_unchecked :
    (machine_at cmd_M245_overrun somewhere).eeconfig.temptable.length = 20 ∧
    (machine_at cmd_M245_overrun somewhere).eeconfig.temp_residency = 0 ∧
    (machine_at cmd_M245_underrun somewhere).eeconfig.baud = 0 ∧
    (cmd_M245_overrun.seen_P = false ∧ cmd_M245_overrun.S = 20 ∧
      (process_gcode_command cfg_eeconfig env_overrun
        (machine_at cmd_M245_overrun somewhere)).eeconfig.temp_residency = 7 ∧
      (process_gcode_command cfg_eeconfig env_overrun
        (machine_at cmd_M245_overrun somewhere)).eeconfig.temptable =
        (machine_at cmd_M245_overrun somewhere).eeconfig.temptable ∧
      EEField.temp_residency.code ≠ cmd_M245_overrun.M ∧
      EEField.temp_residency.keyed_seen cmd_M245_overrun = false) ∧
    (cmd_M245_underrun.S = -1 ∧
      (process_gcode_command cfg_eeconfig env_overrun
        (machine_at cmd_M245_underrun somewhere)).eeconfig.baud = 7 ∧
      (process_gcode_command cfg_eeconfig env_overrun
        (machine_at cmd_M245_underrun somewhere)).eeconfig.temptable =
        (machine_at cmd_M245_underrun somewhere).eeconfig.temptable ∧
      EEField.baud.code ≠ cmd_M245_underrun.M) := by
  decide

/-- C16: the value is not stored as supplied. `M253 X300` under the travel
limit X_MAX = 200 mm stores 200000 in `max_speed_x`, not the 300000 carried;
`M255 X80` received in relative mode at X = 1000 stores 1080 in
`steps_per_mm_x`, not 80; the E value of `M253 X120 E30` is stored as carried. -/
theorem eeconfig_value_not_as_supplied :
    (cmd_M253_X_beyond.seen_X = true ∧ cmd_M253_X_beyond.target.X = 300000 ∧
      (process_gcode_command cfg_eeconfig_limits env_example
        (machine_at cmd_M253_X_beyond somewhere)).eeconfig.max_speed_x = 200000) ∧
    (cmd_M255_X_relative.seen_X = true ∧ cmd_M255_X_relative.target.X = 80 ∧
      (process_gcode_command cfg_eeconfig env_example
        (machine_at cmd_M255_X_relative somewhere)).eeconfig.steps_per_mm_x = 1080) ∧
    (cmd_M253_XE.seen_E = true ∧ cmd_M253_XE.target.E = 30 ∧
      (process_gcode_command cfg_eeconfig env_example
        (machine_at cmd_M253_XE somewhere)).eeconfig.max_speed_e = 30) := by
  refine ⟨⟨rfl, rfl, ?_⟩, ⟨rfl, rfl, ?_⟩, ⟨rfl, rfl, ?_⟩⟩
  · rw [(process_eeconfig cfg_eeconfig_limits env_example
      (machine_at cmd_M253_X_beyond somewhere) rfl rfl rfl).2.2.2.2.1 rfl,
      case_M253_eeconfig]
    simp [normalize_next_target, normalized_target, axis_limits_eq, convert_relative,
      machine_at, cmd_M253_X_beyond, cmd_empty, cfg_eeconfig_limits, cfg_example, after_min,
      after_max, double_to_int32]
    norm_num
  · decide
  · decide

/-- C17. Sensor id default: the `temp_set` call of M104, the `temp_print`
call of M105 and the `temp_set` call of M109 (made when S is present) carry the
sensor id `sensor_id`: the tool of the stored target, `next_target.target.T`,
when `seen_P` is clear, the supplied P when it is set; M6 is the command that
records the tool in the stored target. -/
theorem sensor_id_default (cfg : Config) (env : Env) (m : Machine)
    (hG : m.next_target.seen_G = false) (hM : m.next_target.seen_M = true) :
    (m.next_target.M = 104 →
      (process_gcode_command cfg env m).trace =
        m.trace ++ .temp_set (sensor_id m.next_target) m.next_target.S ::
          (if m.next_target.S ≠ 0 then [.power_on] else [])) ∧
    (m.next_target.M = 105 →
      (process_gcode_command cfg env m).trace =
        m.trace ++ [.temp_print (sensor_id m.next_target)]) ∧
    (m.next_target.M = 109 →
      (process_gcode_command cfg env m).trace =
        m.trace ++
          (if m.next_target.seen_S then
            [.temp_set (sensor_id m.next_target) m.next_target.S] else []) ++
          (if m.next_target.S ≠ 0 then [.power_on, .enable_heater] else [.disable_heater]) ++
          [.enqueue none]) ∧
    (m.next_target.seen_P = false → sensor_id m.next_target = m.next_target.target.T) ∧
    (m.next_target.seen_P = true → sensor_id m.next_target = m.next_target.P) ∧
    (m.next_target.M = 6 →
      (process_gcode_command cfg env m).next_target.target.T =
        if m.next_target.seen_T then m.next_target.T else m.next_tool) := by
  rw [process_M cfg env m hG hM]
  have e : (normalize cfg m).next_target.M = m.next_target.M := by
    rw [normalize_next_target]
  refine ⟨?_, ?_, ?_, ?_, ?_, ?_⟩
  · intro h
    simp only [switch_M, e, h]
    cases hP : m.next_target.seen_P <;> by_cases h0 : m.next_target.S = 0 <;>
      simp [case_M104, default_P, Machine.call, sensor_id, normalize_next_target,
        normalize_trace, normalized_target_T, hP, h0]
  · intro h
    simp only [switch_M, e, h]
    cases hP : m.next_target.seen_P <;>
      simp [case_M105, default_P, Machine.call, sensor_id, normalize_next_target,
        normalize_trace, normalized_target_T, hP]
  · intro h
    simp only [switch_M, e, h]
    cases hS : m.next_target.seen_S <;> cases hP : m.next_target.seen_P <;>
      by_cases h0 : m.next_target.S = 0 <;>
      simp [case_M109, default_P, enqueue, Machine.call, sensor_id, normalize_next_target,
        normalize_trace, normalized_target_T, hS, hP, h0]
  · intro hP
    simp [sensor_id, hP]
  · intro hP
    simp [sensor_id, hP]
  · intro h
    simp only [switch_M, e, h]
    rw [normalize_eq]
    simp

/-- Witness for C17: `M6 T2` records tool 2; `M104 S200` without P then
addresses sensor 2; `M105 P1` addresses sensor 1. -/
theorem sensor_id_default_witness :
    (process_gcode_command cfg_unlimited env_example
      (machine_at cmd_M6_T2 somewhere)).next_target.target.T = 2 ∧
    (process_gcode_command cfg_unlimited env_example
      (machine_at cmd_M104_tool2 somewhere)).trace = [.temp_set 2 200, .power_on] ∧
    (process_gcode_command cfg_unlimited env_example
      (machine_at cmd_M105_P1 somewhere)).trace = [.temp_print 1] :=
  ⟨(sensor_id_default cfg_unlimited env_example (machine_at cmd_M6_T2 somewhere)
      rfl rfl).2.2.2.2.2 rfl,
   (sensor_id_default cfg_unlimited env_example (machine_at cmd_M104_tool2 somewhere)
      rfl rfl).1 rfl,
   (sensor_id_default cfg_unlimited env_example (machine_at cmd_M105_P1 somewhere)
      rfl rfl).2.1 rfl⟩

/-- C18: the code reads S although `seen_S` is clear. Two M104 commands, two
M109 commands and two M140 commands that differ only in the stored S (0 and
200), with no S word in either, make different calls. -/
theorem absent_S_is_read :
    ((cmd_temperature_no_S 104 0).seen_S = false ∧
      (cmd_temperature_no_S 104 200).seen_S = false ∧
      cmd_temperature_no_S 104 200 = { cmd_temperature_no_S 104 0 with S := 200 } ∧
      (process_gcode_command cfg_bed env_example
        (machine_at (cmd_temperature_no_S 104 0) somewhere)).trace = [.temp_set 0 0] ∧
      (process_gcode_command cfg_bed env_example
        (machine_at (cmd_temperature_no_S 104 200) somewhere)).trace =
          [.temp_set 0 200, .power_on]) ∧
    ((process_gcode_command cfg_bed env_example
        (machine_at (cmd_temperature_no_S 109 0) somewhere)).trace =
          [.disable_heater, .enqueue none] ∧
      (process_gcode_command cfg_bed env_example
        (machine_at (cmd_temperature_no_S 109 200) somewhere)).trace =
          [.power_on, .enable_heater, .enqueue none]) ∧
    ((process_gcode_command cfg_bed env_example
        (machine_at (cmd_temperature_no_S 140 0) somewhere)).trace = [.temp_set 1 0] ∧
      (process_gcode_command cfg_bed env_example
        (machine_at (cmd_temperature_no_S 140 200) somewhere)).trace =
          [.temp_set 1 200, .power_on]) := by
  refine ⟨⟨rfl, rfl, rfl, ?_, ?_⟩, ⟨?_, ?_⟩, ⟨?_, ?_⟩⟩ <;> decide

/-- C19, as stated, fails: when `f_close` returns a result other than
`FR_OK`, M22 and M29 emit no error line, and when `disk_initialize` reports a
drive that is not ready, M21 emits none either. -/
theorem storage_failure_unreported_counterexample :
    (env_close_fails.f_close ≠ FR_OK ∧
      (process_gcode_command cfg_sd env_close_fails (machine_at cmd_M22 somewhere)).trace =
        [.f_close] ∧
      (process_gcode_command cfg_sd env_close_fails (machine_at cmd_M29 somewhere)).trace =
        [.f_close]) ∧
    (env_disk_not_ready.disk_init ≠ 0 ∧
      (process_gcode_command cfg_sd env_disk_not_ready (machine_at cmd_M21 somewhere)).trace =
        [.disk_init 0, .f_mount, .f_opendir, .serial_writestr_P "SD initialised"] ∧
      (process_gcode_command cfg_sd env_disk_not_ready
        (machine_at cmd_M21 somewhere)).trace.any is_storage_error = false) := by
  refine ⟨⟨by decide, ?_, ?_⟩, ⟨by decide, ?_, ?_⟩⟩ <;> decide

/-- C19, amended. Storage failures that are reported: a result other than
`FR_OK` of `f_mount`, `f_opendir` (M21), `f_open` (M23, M28) and `f_lseek`
(M26) is answered with one error line carrying the result; the results of
`disk_initialize` (M21) and of `f_close` (M22, M29) are not examined, those
calls are followed by no error line whatever they return. Every command
returns normally. -/
theorem storage_failures_reported (cfg : Config) (env : Env) (m : Machine)
    (hSD : cfg.SD = true) (hG : m.next_target.seen_G = false)
    (hM : m.next_target.seen_M = true) :
    (m.next_target.M = 21 →
      (env.f_mount ≠ FR_OK →
        (process_gcode_command cfg env m).trace =
          m.trace ++ [.disk_init 0, .f_mount,
            .sersendf_P "E: SD init failed: %sd!" [.num env.f_mount]]) ∧
      (env.f_mount = FR_OK → env.f_opendir ≠ FR_OK →
        (process_gcode_command cfg env m).trace =
          m.trace ++ [.disk_init 0, .f_mount, .f_opendir,
            .sersendf_P "E: read root directory failed: %sd!" [.num env.f_opendir]]) ∧
      (env.f_mount = FR_OK → env.f_opendir = FR_OK →
        (process_gcode_command cfg env m).trace =
          m.trace ++ [.disk_init 0, .f_mount, .f_opendir,
            .serial_writestr_P "SD initialised"])) ∧
    (m.next_target.M = 22 →
      (process_gcode_command cfg env m).trace = m.trace ++ [.f_close]) ∧
    (m.next_target.M = 23 → env.f_open ≠ FR_OK →
      (process_gcode_command cfg env m).trace =
        m.trace ++ [.f_open .read_existing,
          .sersendf_P "E: could not open \x27%t\x27: %sd" [.sdbuffer, .num env.f_open]]) ∧
    (m.next_target.M = 26 → env.f_lseek ≠ FR_OK →
      (process_gcode_command cfg env m).trace =
        m.trace ++ [.f_lseek m.next_target.S,
          .sersendf_P "E: seek failed: %sd" [.num env.f_lseek]]) ∧
    (m.next_target.M = 28 → env.f_open ≠ FR_OK →
      (process_gcode_command cfg env m).trace =
        m.trace ++ [.f_open .write_create_always,
          .sersendf_P "E: open failed: %sd" [.num env.f_open]]) ∧
    (m.next_target.M = 29 →
      (process_gcode_command cfg env m).trace = m.trace ++ [.f_close]) ∧
    (m.next_target.M ∈ [21, 22, 23, 26, 28, 29] →
      (process_gcode_command cfg env m).wd_loop = m.wd_loop) := by
  rw [process_M cfg env m hG hM]
  have e : (normalize cfg m).next_target.M = m.next_target.M := by
    rw [normalize_next_target]
  refine ⟨?_, ?_, ?_, ?_, ?_, ?_, ?_⟩
  · intro h
    refine ⟨?_, ?_, ?_⟩
    · intro h1
      simp [switch_M, e, h, hSD, case_M21, Machine.call, normalize_trace, h1]
    · intro h1 h2
      simp [switch_M, e, h, hSD, case_M21, Machine.call, normalize_trace, h1, h2]
    · intro h1 h2
      simp [switch_M, e, h, hSD, case_M21, Machine.call, normalize_trace, h1, h2]
  · intro h
    simp [switch_M, e, h, hSD, case_M22, Machine.call, normalize_trace]
  · intro h h1
    simp [switch_M, e, h, hSD, case_M23, Machine.call, normalize_trace, h1]
  · intro h h1
    simp [switch_M, e, h, hSD, case_M26, Machine.call, normalize_trace, normalize_next_target,
      h1]
  · intro h h1
    simp [switch_M, e, h, hSD, case_M28, Machine.call, normalize_trace, h1]
  · intro h
    simp [switch_M, e, h, hSD, case_M29, Machine.call, normalize_trace]
  · intro hk
    simp only [List.mem_cons, List.mem_singleton, List.mem_nil_iff, or_false] at hk
    rcases hk with h | h | h | h | h | h
    · by_cases h1 : env.f_mount = FR_OK <;> by_cases h2 : env.f_opendir = FR_OK <;>
        simp [switch_M, e, h, hSD, case_M21, Machine.call, normalize_wd_loop, h1, h2]
    · simp [switch_M, e, h, hSD, case_M22, Machine.call, normalize_wd_loop]
    · by_cases h1 : env.f_open = FR_OK <;>
        simp [switch_M, e, h, hSD, case_M23, Machine.call, normalize_wd_loop, h1]
    · by_cases h1 : env.f_lseek = FR_OK <;>
        simp [switch_M, e, h, hSD, case_M26, Machine.call, normalize_wd_loop, h1]
    · by_cases h1 : env.f_open = FR_OK <;>
        simp [switch_M, e, h, hSD, case_M28, Machine.call, normalize_wd_loop, h1]
    · simp [switch_M, e, h, hSD, case_M29, Machine.call, normalize_wd_loop]

/-- Witness for the amended C19: `M26 S512` when `f_lseek` fails with
result 9, and `M22` when `f_close` fails. -/
theorem storage_failures_reported_witness :
    (process_gcode_command cfg_sd env_seek_fails (machine_at cmd_M26 somewhere)).trace =
      [.f_lseek 512, .sersendf_P "E: seek failed: %sd" [.num 9]] ∧
    (process_gcode_command cfg_sd env_close_fails (machine_at cmd_M22 somewhere)).trace =
      [.f_close] ∧
    (process_gcode_command cfg_sd env_seek_fails (machine_at cmd_M26 somewhere)).wd_loop
      = false :=
  have h := storage_failures_reported cfg_sd env_seek_fails (machine_at cmd_M26 somewhere)
    rfl rfl rfl
  have k := storage_failures_reported cfg_sd env_close_fails (machine_at cmd_M22 somewhere)
    rfl rfl rfl
  ⟨h.2.2.2.1 rfl (by decide), k.2.1 rfl, h.2.2.2.2.2.2 (by decide)⟩

/-- C20. G92 naming only E, `E_ABSOLUTE` not defined: with `seen_E` set and
`seen_X`, `seen_Y`, `seen_Z` clear, the command calls `queue_wait` and changes
no position: `startpoint` and `current_position` keep every field (X, Y, Z, E,
F); the zeroing of all axes does not take place and E is not set. -/
theorem G92_only_E (cfg : Config) (env : Env) (m : Machine)
    (hG : m.next_target.seen_G = true) (h92 : m.next_target.G = 92)
    (hea : cfg.E_ABSOLUTE = false)
    (hx : m.next_target.seen_X = false) (hy : m.next_target.seen_Y = false)
    (hz : m.next_target.seen_Z = false) (he : m.next_target.seen_E = true) :
    (process_gcode_command cfg env m).startpoint = m.startpoint ∧
    (process_gcode_command cfg env m).current_position = m.current_position ∧
    (process_gcode_command cfg env m).trace =
      m.trace ++ .queue_wait :: debug_position_calls cfg m.debug_flags := by
  rw [process_G92 cfg env m hG h92, debug_position_eq]
  simp [case_G92, Machine.call, normalize_next_target, normalize_startpoint,
    normalize_current_position, normalize_trace, normalize_debug_flags, hx, hy, hz, he, hea]

/-- Witness for C20: `G92 E0` received at (1000, 2000, 3000) with E = 77. -/
theorem G92_only_E_witness :
    (process_gcode_command cfg_unlimited env_example (machine_at cmd_G92_E somewhere)).startpoint
      = ⟨1000, 2000, 3000, 77, 5, 0⟩ ∧
    (process_gcode_command cfg_unlimited env_example
      (machine_at cmd_G92_E somewhere)).current_position = ⟨1000, 2000, 3000, 77, 5, 0⟩ ∧
    (process_gcode_command cfg_unlimited env_example (machine_at cmd_G92_E somewhere)).trace
      = [.queue_wait] :=
  G92_only_E cfg_unlimited env_example (machine_at cmd_G92_E somewhere)
    rfl rfl rfl rfl rfl rfl rfl

end Teacup
